import Mathlib

/-!
# Order fulfilment and payment reconciliation core

A shallow embedding of the order and payment handlers of the storefront backend
(`controllers/orderController.js`, `controllers/paymentController.js`,
`models/Order.js`, `models/Product.js`, `utils/migrateOrders.js`).

Modelling conventions

* A MongoDB collection is the list of its documents in natural order.  `findOne`
  returns the first match, `updateOne` touches the first match, `save` rewrites the
  stored document that carries the same `_id`.  The unique index on `_id` of the order
  collection is the predicate `uniqueIds`, assumed where a statement needs it.
* JavaScript numbers: stock and line quantities are integers (`Int`; the `$inc` of
  `bulkWrite` is not validated, so a stored quantity may become negative), money
  amounts are exact rationals (`ℚ`).
* `Date.now()`, `Math.random()`, the generated `_id` and the answers of the payment
  gateway are inputs of the handlers; a handler reads the clock once.
* An exception that leaves a handler is caught by `asyncHandler` and handed to the
  error middleware; the handlers below report it as `Outcome.threw`.
* Schema validation is modelled on the paths a handler writes (`Order.create`
  validates the whole new document, `product.save()` validates `quantity`, `min: 0`);
  documents already in the store are taken to satisfy the schema on the paths a
  handler leaves alone.
-/

namespace Ecomm

/-! ## Documents -/

/-- Hexadecimal text of a MongoDB ObjectId (`_id.toString()`). -/
abbrev ObjectId := String

/-- Fields of a `Product` document that the order handlers read or write. -/
structure Product where
  _id : ObjectId
  name : String
  price : ℚ
  salePrice : Option ℚ
  quantity : Int
  inStock : Bool
  thumbnail : String
  updatedAt : Nat
  deriving DecidableEq, Repr

/-- Schema enumeration of `paymentStatus`. -/
inductive PaymentStatus where
  | pending | completed | failed | refunded
  deriving DecidableEq, Repr

/-- Schema enumeration of `orderStatus`. -/
inductive OrderStatus where
  | pending | processing | shipped | delivered | cancelled
  deriving DecidableEq, Repr

/-- Colour chosen for a line (`selectedColor`). -/
structure Color where
  name : Option String
  hex : Option String
  deriving DecidableEq, Repr

/-- Sub-document of `orderItemSchema`. -/
structure OrderItem where
  product : ObjectId
  name : String
  quantity : Int
  price : ℚ
  selectedColor : Option Color
  thumbnail : String
  deriving DecidableEq, Repr

/-- Sub-document of `shippingAddressSchema`. -/
structure ShippingAddress where
  fullName : String
  street : String
  city : String
  state : String
  zipCode : String
  country : String
  phone : String
  deriving DecidableEq, Repr

/-- A calendar date obtained by `setDate(getDate() + plusDays)` from the instant `base`. -/
structure DeliveryDate where
  base : Nat
  plusDays : Nat
  deriving DecidableEq, Repr

/-- A document of the `Order` collection. -/
structure Order where
  _id : ObjectId
  user : ObjectId
  orderNumber : String
  items : List OrderItem
  shippingAddress : ShippingAddress
  shippingMethod : String
  shippingCost : ℚ
  subtotal : ℚ
  tax : ℚ
  discount : ℚ
  couponCode : Option String
  total : ℚ
  paymentMethod : String
  paymentId : Option String
  paymentStatus : PaymentStatus
  orderStatus : OrderStatus
  estimatedDelivery : Option DeliveryDate
  cancelledAt : Option Nat
  cancellationReason : Option String
  createdAt : Nat
  updatedAt : Nat
  deriving DecidableEq, Repr

/-- Line of a cart document. -/
structure CartItem where
  product : ObjectId
  quantity : Int
  price : ℚ
  deriving DecidableEq, Repr

/-- A document of the `Cart` collection (one per user). -/
structure Cart where
  user : ObjectId
  items : List CartItem
  deriving DecidableEq, Repr

/-- The persistent state shared by all handlers. -/
structure Db where
  products : List Product
  orders : List Order
  carts : List Cart
  deriving DecidableEq, Repr

/-! ## Replies -/

/-- Exceptions that can leave a handler. -/
inductive Thrown where
  | castError
  | typeError
  | validationError
  | duplicateKey
  | gatewayError
  deriving DecidableEq, Repr

/-- Payload written by `res.json` / `res.send`. -/
inductive Body where
  | message (success : Bool) (text : String)
  | order (text : Option String) (data : Order)
  | payment (paymentStatus : String) (order : Option Order)
  | received
  | text (s : String)
  | session (sessionId : String)
  deriving DecidableEq, Repr

/-- What the caller of a handler observes. -/
inductive Outcome where
  | sent (status : Nat) (body : Body)
  | threw (e : Thrown)
  deriving DecidableEq, Repr

deriving instance DecidableEq for Except

/-! ## Store primitives -/

/-- JavaScript `a || b` on optional strings: the empty string and `undefined` are falsy. -/
def jsOr (a b : Option String) : Option String :=
  match a with
  | some s => if s = "" then b else some s
  | none => b

/-- The method `startsWith` for a three-character tag. -/
def startsWith3 (s : String) (tag : List Char) : Bool :=
  s.toList.take 3 == tag

/-- A string the driver accepts as an ObjectId: 24 hexadecimal characters. -/
def isObjectIdString (s : String) : Bool :=
  s.toList.length == 24 &&
    s.toList.all (fun c => c.isDigit || ('a' ≤ c && c ≤ 'f') || ('A' ≤ c && c ≤ 'F'))

/-- The query `Product.findById(id)`. -/
def findProduct (ps : List Product) (id : ObjectId) : Option Product :=
  ps.find? (fun p => p._id = id)

/-- Rewrite the first product document whose `_id` is `id`. -/
def updateProduct (id : ObjectId) (f : Product → Product) : List Product → List Product
  | [] => []
  | p :: ps => if p._id = id then f p :: ps else p :: updateProduct id f ps

/-- The query `Order.findOne({ _id })` on an already cast id. -/
def findOrder (os : List Order) (id : ObjectId) : Option Order :=
  os.find? (fun o => o._id = id)

/-- Rewrite the first order document whose `_id` is `id`. -/
def updateOrder (id : ObjectId) (f : Order → Order) : List Order → List Order
  | [] => []
  | o :: os => if o._id = id then f o :: os else o :: updateOrder id f os

/-- The cast of a query value to an ObjectId: the 24 hexadecimal characters, read without
regard to letter case (`toString()` of an ObjectId prints lower case). -/
def castObjectId (s : String) : Option ObjectId :=
  if isObjectIdString s then some (String.mk (s.toList.map Char.toLower)) else none

/-- `Order.findById(id)`: `undefined` finds nothing, a string that is not an ObjectId
makes the query throw a cast error. -/
def Order.findById (os : List Order) (id : Option String) : Except Thrown (Option Order) :=
  match id with
  | none => .ok none
  | some s =>
    match castObjectId s with
    | some oid => .ok (findOrder os oid)
    | none => .error .castError

/-- `order.save()` for a stored order: the `pre('save')` hook stamps `updatedAt`, then
the document with the same `_id` is rewritten.  A stored order carries its order number
(`required` in the schema), so the `pre('validate')` hook has nothing to generate. -/
def saveOrder (now : Nat) (os : List Order) (doc : Order) : List Order :=
  updateOrder doc._id (fun _ => { doc with updatedAt := now }) os

/-! ## Checkout: `createOrder` -/

/-- One entry of `req.body.items`. -/
structure ReqItem where
  productId : Option String
  product : Option String
  quantity : Int
  selectedColor : Option Color
  deriving DecidableEq, Repr

/-- The `shippingAddress` object of the request (the front end sends `address`, the
schema stores `street`). -/
structure AddressInput where
  fullName : Option String
  street : Option String
  address : Option String
  city : Option String
  state : Option String
  zipCode : Option String
  country : Option String
  phone : Option String
  deriving DecidableEq, Repr

/-- Fields destructured from `req.body` by `createOrder`. -/
structure CreateOrderBody where
  items : Option (List ReqItem)
  shippingAddress : Option AddressInput
  shippingMethod : Option String
  paymentMethod : Option String
  couponCode : Option String
  deriving DecidableEq, Repr

/-- Values a request draws from its environment: one reading of `Date.now()`, one of
`Math.random()` and the `_id` the driver generates for a new document. -/
structure Env where
  now : Nat
  random : ℚ
  newId : ObjectId

/-- One `updateOne` operation handed to `Product.bulkWrite`. -/
structure StockUpdate where
  id : ObjectId
  inc : Int
  inStock : Bool
  deriving DecidableEq, Repr

/-- Accumulators of the validation loop of `createOrder`. -/
structure Prepared where
  subtotal : ℚ
  orderItems : List OrderItem
  stockUpdates : List StockUpdate
  deriving DecidableEq, Repr

/-- The expression `item.productId || item.product`. -/
def itemProductId (item : ReqItem) : Option String :=
  jsOr item.productId item.product

/-- The expression `product.salePrice || product.price` (a sale price of 0 is falsy). -/
def unitPrice (p : Product) : ℚ :=
  match p.salePrice with
  | some s => if s = 0 then p.price else s
  | none => p.price

/-- The loop `for (const item of items)` of `createOrder`: every line is checked against
the product snapshot fetched before the loop; nothing is written. -/
def prepareItems (products : List Product) : List ReqItem → Prepared → Except Outcome Prepared
  | [], acc => .ok acc
  | item :: rest, acc =>
    match itemProductId item with
    | none => .error (.threw .typeError)
    | some productId =>
      match findProduct products productId with
      | none => .error (.sent 404 (.message false ("Product " ++ productId ++ " not found")))
      | some product =>
        if !product.inStock || product.quantity < item.quantity then
          .error (.sent 400 (.message false (product.name ++ " is not available in requested quantity")))
        else
          let price := unitPrice product
          let newQuantity := product.quantity - item.quantity
          prepareItems products rest
            { subtotal := acc.subtotal + price * item.quantity
              orderItems := acc.orderItems ++
                [{ product := product._id, name := product.name, quantity := item.quantity,
                   price := price, selectedColor := item.selectedColor,
                   thumbnail := product.thumbnail }]
              stockUpdates := acc.stockUpdates ++
                [{ id := product._id, inc := -item.quantity, inStock := decide (newQuantity > 0) }] }

/-- One `updateOne` of the bulk write: `$inc` on `quantity`, `$set` on `inStock`
(update operators bypass schema validation and the save hooks). -/
def applyStockUpdate (ps : List Product) (u : StockUpdate) : List Product :=
  updateProduct u.id (fun p => { p with quantity := p.quantity + u.inc, inStock := u.inStock }) ps

/-- The call `Product.bulkWrite(stockUpdates)`: the operations are applied in order. -/
def bulkWrite (ps : List Product) (us : List StockUpdate) : List Product :=
  us.foldl applyStockUpdate ps

/-- The `switch (shippingMethod)` of `createOrder`. -/
def shippingCostFor (m : Option String) : ℚ :=
  if m = some "Standard" then 0
  else if m = some "Express" then 1599 / 100
  else if m = some "Overnight" then 2999 / 100
  else 0

/-- Decimal digits of a number, as `toString()` prints them. -/
def decimal (n : Nat) : List Char := Nat.toDigits 10 n

/-- The method `slice(-8)`: the last eight characters. -/
def sliceLast8 (l : List Char) : List Char := l.drop (l.length - 8)

/-- The method `padStart(4, '0')`. -/
def padStart4 (l : List Char) : List Char := List.replicate (4 - l.length) '0' ++ l

/-- The order number built by the `pre('validate')` hook from `Date.now()` and
`Math.random()`. -/
def generateOrderNumber (now : Nat) (random : ℚ) : String :=
  String.mk ("ATW-".toList ++ sliceLast8 (decimal now) ++ ['-'] ++
    padStart4 (decimal (Rat.floor (random * 10000)).toNat))

/-- The method `calculateEstimatedDelivery`: the offset in days. -/
def daysToAdd (shippingMethod : String) : Nat :=
  if shippingMethod = "Express" then 2
  else if shippingMethod = "Overnight" then 1
  else 5

/-- The method `calculateEstimatedDelivery`: the date it computes and returns
(`estimatedDate`), the current date moved forward by `daysToAdd` calendar days. -/
def Order.estimatedDate (now : Nat) (o : Order) : DeliveryDate :=
  { base := now, plusDays := daysToAdd o.shippingMethod }

/-- The method `calculateEstimatedDelivery` of an order document: the document after
`this.estimatedDelivery = estimatedDate`. -/
def Order.calculateEstimatedDelivery (now : Nat) (o : Order) : Order :=
  { o with estimatedDelivery := some (o.estimatedDate now) }

/-- A `required: true` string path: present and not empty. -/
def requiredString (s : Option String) : Bool :=
  match s with
  | some v => v != ""
  | none => false

/-- The address object passed to `Order.create`: `street` falls back to `address`,
`country` to `'USA'`. -/
def mapShippingAddress (a : AddressInput) : AddressInput :=
  { a with street := jsOr a.street a.address, country := jsOr a.country (some "USA") }

/-- Validation of `shippingAddressSchema`: every field but `country` is required. -/
def validAddress (a : AddressInput) : Bool :=
  requiredString a.fullName && requiredString a.street && requiredString a.city &&
  requiredString a.state && requiredString a.zipCode && requiredString a.phone

/-- Validation of `orderItemSchema`: `name` required, `quantity` at least 1. -/
def validOrderItem (i : OrderItem) : Bool :=
  i.name != "" && decide (1 ≤ i.quantity)

/-- The enumeration of `shippingMethod` in `orderSchema`. -/
def validShippingMethod (m : String) : Bool :=
  m = "Standard" || m = "Express" || m = "Overnight"

/-- The enumeration of `paymentMethod` in `orderSchema`. -/
def validPaymentMethod (m : String) : Bool :=
  m = "card" || m = "cod" || m = "stripe" || m = "paypal" || m = "credit_card"

/-- The stored form of a validated address. -/
def storeAddress (a : AddressInput) : ShippingAddress :=
  { fullName := a.fullName.getD "", street := a.street.getD "", city := a.city.getD "",
    state := a.state.getD "", zipCode := a.zipCode.getD "", country := a.country.getD "USA",
    phone := a.phone.getD "" }

/-- Arguments of the `Order.create` call of `createOrder`. -/
structure NewOrder where
  user : ObjectId
  items : List OrderItem
  shippingAddress : AddressInput
  shippingMethod : Option String
  shippingCost : ℚ
  subtotal : ℚ
  tax : ℚ
  discount : ℚ
  couponCode : Option String
  total : ℚ
  paymentMethod : Option String
  paymentStatus : PaymentStatus
  orderStatus : OrderStatus

/-- The call `Order.create(doc)`: schema defaults, the `pre('validate')` hook that
generates the order number, schema validation, then the insert, which the unique
indexes on `_id` and `orderNumber` can reject. -/
def Order.create (env : Env) (os : List Order) (d : NewOrder) : Except Thrown (List Order × Order) :=
  let shippingMethod := d.shippingMethod.getD "Standard"
  let paymentMethod := d.paymentMethod.getD "card"
  let orderNumber := generateOrderNumber env.now env.random
  if !(d.items.all validOrderItem && validAddress d.shippingAddress &&
        validShippingMethod shippingMethod && validPaymentMethod paymentMethod) then
    .error .validationError
  else if os.any (fun o => o._id = env.newId || o.orderNumber = orderNumber) then
    .error .duplicateKey
  else
    let doc : Order :=
      { _id := env.newId, user := d.user, orderNumber := orderNumber, items := d.items,
        shippingAddress := storeAddress d.shippingAddress, shippingMethod := shippingMethod,
        shippingCost := d.shippingCost, subtotal := d.subtotal, tax := d.tax,
        discount := d.discount, couponCode := d.couponCode, total := d.total,
        paymentMethod := paymentMethod, paymentId := none,
        paymentStatus := d.paymentStatus, orderStatus := d.orderStatus,
        estimatedDelivery := none, cancelledAt := none, cancellationReason := none,
        createdAt := env.now, updatedAt := env.now }
    .ok (os ++ [doc], doc)

/-- The call `Cart.findOneAndUpdate({ user }, { items: [] })`. -/
def clearCart (user : ObjectId) : List Cart → List Cart
  | [] => []
  | c :: cs => if c.user = user then { c with items := [] } :: cs else c :: clearCart user cs

/-- The handler `createOrder` for the authenticated user `user`.  The confirmation
e-mail is sent inside a `try`/`catch` and touches no stored state, so it is left out. -/
def createOrder (env : Env) (db : Db) (user : ObjectId) (body : CreateOrderBody) : Db × Outcome :=
  match body.items with
  | none => (db, .sent 400 (.message false "No order items provided"))
  | some [] => (db, .sent 400 (.message false "No order items provided"))
  | some items =>
    -- Product.find({ _id: { $in: productIds } }) casts every id
    if !(items.all (fun item => match itemProductId item with
                                | some s => isObjectIdString s
                                | none => true)) then
      (db, .threw .castError)
    else
      match prepareItems db.products items { subtotal := 0, orderItems := [], stockUpdates := [] } with
      | .error out => (db, out)
      | .ok prep =>
        let db1 : Db := { db with products := bulkWrite db.products prep.stockUpdates }
        let shippingCost := shippingCostFor body.shippingMethod
        let tax := prep.subtotal * (8 / 100)
        let discount : ℚ := 0
        let total := prep.subtotal + shippingCost + tax - discount
        match body.shippingAddress with
        | none => (db1, .threw .typeError)
        | some shippingAddress =>
          let initialOrderStatus :=
            if body.paymentMethod = some "cod" then OrderStatus.processing else OrderStatus.pending
          match Order.create env db1.orders
              { user := user, items := prep.orderItems,
                shippingAddress := mapShippingAddress shippingAddress,
                shippingMethod := body.shippingMethod, shippingCost := shippingCost,
                subtotal := prep.subtotal, tax := tax, discount := discount,
                couponCode := body.couponCode, total := total,
                paymentMethod := body.paymentMethod, paymentStatus := .pending,
                orderStatus := initialOrderStatus } with
          | .error e => (db1, .threw e)
          | .ok (orders, created) =>
            let order := created.calculateEstimatedDelivery env.now
            let db2 : Db := { db1 with orders := saveOrder env.now orders order }
            let db3 : Db := { db2 with carts := clearCart user db2.carts }
            (db3, .sent 201 (.order (some "Order created successfully") order))

/-! ## Order lookup and cancellation -/

/-- The helper `findOrderByIdOrNumber`: the order number is tried first, then the
internal id; a cast error of the second query is swallowed. -/
def findOrderByIdOrNumber (os : List Order) (orderId : String) : Option Order :=
  match os.find? (fun o => o.orderNumber = orderId) with
  | some o => some o
  | none =>
    match Order.findById os (some orderId) with
    | .ok r => r
    | .error _ => none

/-- The helper `findOrderByIdOrNumberPopulated`: the same two queries; `populate` only
decorates the returned document and is not stored. -/
def findOrderByIdOrNumberPopulated (os : List Order) (orderId : String)
    (populateItems : Bool) : Option Order :=
  match (if populateItems then os.find? (fun o => o.orderNumber = orderId)
         else os.find? (fun o => o.orderNumber = orderId)) with
  | some o => some o
  | none =>
    match (if populateItems then Order.findById os (some orderId)
           else Order.findById os (some orderId)) with
    | .ok r => r
    | .error _ => none

/-- The loop `for (const item of order.items)` of `cancelOrder`: each product is read,
its quantity raised, `inStock` set and the document saved; a product that no longer
exists is skipped; a save rejected by the schema (`quantity`, `min: 0`) throws and
ends the loop with the earlier restores already stored. -/
def restoreItems (now : Nat) : List Product → List OrderItem → List Product × Option Thrown
  | ps, [] => (ps, none)
  | ps, item :: rest =>
    match findProduct ps item.product with
    | none => restoreItems now ps rest
    | some product =>
      let quantity := product.quantity + item.quantity
      if quantity < 0 then (ps, some .validationError)
      else
        restoreItems now
          (updateProduct item.product
            (fun _ => { product with quantity := quantity, inStock := true, updatedAt := now }) ps)
          rest

/-- The handler `cancelOrder` for the authenticated user `user`. -/
def cancelOrder (now : Nat) (db : Db) (user : ObjectId) (orderId : String)
    (reason : Option String) : Db × Outcome :=
  match findOrderByIdOrNumber db.orders orderId with
  | none => (db, .sent 404 (.message false "Order not found"))
  | some order =>
    if order.user ≠ user then
      (db, .sent 403 (.message false "Not authorized to cancel this order"))
    else if !(order.orderStatus = .pending || order.orderStatus = .processing) then
      (db, .sent 400 (.message false "Order cannot be cancelled at this stage"))
    else
      let order1 : Order :=
        { order with orderStatus := .cancelled, cancelledAt := some now,
                     cancellationReason := jsOr reason (some "Cancelled by user") }
      match restoreItems now db.products order1.items with
      | (ps, some e) => ({ db with products := ps }, .threw e)
      | (ps, none) =>
        let orders := saveOrder now db.orders order1
        ({ db with products := ps, orders := orders },
         .sent 200 (.order (some "Order cancelled successfully") { order1 with updatedAt := now }))

/-! ## Payment reconciliation -/

/-- The `metadata` object of a checkout session. -/
structure SessionMetadata where
  orderId : Option String
  userId : Option String
  deriving DecidableEq, Repr

/-- The object carried by a gateway event or returned by a retrieve call: a checkout
session (`id`, `metadata`, `payment_intent`, `payment_status`) or a payment intent
(`id`, `status`). -/
structure StripeObject where
  id : String
  metadata : Option SessionMetadata
  payment_intent : Option String
  payment_status : String
  status : String
  deriving DecidableEq, Repr

/-- A gateway event as returned by `stripe.webhooks.constructEvent`. -/
structure StripeEvent where
  type : String
  object : StripeObject
  deriving DecidableEq, Repr

/-- The external payment gateway: `checkout.sessions.retrieve` and
`paymentIntents.retrieve`; a call may throw (unknown reference, transport failure,
timeout). -/
structure Gateway where
  sessionsRetrieve : String → Except Thrown (Option StripeObject)
  paymentIntentsRetrieve : String → Except Thrown (Option StripeObject)

/-- The handler `stripeWebhook`.  `verified` is the result of
`stripe.webhooks.constructEvent(req.body, sig, secret)`: the event, or the message of
the signature error. -/
def stripeWebhook (now : Nat) (db : Db) (verified : Except String StripeEvent) : Db × Outcome :=
  match verified with
  | .error msg => (db, .sent 400 (.text ("Webhook Error: " ++ msg)))
  | .ok event =>
    if event.type = "checkout.session.completed" then
      let session := event.object
      match session.metadata with
      | none => (db, .threw .typeError)
      | some metadata =>
        match Order.findById db.orders metadata.orderId with
        | .error e => (db, .threw e)
        | .ok none => (db, .sent 200 .received)
        | .ok (some order) =>
          let order1 : Order :=
            { order with paymentStatus := .completed, paymentId := session.payment_intent,
                         orderStatus := .processing }
          ({ db with orders := saveOrder now db.orders order1 }, .sent 200 .received)
    else if event.type = "payment_intent.payment_failed" then
      let failedPayment := event.object
      match db.orders.find? (fun o => o.paymentId = some failedPayment.id) with
      | none => (db, .sent 200 .received)
      | some failedOrder =>
        let order1 : Order := { failedOrder with paymentStatus := .failed }
        ({ db with orders := saveOrder now db.orders order1 }, .sent 200 .received)
    else
      (db, .sent 200 .received)

/-- The handler `verifyPayment` for the session reference `sessionId`. -/
def verifyPayment (gw : Gateway) (now : Nat) (db : Db) (sessionId : String) : Db × Outcome :=
  match gw.sessionsRetrieve sessionId with
  | .error e => (db, .threw e)
  | .ok none => (db, .sent 404 (.message false "Session not found"))
  | .ok (some session) =>
    match session.metadata with
    | none => (db, .threw .typeError)
    | some metadata =>
      match Order.findById db.orders metadata.orderId with
      | .error e => (db, .threw e)
      | .ok none => (db, .sent 200 (.payment session.payment_status none))
      | .ok (some order) =>
        if session.payment_status = "paid" ∧ order.paymentStatus ≠ .completed then
          let order1 : Order :=
            { order with paymentStatus := .completed, paymentId := session.payment_intent,
                         orderStatus := .processing }
          ({ db with orders := saveOrder now db.orders order1 },
           .sent 200 (.payment session.payment_status (some { order1 with updatedAt := now })))
        else
          (db, .sent 200 (.payment session.payment_status (some order)))

/-- The `try` block of the auto-verification in `getOrderById`: the order to save, if
the gateway confirms the payment; `none` when nothing is to be saved, also when the
gateway call throws (the `catch` only logs). -/
def autoVerify (gw : Gateway) (order : Order) (paymentId : String) : Option Order :=
  if startsWith3 paymentId ['c', 's', '_'] then
    match gw.sessionsRetrieve paymentId with
    | .ok (some session) =>
      if session.payment_status = "paid" then
        some { order with paymentStatus := .completed, orderStatus := .processing,
                          paymentId := session.payment_intent }
      else none
    | _ => none
  else if startsWith3 paymentId ['p', 'i', '_'] then
    match gw.paymentIntentsRetrieve paymentId with
    | .ok (some paymentIntent) =>
      if paymentIntent.status = "succeeded" then
        some { order with paymentStatus := .completed, orderStatus := .processing }
      else none
    | _ => none
  else none

/-- The handler `getOrderById` for the authenticated user `user`. -/
def getOrderById (gw : Gateway) (now : Nat) (db : Db) (user : ObjectId) (orderId : String) :
    Db × Outcome :=
  match findOrderByIdOrNumberPopulated db.orders orderId true with
  | none => (db, .sent 404 (.message false "Order not found"))
  | some order =>
    if order.user ≠ user then
      (db, .sent 403 (.message false "Not authorized to access this order"))
    else
      match (if order.paymentStatus = .pending ∧ order.paymentMethod = "card" then
               (jsOr order.paymentId none).bind (autoVerify gw order)
             else none) with
      | some order1 =>
        ({ db with orders := saveOrder now db.orders order1 },
         .sent 200 (.order none { order1 with updatedAt := now }))
      | none => (db, .sent 200 (.order none order))

/-! ## Checkout session -/

/-- One entry of `line_items` handed to the gateway: `price_data.product_data.name`,
`price_data.unit_amount` (cents) and `quantity`. -/
structure LineItem where
  name : String
  unit_amount : Int
  quantity : Int
  deriving DecidableEq, Repr

/-- The function `Math.round`: the nearest integer, halves rounded up. -/
def jsRound (x : ℚ) : Int := Rat.floor (x + 1 / 2)

/-- The `line_items` that `createCheckoutSession` builds: one entry per order line, one
for shipping when its cost is positive, one for tax when it is positive. -/
def checkoutLineItems (order : Order) : List LineItem :=
  order.items.map (fun item =>
    { name := item.name, unit_amount := jsRound (item.price * 100), quantity := item.quantity }) ++
  (if order.shippingCost > 0 then
    [{ name := "Shipping - " ++ order.shippingMethod,
       unit_amount := jsRound (order.shippingCost * 100), quantity := 1 }]
   else []) ++
  (if order.tax > 0 then
    [{ name := "Tax", unit_amount := jsRound (order.tax * 100), quantity := 1 }]
   else [])

/-- The amount the gateway charges for a list of line items, in cents. -/
def chargedCents (items : List LineItem) : Int :=
  (items.map (fun li => li.unit_amount * li.quantity)).sum

/-- The handler `createCheckoutSession` for the authenticated user `user`.  `create` is
the gateway call `stripe.checkout.sessions.create`, which receives the line items; the
reply carries the session id (and the session's url, not modelled). -/
def createCheckoutSession (create : List LineItem → Except Thrown StripeObject) (now : Nat)
    (db : Db) (user : ObjectId) (orderId : Option String) : Db × Outcome :=
  match Order.findById db.orders orderId with
  | .error e => (db, .threw e)
  | .ok none => (db, .sent 404 (.message false "Order not found"))
  | .ok (some order) =>
    if order.user ≠ user then
      (db, .sent 403 (.message false "Not authorized"))
    else
      match create (checkoutLineItems order) with
      | .error e => (db, .threw e)
      | .ok session =>
        let order1 : Order := { order with paymentId := some session.id }
        ({ db with orders := saveOrder now db.orders order1 }, .sent 200 (.session session.id))

/-! ## The two phases of a checkout -/

/-- The first phase of `createOrder`, up to the end of the validation loop: the product
snapshot is read (`await Product.find`) and every line is checked against it; nothing is
written. -/
def checkoutValidate (db : Db) (body : CreateOrderBody) : Except Outcome Prepared :=
  match body.items with
  | none => .error (.sent 400 (.message false "No order items provided"))
  | some [] => .error (.sent 400 (.message false "No order items provided"))
  | some items =>
    if !(items.all (fun item => match itemProductId item with
                                | some s => isObjectIdString s
                                | none => true)) then
      .error (.threw .castError)
    else
      prepareItems db.products items { subtotal := 0, orderItems := [], stockUpdates := [] }

/-- The second phase of `createOrder`, from `await Product.bulkWrite(stockUpdates)` on:
the prepared updates are applied to the store as it is when the write arrives, then the
order is created. -/
def checkoutCommit (env : Env) (db : Db) (user : ObjectId) (body : CreateOrderBody)
    (prep : Prepared) : Db × Outcome :=
  let db1 : Db := { db with products := bulkWrite db.products prep.stockUpdates }
  let shippingCost := shippingCostFor body.shippingMethod
  let tax := prep.subtotal * (8 / 100)
  let discount : ℚ := 0
  let total := prep.subtotal + shippingCost + tax - discount
  match body.shippingAddress with
  | none => (db1, .threw .typeError)
  | some shippingAddress =>
    let initialOrderStatus :=
      if body.paymentMethod = some "cod" then OrderStatus.processing else OrderStatus.pending
    match Order.create env db1.orders
        { user := user, items := prep.orderItems,
          shippingAddress := mapShippingAddress shippingAddress,
          shippingMethod := body.shippingMethod, shippingCost := shippingCost,
          subtotal := prep.subtotal, tax := tax, discount := discount,
          couponCode := body.couponCode, total := total,
          paymentMethod := body.paymentMethod, paymentStatus := .pending,
          orderStatus := initialOrderStatus } with
    | .error e => (db1, .threw e)
    | .ok (orders, created) =>
      let order := created.calculateEstimatedDelivery env.now
      let db2 : Db := { db1 with orders := saveOrder env.now orders order }
      let db3 : Db := { db2 with carts := clearCart user db2.carts }
      (db3, .sent 201 (.order (some "Order created successfully") order))

/-! ## Traces of payment and cancellation steps -/

/-- A request that reaches an existing order. -/
inductive Action where
  | cancelOrder (user : ObjectId) (orderId : String) (reason : Option String)
  | stripeWebhook (verified : Except String StripeEvent)
  | verifyPayment (sessionId : String)
  | getOrderById (user : ObjectId) (orderId : String)

/-- One request, served at time `now` while the gateway answers as `gw`. -/
structure Request where
  gw : Gateway
  now : Nat
  action : Action

/-- Serve one request. -/
def step (db : Db) (r : Request) : Db :=
  match r.action with
  | .cancelOrder user orderId reason => (cancelOrder r.now db user orderId reason).1
  | .stripeWebhook verified => (stripeWebhook r.now db verified).1
  | .verifyPayment sessionId => (verifyPayment r.gw r.now db sessionId).1
  | .getOrderById user orderId => (getOrderById r.gw r.now db user orderId).1

/-- Serve a sequence of requests one after the other. -/
def run (db : Db) (rs : List Request) : Db :=
  rs.foldl step db

/-! ## Views and store invariants used by the statements -/

/-- The part of an order that pricing fixes at checkout, together with its key. -/
def Order.priced (o : Order) : ObjectId × List OrderItem × ℚ × ℚ × ℚ × ℚ × ℚ :=
  (o._id, o.items, o.subtotal, o.shippingCost, o.tax, o.discount, o.total)

/-- The unique index on `_id`. -/
def uniqueIds (os : List Order) : Prop := (os.map (fun o => o._id)).Nodup

instance (os : List Order) : Decidable (uniqueIds os) := by
  unfold uniqueIds; infer_instance

/-- An order with its `updatedAt` stamp blanked: every field a handler can observe
apart from the time of the last save. -/
def Order.unstamped (o : Order) : Order := { o with updatedAt := 0 }

/-- Units of product `pid` on the lines of an order. -/
def orderedQuantity (items : List OrderItem) (pid : ObjectId) : Int :=
  ((items.filter (fun i => i.product = pid)).map (fun i => i.quantity)).sum

/-- The HTTP status of a reply, if one was sent. -/
def Outcome.status : Outcome → Option Nat
  | .sent s _ => some s
  | .threw _ => none

/-- The product a request line names, as the handler resolves it: the id expression
looked up in the product snapshot. -/
def lineProduct (ps : List Product) (item : ReqItem) : Option Product :=
  (itemProductId item).bind (findProduct ps)

/-- The line total the loop adds to `subtotal` for a request line. -/
def lineTotal (ps : List Product) (item : ReqItem) : ℚ :=
  match lineProduct ps item with
  | some p => unitPrice p * item.quantity
  | none => 0

/-- The order line the loop pushes for a request line that names product `p`. -/
def capturedItem (item : ReqItem) (p : Product) : OrderItem :=
  { product := p._id, name := p.name, quantity := item.quantity, price := unitPrice p,
    selectedColor := item.selectedColor, thumbnail := p.thumbnail }

/-- The stock update the loop pushes for a request line that names product `p`. -/
def stockUpdateFor (item : ReqItem) (p : Product) : StockUpdate :=
  { id := p._id, inc := -item.quantity, inStock := decide (p.quantity - item.quantity > 0) }

/-- Units of product `pid` requested across all lines of a request. -/
def requestedQuantity (items : List ReqItem) (pid : ObjectId) : Int :=
  ((items.filter (fun i => itemProductId i = some pid)).map (fun i => i.quantity)).sum

/-- The unit price in the words of the pricing rule: the sale price when one is set, the
regular price otherwise. -/
def statedUnitPrice (p : Product) : ℚ :=
  match p.salePrice with
  | some s => s
  | none => p.price

/-- The unit price of the pricing rule with a sale price of 0 read as no sale price. -/
def referenceUnitPrice (p : Product) : ℚ :=
  match p.salePrice with
  | some s => if s ≠ 0 then s else p.price
  | none => p.price

/-- The reference subtotal: the sum over the request's lines of unit price times
quantity, for a given unit-price rule. -/
def referenceSubtotal (price : Product → ℚ) (ps : List Product) (items : List ReqItem) : ℚ :=
  (items.map (fun item =>
    match lineProduct ps item with
    | some p => price p * item.quantity
    | none => 0)).sum

/-- A request line that carries a product id in the canonical text of an ObjectId
(24 hexadecimal characters, lower case), as `_id.toString()` prints it. -/
def wellFormedLine (item : ReqItem) : Bool :=
  match itemProductId item with
  | some s => castObjectId s == some s
  | none => false

/-- An offending line: the product it names is absent from the catalog, or is
unavailable, or has a quantity-on-hand below the requested quantity. -/
def offending (ps : List Product) (item : ReqItem) : Bool :=
  match lineProduct ps item with
  | none => true
  | some p => !p.inStock || decide (p.quantity < item.quantity)

/-- The reply an offending line calls for: NotFound (404) when the product is absent,
InsufficientStock (400) otherwise. -/
def rejectionFor (ps : List Product) (item : ReqItem) : Outcome :=
  match lineProduct ps item with
  | none =>
    .sent 404 (.message false ("Product " ++ (itemProductId item).getD "" ++ " not found"))
  | some p => .sent 400 (.message false (p.name ++ " is not available in requested quantity"))

/-- The unique index on `orderNumber`. -/
def uniqueOrderNumbers (os : List Order) : Prop := (os.map (fun o => o.orderNumber)).Nodup

instance (os : List Order) : Decidable (uniqueOrderNumbers os) := by
  unfold uniqueOrderNumbers; infer_instance

/-- An amount that is a whole number of cents. -/
def isWholeCents (x : ℚ) : Bool := (x * 100).den == 1

/-- Rounding to two decimal places, as `Math.round(x * 100) / 100` does it. -/
def roundToCents (x : ℚ) : ℚ := (Rat.floor (x * 100 + 1 / 2) : ℚ) / 100

/-- The gateway confirms the payment behind the reference `pid`: the checkout session is
reported paid, or the payment intent is reported succeeded. -/
def gatewayConfirms (gw : Gateway) (pid : String) : Bool :=
  (match gw.sessionsRetrieve pid with
   | .ok (some s) => decide (s.payment_status = "paid")
   | _ => false) ||
  (match gw.paymentIntentsRetrieve pid with
   | .ok (some p) => decide (p.status = "succeeded")
   | _ => false)

/-- An entry of `items` as a client may send it: the fields the handler reads, together
with a price and a name of the client's choosing. -/
structure ClientItem where
  productId : Option String
  product : Option String
  quantity : Int
  selectedColor : Option Color
  price : Option ℚ
  name : Option String
  deriving DecidableEq, Repr

/-- A request body as a client may send it: the fields `createOrder` destructures,
together with amounts of the client's choosing. -/
structure ClientBody where
  items : Option (List ClientItem)
  shippingAddress : Option AddressInput
  shippingMethod : Option String
  paymentMethod : Option String
  couponCode : Option String
  subtotal : Option ℚ
  tax : Option ℚ
  discount : Option ℚ
  total : Option ℚ
  deriving DecidableEq, Repr

/-- The fields of an item that `createOrder` reads (`productId`, `product`, `quantity`,
`selectedColor`). -/
def ClientItem.read (i : ClientItem) : ReqItem :=
  { productId := i.productId, product := i.product, quantity := i.quantity,
    selectedColor := i.selectedColor }

/-- The destructuring `const { items, shippingAddress, shippingMethod, paymentMethod,
couponCode } = req.body`. -/
def ClientBody.read (b : ClientBody) : CreateOrderBody :=
  { items := b.items.map (fun l => l.map ClientItem.read), shippingAddress := b.shippingAddress,
    shippingMethod := b.shippingMethod, paymentMethod := b.paymentMethod,
    couponCode := b.couponCode }

/-- What two requests must share to order the same goods: product id, quantity and
selected colour of a line. -/
def lineKey (i : ReqItem) : Option String × Int × Option Color :=
  (itemProductId i, i.quantity, i.selectedColor)

/-! ## Order numbers: the validation hook and the migration routines -/

/-- The `pre('validate')` hook of the order schema: an order without an order number
gets one from `Date.now()` and `Math.random()`, any other order is left as it is.  The
test `!this.orderNumber` holds for a missing or empty number, written `""` here. -/
def preValidate (now : Nat) (random : ℚ) (o : Order) : Order :=
  if o.orderNumber = "" then { o with orderNumber := generateOrderNumber now random } else o

/-- The method `order.save()` with both hooks spelled out: `pre('validate')`, then
`pre('save')` and the write. -/
def Order.save (now : Nat) (random : ℚ) (os : List Order) (doc : Order) : List Order :=
  saveOrder now os (preValidate now random doc)

/-- Loop body of the two migration routines (`migrateOrders` and `migrateOrderNumbers`):
the number is built from `order.createdAt.getTime()` and a fresh `Math.random()`, then
`order.save()` writes it, which the unique index on `orderNumber` can reject.  The number
just assigned is not empty, so the hook of that `save` has nothing to generate. -/
def migrateOrder (now : Nat) (random : ℚ) (os : List Order) (order : Order) :
    Except Thrown (List Order) :=
  let orderNumber := generateOrderNumber order.createdAt random
  if os.any (fun o => o._id ≠ order._id && o.orderNumber = orderNumber) then
    .error .duplicateKey
  else
    .ok (saveOrder now os { order with orderNumber := orderNumber })

/-- Number spelled by a string of decimal digits. -/
def decimalValue (l : List Char) : Nat :=
  l.foldl (fun acc c => 10 * acc + (c.toNat - 48)) 0

/-- The shape `ATW-<8 digits>-<4 digits>`, the first group spelling `hi` and the second
spelling `lo`. -/
def orderNumberFormat (s : String) (hi lo : Nat) : Bool :=
  let l := s.toList
  let d8 := (l.drop 4).take 8
  let d4 := l.drop 13
  l == "ATW-".toList ++ d8 ++ ['-'] ++ d4 &&
    d8.length == 8 && d4.length == 4 &&
    d8.all Char.isDigit && d4.all Char.isDigit &&
    decimalValue d8 == hi && decimalValue d4 == lo

/-- The identity of an order: its `_id` and its order number. -/
def Order.numbered (o : Order) : ObjectId × String := (o._id, o.orderNumber)

/-! ## Sample data for the concrete instances -/

def sampleProductId : ObjectId := "64b000000000000000000001"
def sampleUserId : ObjectId := "64c000000000000000000001"
def sampleOrderId : ObjectId := "64d000000000000000000001"

def sampleProduct : Product :=
  { _id := sampleProductId, name := "Laptop", price := 100, salePrice := none, quantity := 5,
    inStock := true, thumbnail := "laptop.png", updatedAt := 0 }

def sampleDb : Db := { products := [sampleProduct], orders := [], carts := [] }

def sampleAddress : AddressInput :=
  { fullName := some "Ada Byron", street := none, address := some "1 Main St", city := some "Pune",
    state := some "MH", zipCode := some "411001", country := none, phone := some "5550100" }

def sampleLine (q : Int) : ReqItem :=
  { productId := some sampleProductId, product := none, quantity := q, selectedColor := none }

def sampleBody (lines : List ReqItem) (shippingMethod : String) : CreateOrderBody :=
  { items := some lines, shippingAddress := some sampleAddress,
    shippingMethod := some shippingMethod, paymentMethod := some "card", couponCode := none }

def sampleEnv : Env := { now := 1700000000123, random := 1 / 4, newId := sampleOrderId }

def sampleOrder : Order :=
  { _id := sampleOrderId, user := sampleUserId, orderNumber := "ATW-00000123-2500",
    items := [{ product := sampleProductId, name := "Laptop", quantity := 2, price := 100,
                selectedColor := none, thumbnail := "laptop.png" }],
    shippingAddress := { fullName := "Ada Byron", street := "1 Main St", city := "Pune",
                         state := "MH", zipCode := "411001", country := "USA",
                         phone := "5550100" },
    shippingMethod := "Standard", shippingCost := 0, subtotal := 200, tax := 16, discount := 0,
    couponCode := none, total := 216, paymentMethod := "card", paymentId := none,
    paymentStatus := .pending, orderStatus := .pending,
    estimatedDelivery := some { base := 1700000000123, plusDays := 5 },
    cancelledAt := none, cancellationReason := none,
    createdAt := 1700000000123, updatedAt := 1700000000123 }

def sampleDbAfter : Db :=
  { products := [{ sampleProduct with quantity := 3 }], orders := [sampleOrder], carts := [] }

def sampleSession : StripeObject :=
  { id := "cs_test_1", metadata := some { orderId := some sampleOrderId, userId := some sampleUserId },
    payment_intent := some "pi_test_1", payment_status := "paid", status := "complete" }

def sampleEvent : StripeEvent := { type := "checkout.session.completed", object := sampleSession }

def sampleGateway : Gateway :=
  { sessionsRetrieve := fun id => if id = "cs_test_1" then .ok (some sampleSession) else .error .gatewayError
    paymentIntentsRetrieve := fun _ => .error .gatewayError }

def sampleTrace : List Request :=
  [ { gw := sampleGateway, now := 1700000001000, action := .stripeWebhook (.ok sampleEvent) },
    { gw := sampleGateway, now := 1700000002000, action := .getOrderById sampleUserId "ATW-00000123-2500" },
    { gw := sampleGateway, now := 1700000003000, action := .cancelOrder sampleUserId sampleOrderId none } ]

def sampleDbTaken : Db :=
  { sampleDb with orders := [{ sampleOrder with _id := "64d000000000000000000002" }] }

def samplePaidOrder : Order :=
  { sampleOrder with paymentStatus := .completed, orderStatus := .shipped,
                     paymentId := some "pi_test_1" }

def sampleDbPaid : Db := { sampleDbAfter with orders := [samplePaidOrder] }

def sampleFailedEvent : StripeEvent :=
  { type := "payment_intent.payment_failed",
    object := { id := "pi_test_1", metadata := none, payment_intent := none,
                payment_status := "", status := "requires_payment_method" } }

def sampleCancelled : Order :=
  { sampleOrder with orderStatus := .cancelled, cancelledAt := some 1700000003000,
                     cancellationReason := some "Cancelled by user", updatedAt := 1700000003000 }

def sampleDbCancelled : Db :=
  { products := [{ sampleProduct with updatedAt := 1700000003000 }], orders := [sampleCancelled],
    carts := [] }

def sampleCardOrder : Order := { sampleOrder with paymentId := some "cs_test_1" }

def sampleDbCard : Db := { sampleDbAfter with orders := [sampleCardOrder] }

def sampleStripeOrder : Order :=
  { sampleOrder with paymentMethod := "stripe", paymentId := some "cs_test_1" }

def sampleDbStripe : Db := { sampleDbAfter with orders := [sampleStripeOrder] }

def samplePaidCard : Order :=
  { sampleCardOrder with paymentStatus := .completed, orderStatus := .processing,
                         paymentId := some "pi_test_1", updatedAt := 1700000005000 }

def sampleZeroSaleDb : Db :=
  { sampleDb with products := [{ sampleProduct with salePrice := some 0 }] }

def sampleExpressOrder : Order :=
  { sampleOrder with shippingMethod := "Express", shippingCost := 1599 / 100,
                     total := 23199 / 100,
                     estimatedDelivery := some { base := 1700000000123, plusDays := 2 } }

def sampleDbExpress : Db := { sampleDbAfter with orders := [sampleExpressOrder] }

def sampleCodBody : CreateOrderBody :=
  { sampleBody [sampleLine 2] "Standard" with paymentMethod := some "cod" }

def sampleCodOrder : Order :=
  { sampleOrder with paymentMethod := "cod", orderStatus := .processing }

def sampleDbCod : Db := { sampleDbAfter with orders := [sampleCodOrder] }

def sampleCableDb : Db :=
  { sampleDb with products := [{ sampleProduct with name := "Cable", price := 3999 / 100 }] }

def sampleOtherUserId : ObjectId := "64c000000000000000000002"

def sampleDownGateway : Gateway :=
  { sessionsRetrieve := fun _ => .error .gatewayError
    paymentIntentsRetrieve := fun _ => .error .gatewayError }

def sampleGoneProductId : ObjectId := "64b000000000000000000002"

def sampleTwoLineOrder : Order :=
  { sampleOrder with items :=
      [ { product := sampleProductId, name := "Laptop", quantity := 2, price := 100,
          selectedColor := none, thumbnail := "laptop.png" },
        { product := sampleGoneProductId, name := "Sleeve", quantity := 1, price := 20,
          selectedColor := none, thumbnail := "sleeve.png" } ] }

def sampleDbGone : Db :=
  { products := [{ sampleProduct with quantity := 3 }], orders := [sampleTwoLineOrder], carts := [] }

def sampleDbBoth : Db :=
  { sampleDbGone with products :=
      [ { sampleProduct with quantity := 3 },
        { sampleProduct with _id := sampleGoneProductId, name := "Sleeve", price := 20,
                             quantity := 4, thumbnail := "sleeve.png" } ] }

def sampleTwoLineCancelled : Order :=
  { sampleTwoLineOrder with orderStatus := .cancelled, cancelledAt := some 1700000003000,
                            cancellationReason := some "Cancelled by user",
                            updatedAt := 1700000003000 }

def sampleReviveTrace : List Request :=
  [ { gw := sampleGateway, now := 1700000003000, action := .cancelOrder sampleUserId sampleOrderId none },
    { gw := sampleGateway, now := 1700000005000, action := .verifyPayment "cs_test_1" },
    { gw := sampleGateway, now := 1700000006000, action := .cancelOrder sampleUserId sampleOrderId none } ]

def sampleClientBody (price : Option ℚ) (total : Option ℚ) (coupon : Option String) : ClientBody :=
  { items := some [{ productId := some sampleProductId, product := none, quantity := 2,
                     selectedColor := none, price := price, name := some "Laptop for free" }],
    shippingAddress := some sampleAddress, shippingMethod := some "Standard",
    paymentMethod := some "card", couponCode := coupon, subtotal := total, tax := none,
    discount := none, total := total }

def sampleEnvB : Env :=
  { now := 1700000000124, random := 1 / 2, newId := "64d000000000000000000003" }

def samplePreparedThree : Prepared :=
  { subtotal := 300,
    orderItems := [{ product := sampleProductId, name := "Laptop", quantity := 3, price := 100,
                     selectedColor := none, thumbnail := "laptop.png" }],
    stockUpdates := [{ id := sampleProductId, inc := -3, inStock := true }] }

def sampleNumberedAsId : Order :=
  { sampleOrder with _id := "64d000000000000000000002", orderNumber := "64d000000000000000000001" }

def sampleCrossingOrders : List Order := [sampleOrder, sampleNumberedAsId]

def sampleLegacyOrder : Order := { sampleOrder with orderNumber := "" }

def sampleDbShort : Db :=
  { sampleDbGone with products :=
      [ { sampleProduct with quantity := 3 },
        { sampleProduct with _id := sampleGoneProductId, name := "Sleeve", price := 20,
                             quantity := -5, thumbnail := "sleeve.png" } ] }

def sampleRecordingCreate (items : List LineItem) : Except Thrown StripeObject :=
  .ok { id := String.mk ("cs_".toList ++ decimal (chargedCents items).toNat), metadata := none,
        payment_intent := none, payment_status := "unpaid", status := "open" }

/-! # Theorems -/

/-! ## Order store lemmas -/

theorem map_updateOrder {β : Type} (pv : Order → β) (id : ObjectId) (f : Order → Order)
    (os : List Order) (h : ∀ x ∈ os, x._id = id → pv (f x) = pv x) :
    (updateOrder id f os).map pv = os.map pv := by
  induction os with
  | nil => rfl
  | cons o os ih =>
    unfold updateOrder
    by_cases hid : o._id = id
    · simp [hid, h o (List.mem_cons_self _ _) hid]
    · simp only [hid, if_false, List.map_cons]
      rw [ih (fun x hx => h x (List.mem_cons_of_mem _ hx))]

theorem eq_of_uniqueIds {os : List Order} (hu : uniqueIds os) {a b : Order}
    (ha : a ∈ os) (hb : b ∈ os) (h : a._id = b._id) : a = b :=
  List.inj_on_of_nodup_map hu ha hb h

theorem saveOrder_map {β : Type} (pv : Order → β) (now : Nat) {os : List Order} {o d : Order}
    (hu : uniqueIds os) (ho : o ∈ os) (hid : d._id = o._id)
    (hpv : pv { d with updatedAt := now } = pv o) :
    (saveOrder now os d).map pv = os.map pv := by
  unfold saveOrder
  apply map_updateOrder
  intro x hx hxid
  have : x = o := eq_of_uniqueIds hu hx ho (hxid.trans hid)
  rw [this, hpv]

theorem findOrder_mem {os : List Order} {id : ObjectId} {o : Order}
    (h : findOrder os id = some o) : o ∈ os :=
  List.mem_of_find?_eq_some h

theorem findOrder_id {os : List Order} {id : ObjectId} {o : Order}
    (h : findOrder os id = some o) : o._id = id := by
  have := List.find?_some h
  simpa using this

theorem findById_some {os : List Order} {key : Option String} {o : Order}
    (h : Order.findById os key = .ok (some o)) :
    ∃ s oid, key = some s ∧ castObjectId s = some oid ∧ findOrder os oid = some o := by
  unfold Order.findById at h
  split at h
  · simp at h
  · rename_i s
    split at h
    · rename_i oid hc
      simp only [Except.ok.injEq] at h
      exact ⟨s, oid, rfl, hc, h⟩
    · simp at h

theorem findById_findOrder {os : List Order} {key : Option String} {o : Order}
    (h : Order.findById os key = .ok (some o)) : findOrder os o._id = some o := by
  obtain ⟨s, oid, -, -, hf⟩ := findById_some h
  rw [findOrder_id hf]; exact hf

theorem findById_mem {os : List Order} {id : Option String} {o : Order}
    (h : Order.findById os id = .ok (some o)) : o ∈ os :=
  findOrder_mem (findById_findOrder h)

theorem findOrderByIdOrNumber_mem {os : List Order} {k : String} {o : Order}
    (h : findOrderByIdOrNumber os k = some o) : o ∈ os := by
  unfold findOrderByIdOrNumber at h
  split at h
  · rename_i o1 h1
    simp only [Option.some.injEq] at h; subst h
    exact List.mem_of_find?_eq_some h1
  · split at h
    · rename_i r hr
      subst h; exact findById_mem hr
    · simp at h

theorem updateOrder_append_new (id : ObjectId) (f : Order → Order) (os : List Order) (d : Order)
    (hnew : ∀ x ∈ os, x._id ≠ id) (hd : d._id = id) :
    updateOrder id f (os ++ [d]) = os ++ [f d] := by
  induction os with
  | nil => simp [updateOrder, hd]
  | cons o os ih =>
    have ho : o._id ≠ id := hnew o (List.mem_cons_self _ _)
    rw [List.cons_append, updateOrder, if_neg ho, ih (fun x hx => hnew x (List.mem_cons_of_mem _ hx))]
    rfl

theorem Order.create_ok {env : Env} {os os1 : List Order} {d : NewOrder} {doc : Order}
    (h : Order.create env os d = .ok (os1, doc)) :
    os1 = os ++ [doc] ∧ (∀ x ∈ os, x._id ≠ doc._id) ∧ doc._id = env.newId ∧
    doc.items = d.items ∧ doc.subtotal = d.subtotal ∧ doc.shippingCost = d.shippingCost ∧
    doc.tax = d.tax ∧ doc.discount = d.discount ∧ doc.total = d.total ∧
    doc.updatedAt = env.now := by
  unfold Order.create at h
  simp only at h
  split at h
  · simp at h
  · split at h
    · simp at h
    · rename_i hv hdup
      simp only [Except.ok.injEq, Prod.mk.injEq] at h
      obtain ⟨h1, h2⟩ := h
      subst h2
      refine ⟨h1.symm, ?_, rfl, rfl, rfl, rfl, rfl, rfl, rfl, rfl⟩
      intro x hx hid
      apply hdup
      simp only [List.any_eq_true, Bool.or_eq_true, decide_eq_true_eq]
      exact ⟨x, hx, Or.inl hid⟩

theorem prepareItems_error {ps : List Product} {items : List ReqItem} {acc : Prepared}
    {out : Outcome} (h : prepareItems ps items acc = .error out) :
    out = .threw .typeError ∨ ∃ msg, out = .sent 404 (.message false msg) ∨
      out = .sent 400 (.message false msg) := by
  induction items generalizing acc with
  | nil => simp [prepareItems] at h
  | cons item rest ih =>
    unfold prepareItems at h
    split at h
    · simp only [Except.error.injEq] at h; exact Or.inl h.symm
    · split at h
      · simp only [Except.error.injEq] at h; exact Or.inr ⟨_, Or.inl h.symm⟩
      · split at h
        · simp only [Except.error.injEq] at h; exact Or.inr ⟨_, Or.inr h.symm⟩
        · exact ih h

/-- What a successful checkout leaves behind: the new order is appended to the order
collection under a fresh `_id`, and its total is the sum computed by the handler. -/
theorem createOrder_created {env : Env} {db db1 : Db} {user : ObjectId} {body : CreateOrderBody}
    {msg : Option String} {o : Order}
    (h : createOrder env db user body = (db1, .sent 201 (.order msg o))) :
    db1.orders = db.orders ++ [o] ∧ (∀ x ∈ db.orders, x._id ≠ o._id) ∧
    o.total = o.subtotal + o.shippingCost + o.tax - o.discount := by
  unfold createOrder at h
  split at h
  · simp at h
  · simp at h
  · split at h
    · simp at h
    · split at h
      · rename_i out hprep
        simp only [Prod.mk.injEq] at h
        rcases prepareItems_error hprep with he | ⟨m, he | he⟩ <;> rw [he] at h <;> simp at h
      · rename_i prep hprep
        simp only at h
        split at h
        · simp at h
        · split at h
          · simp at h
          · rename_i orders created hc
            obtain ⟨h1, h2, h3, h4, h5, h6, h7, h8, h9, h10⟩ := Order.create_ok hc
            simp only [Prod.mk.injEq, Outcome.sent.injEq, Body.order.injEq, true_and] at h
            obtain ⟨hdb, -, ho⟩ := h
            subst hdb
            subst ho
            simp only [Order.calculateEstimatedDelivery]
            refine ⟨?_, h2, ?_⟩
            · subst h1
              unfold saveOrder
              rw [updateOrder_append_new _ _ _ _ h2 rfl]
              simp only [Order.calculateEstimatedDelivery]
              rw [← h10]
            · rw [h9, h5, h6, h7, h8]

/-! ## Pricing fields are framed by every later step -/

theorem stripeWebhook_priced (now : Nat) (db : Db) (v : Except String StripeEvent)
    (hu : uniqueIds db.orders) :
    (stripeWebhook now db v).1.orders.map Order.priced = db.orders.map Order.priced := by
  unfold stripeWebhook
  split
  · rfl
  · split
    · simp only
      split
      · rfl
      · split
        · rfl
        · rfl
        · rename_i order hf
          exact saveOrder_map _ now hu (findById_mem hf) rfl rfl
    · split
      · simp only
        split
        · rfl
        · rename_i failedOrder hf
          exact saveOrder_map _ now hu (List.mem_of_find?_eq_some hf) rfl rfl
      · rfl

theorem verifyPayment_priced (gw : Gateway) (now : Nat) (db : Db) (sid : String)
    (hu : uniqueIds db.orders) :
    (verifyPayment gw now db sid).1.orders.map Order.priced = db.orders.map Order.priced := by
  unfold verifyPayment
  split
  · rfl
  · rfl
  · split
    · rfl
    · split
      · rfl
      · rfl
      · rename_i order hf
        split
        · exact saveOrder_map _ now hu (findById_mem hf) rfl rfl
        · rfl

theorem autoVerify_priced {gw : Gateway} {order order1 : Order} {pid : String}
    (h : autoVerify gw order pid = some order1) :
    order1._id = order._id ∧ ∀ now, Order.priced { order1 with updatedAt := now } = Order.priced order := by
  unfold autoVerify at h
  split at h
  · split at h
    · split at h
      · simp only [Option.some.injEq] at h; subst h; exact ⟨rfl, fun _ => rfl⟩
      · simp at h
    · simp at h
  · split at h
    · split at h
      · split at h
        · simp only [Option.some.injEq] at h; subst h; exact ⟨rfl, fun _ => rfl⟩
        · simp at h
      · simp at h
    · simp at h

theorem findOrderByIdOrNumberPopulated_eq (os : List Order) (k : String) (b : Bool) :
    findOrderByIdOrNumberPopulated os k b = findOrderByIdOrNumber os k := by
  unfold findOrderByIdOrNumberPopulated findOrderByIdOrNumber
  simp only [ite_self]

theorem getOrderById_priced (gw : Gateway) (now : Nat) (db : Db) (user : ObjectId) (k : String)
    (hu : uniqueIds db.orders) :
    (getOrderById gw now db user k).1.orders.map Order.priced = db.orders.map Order.priced := by
  unfold getOrderById
  rw [findOrderByIdOrNumberPopulated_eq]
  split
  · rfl
  · rename_i order hf
    split
    · rfl
    · split
      · rename_i order1 h1
        split at h1
        · obtain ⟨pid, -, hp⟩ := Option.bind_eq_some.mp h1
          obtain ⟨hid, hpv⟩ := autoVerify_priced hp
          exact saveOrder_map _ now hu (findOrderByIdOrNumber_mem hf) hid (hpv now)
        · simp at h1
      · rfl

theorem cancelOrder_priced (now : Nat) (db : Db) (user : ObjectId) (k : String)
    (reason : Option String) (hu : uniqueIds db.orders) :
    (cancelOrder now db user k reason).1.orders.map Order.priced = db.orders.map Order.priced := by
  unfold cancelOrder
  split
  · rfl
  · rename_i order hf
    split
    · rfl
    · split
      · rfl
      · simp only
        split
        · rfl
        · exact saveOrder_map _ now hu (findOrderByIdOrNumber_mem hf) rfl rfl

theorem step_priced (db : Db) (r : Request) (hu : uniqueIds db.orders) :
    (step db r).orders.map Order.priced = db.orders.map Order.priced := by
  unfold step
  split
  · exact cancelOrder_priced _ _ _ _ _ hu
  · exact stripeWebhook_priced _ _ _ hu
  · exact verifyPayment_priced _ _ _ _ hu
  · exact getOrderById_priced _ _ _ _ _ hu

theorem uniqueIds_of_priced {os os1 : List Order}
    (h : os1.map Order.priced = os.map Order.priced) (hu : uniqueIds os) : uniqueIds os1 := by
  unfold uniqueIds at *
  have : os1.map (fun o => o._id) = os.map (fun o => o._id) := by
    have := congrArg (List.map Prod.fst) h
    simpa [List.map_map, Function.comp_def, Order.priced] using this
  rw [this]; exact hu

theorem run_priced (rs : List Request) (db : Db) (hu : uniqueIds db.orders) :
    (run db rs).orders.map Order.priced = db.orders.map Order.priced := by
  induction rs generalizing db with
  | nil => rfl
  | cons r rs ih =>
    have h1 := step_priced db r hu
    have := ih (step db r) (uniqueIds_of_priced h1 hu)
    simp only [run, List.foldl_cons] at this ⊢
    rw [this, h1]

/-- C1: every order that `createOrder` persists satisfies
`total = subtotal + shippingCost + tax - discount`; after any sequence of `cancelOrder`,
`stripeWebhook`, `verifyPayment` and `getOrderById` requests the order is still stored and
its line items, subtotal, shipping cost, tax, discount and total are the ones fixed at
checkout, so the equation still holds. -/
theorem createOrder_total_invariant (env : Env) (db db1 : Db) (user : ObjectId)
    (body : CreateOrderBody) (msg : Option String) (o : Order) (rs : List Request)
    (hu : uniqueIds db.orders)
    (h : createOrder env db user body = (db1, .sent 201 (.order msg o))) :
    o.total = o.subtotal + o.shippingCost + o.tax - o.discount ∧
    (∃ o1 ∈ (run db1 rs).orders, o1._id = o._id) ∧
    ∀ o1 ∈ (run db1 rs).orders, o1._id = o._id →
      o1.items = o.items ∧ o1.subtotal = o.subtotal ∧ o1.shippingCost = o.shippingCost ∧
      o1.tax = o.tax ∧ o1.discount = o.discount ∧ o1.total = o.total ∧
      o1.total = o1.subtotal + o1.shippingCost + o1.tax - o1.discount := by
  obtain ⟨hdb, hfresh, htot⟩ := createOrder_created h
  have hu1 : uniqueIds db1.orders := by
    unfold uniqueIds at *
    rw [hdb, List.map_append, List.nodup_append]
    refine ⟨hu, by simp, ?_⟩
    intro a ha hb
    simp only [List.map_cons, List.map_nil, List.mem_singleton] at hb
    obtain ⟨x, hx, hxa⟩ := List.mem_map.mp ha
    exact hfresh x hx (hxa.trans hb)
  have hrun := run_priced rs db1 hu1
  have key : ∀ o1 ∈ (run db1 rs).orders, o1._id = o._id → o1.priced = o.priced := by
    intro o1 ho1 hid
    have hm : o1.priced ∈ db1.orders.map Order.priced := by
      rw [← hrun]; exact List.mem_map_of_mem _ ho1
    obtain ⟨x, hx, hxp⟩ := List.mem_map.mp hm
    have hxid : x._id = o._id := by
      have := congrArg Prod.fst hxp
      simp only [Order.priced] at this
      exact this.trans hid
    rw [hdb, List.mem_append, List.mem_singleton] at hx
    rcases hx with hx | hx
    · exact absurd hxid (hfresh x hx)
    · rw [← hxp, hx]
  refine ⟨htot, ?_, ?_⟩
  · have hm : o.priced ∈ (run db1 rs).orders.map Order.priced := by
      rw [hrun, hdb]; simp
    obtain ⟨x, hx, hxp⟩ := List.mem_map.mp hm
    refine ⟨x, hx, ?_⟩
    have := congrArg Prod.fst hxp
    simpa [Order.priced] using this
  · intro o1 ho1 hid
    have hp := key o1 ho1 hid
    simp only [Order.priced, Prod.mk.injEq] at hp
    obtain ⟨-, h1, h2, h3, h4, h5, h6⟩ := hp
    refine ⟨h1, h2, h3, h4, h5, h6, ?_⟩
    rw [h6, h2, h3, h4, h5]; exact htot

theorem createOrder_total_invariant_witness :
    uniqueIds sampleDb.orders ∧
    createOrder sampleEnv sampleDb sampleUserId (sampleBody [sampleLine 2] "Standard") =
      (sampleDbAfter, .sent 201 (.order (some "Order created successfully") sampleOrder)) ∧
    sampleOrder.total = 216 ∧
    (run sampleDbAfter sampleTrace).orders.map (fun o => (o.orderStatus, o.paymentStatus, o.total)) =
      [(.cancelled, .completed, 216)] ∧
    ∀ o1 ∈ (run sampleDbAfter sampleTrace).orders, o1._id = sampleOrder._id →
      o1.total = o1.subtotal + o1.shippingCost + o1.tax - o1.discount :=
  ⟨by decide!, by decide!, by decide!, by decide!, fun o1 h1 h2 =>
    ((createOrder_total_invariant sampleEnv sampleDb sampleDbAfter sampleUserId
      (sampleBody [sampleLine 2] "Standard") (some "Order created successfully") sampleOrder sampleTrace (by decide!) (by decide!)).2.2
      o1 h1 h2).2.2.2.2.2.2⟩

/-! ## Webhook: `checkout.session.completed` -/

theorem findOrder_updateOrder_self {os : List Order} {id : ObjectId} {o : Order}
    (f : Order → Order) (h : findOrder os id = some o) (hf : (f o)._id = id) :
    findOrder (updateOrder id f os) id = some (f o) := by
  induction os with
  | nil => simp [findOrder] at h
  | cons x xs ih =>
    unfold findOrder at h ih ⊢
    by_cases hx : x._id = id
    · simp only [List.find?_cons, hx, decide_True, Option.some.injEq] at h
      subst h
      simp [updateOrder, hx, List.find?_cons, hf]
    · simp only [List.find?_cons, hx, decide_False] at h
      simp only [updateOrder, hx, if_false, List.find?_cons, decide_False]
      exact ih h

theorem findOrder_updateOrder_other {os : List Order} {id k : ObjectId}
    (f : Order → Order) (hk : k ≠ id) (hf : ∀ x, x._id = id → (f x)._id = id) :
    findOrder (updateOrder id f os) k = findOrder os k := by
  induction os with
  | nil => rfl
  | cons x xs ih =>
    unfold findOrder at ih ⊢
    by_cases hx : x._id = id
    · have h1 : ¬ x._id = k := fun h => hk (h.symm.trans hx)
      have h2 : ¬ (f x)._id = k := fun h => hk (h.symm.trans (hf x hx))
      simp [updateOrder, hx, List.find?_cons, h2, Ne.symm hk]
    · simp only [updateOrder, hx, if_false, List.find?_cons]
      rw [ih]

theorem updateOrder_const_twice (id : ObjectId) (d1 d2 : Order) (os : List Order)
    (h1 : d1._id = id) :
    updateOrder id (fun _ => d2) (updateOrder id (fun _ => d1) os) =
      updateOrder id (fun _ => d2) os := by
  induction os with
  | nil => rfl
  | cons x xs ih =>
    by_cases hx : x._id = id
    · simp [updateOrder, hx, h1]
    · simp [updateOrder, hx, ih]

theorem findById_saveOrder {os : List Order} {key : Option String} {o d : Order} (now : Nat)
    (h : Order.findById os key = .ok (some o)) (hd : d._id = o._id) :
    Order.findById (saveOrder now os d) key = .ok (some { d with updatedAt := now }) := by
  obtain ⟨s, oid, hkey, hc, hf⟩ := findById_some h
  have hid := findOrder_id hf
  subst hkey
  simp only [Order.findById, hc, Except.ok.injEq]
  unfold saveOrder
  rw [hd, hid]
  exact findOrder_updateOrder_self _ hf rfl

/-- C4: handling a `checkout.session.completed` event for an order twice in a row leaves
the store exactly as one handling does (up to the time stamped by the later save): the
order is `completed` / `processing` with the session's payment intent as `paymentId`,
the second delivery changes no field but `updatedAt`, and neither delivery touches any
product. -/
theorem stripeWebhook_completed_idempotent (now1 now2 : Nat) (db : Db) (e : StripeEvent)
    (md : SessionMetadata) (o : Order)
    (ht : e.type = "checkout.session.completed")
    (hmd : e.object.metadata = some md)
    (hf : Order.findById db.orders md.orderId = .ok (some o)) :
    (∃ o1, findOrder (stripeWebhook now1 db (.ok e)).1.orders o._id = some o1 ∧
        o1.paymentStatus = .completed ∧ o1.orderStatus = .processing ∧
        o1.paymentId = e.object.payment_intent ∧
        findOrder (stripeWebhook now2 (stripeWebhook now1 db (.ok e)).1 (.ok e)).1.orders o._id
          = some { o1 with updatedAt := now2 }) ∧
    (stripeWebhook now2 (stripeWebhook now1 db (.ok e)).1 (.ok e)).1.orders.map Order.unstamped
      = (stripeWebhook now1 db (.ok e)).1.orders.map Order.unstamped ∧
    stripeWebhook now2 (stripeWebhook now1 db (.ok e)).1 (.ok e) = stripeWebhook now2 db (.ok e) ∧
    (stripeWebhook now1 db (.ok e)).1.products = db.products ∧
    (stripeWebhook now2 (stripeWebhook now1 db (.ok e)).1 (.ok e)).1.products = db.products := by
  have hfo : findOrder db.orders o._id = some o := findById_findOrder hf
  have h1 : stripeWebhook now1 db (.ok e) =
      ({ db with orders := (saveOrder now1 db.orders
          { o with paymentStatus := .completed, paymentId := e.object.payment_intent,
                   orderStatus := .processing }) }, .sent 200 .received) := by
    simp only [stripeWebhook, ht, if_true, hmd, hf]
  have hf1 := findById_saveOrder now1 hf
    (d := { o with paymentStatus := .completed, paymentId := e.object.payment_intent,
                   orderStatus := .processing }) rfl
  have h2 : stripeWebhook now2 (stripeWebhook now1 db (.ok e)).1 (.ok e) =
      ({ db with orders := (saveOrder now2 db.orders
          { o with paymentStatus := .completed, paymentId := e.object.payment_intent,
                   orderStatus := .processing }) }, .sent 200 .received) := by
    rw [h1]
    simp only [stripeWebhook, ht, if_true, hmd, hf1]
    simp [saveOrder, updateOrder_const_twice]
  have h3 : stripeWebhook now2 db (.ok e) =
      ({ db with orders := (saveOrder now2 db.orders
          { o with paymentStatus := .completed, paymentId := e.object.payment_intent,
                   orderStatus := .processing }) }, .sent 200 .received) := by
    simp only [stripeWebhook, ht, if_true, hmd, hf]
  refine ⟨⟨{ o with paymentStatus := .completed, paymentId := e.object.payment_intent,
                      orderStatus := .processing, updatedAt := now1 },
    ?_, rfl, rfl, rfl, ?_⟩, ?_, ?_, ?_, ?_⟩
  · rw [h1]; exact findOrder_updateOrder_self _ hfo rfl
  · rw [h2]; exact findOrder_updateOrder_self _ hfo rfl
  · rw [h2, h1]
    simp only [saveOrder]
    have key : ∀ n : Nat, (updateOrder o._id (fun _ =>
        ({ ({ o with paymentStatus := .completed, paymentId := e.object.payment_intent,
                     orderStatus := .processing } : Order) with updatedAt := n } : Order))
        db.orders).map Order.unstamped =
        (updateOrder o._id (fun _ =>
        ({ o with paymentStatus := .completed, paymentId := e.object.payment_intent,
                  orderStatus := .processing } : Order)) db.orders).map Order.unstamped := by
      intro n
      induction db.orders with
      | nil => rfl
      | cons x xs ih =>
        by_cases hx : x._id = o._id
        · simp [updateOrder, hx, Order.unstamped]
        · simp [updateOrder, hx, ih]
    exact (key now2).trans (key now1).symm
  · rw [h2, h3]
  · rw [h1]
  · rw [h2]

theorem stripeWebhook_completed_idempotent_witness :
    sampleEvent.type = "checkout.session.completed" ∧
    Order.findById sampleDbAfter.orders (some sampleOrderId) = .ok (some sampleOrder) ∧
    stripeWebhook 1700000002000 (stripeWebhook 1700000001000 sampleDbAfter (.ok sampleEvent)).1
        (.ok sampleEvent) = stripeWebhook 1700000002000 sampleDbAfter (.ok sampleEvent) ∧
    (stripeWebhook 1700000002000 (stripeWebhook 1700000001000 sampleDbAfter (.ok sampleEvent)).1
        (.ok sampleEvent)).1.products = sampleDbAfter.products :=
  ⟨by decide, by decide!,
   (stripeWebhook_completed_idempotent 1700000001000 1700000002000 sampleDbAfter sampleEvent
      { orderId := some sampleOrderId, userId := some sampleUserId } sampleOrder
      (by decide) (by decide) (by decide!)).2.2.1,
   (stripeWebhook_completed_idempotent 1700000001000 1700000002000 sampleDbAfter sampleEvent
      { orderId := some sampleOrderId, userId := some sampleUserId } sampleOrder
      (by decide) (by decide) (by decide!)).2.2.2.2⟩

/-! ## Checkout and stock -/

/-- C2 (failing input): a checkout that lists the same product on two lines, 3 units each,
against a stock of 5 passes the per-line check twice, is answered 201, and leaves the
product with quantity -1 (and `inStock` true). -/
theorem createOrder_duplicate_lines_oversell :
    (∀ p ∈ sampleDb.products, 0 ≤ p.quantity) ∧
    (createOrder sampleEnv sampleDb sampleUserId
      (sampleBody [sampleLine 3, sampleLine 3] "Standard")).2.status = some 201 ∧
    (createOrder sampleEnv sampleDb sampleUserId
      (sampleBody [sampleLine 3, sampleLine 3] "Standard")).1.products.map
        (fun p => (p._id, p.quantity, p.inStock)) = [(sampleProductId, -1, true)] := by
  refine ⟨by decide, by decide!, by decide!⟩

/-- C3 (counterexample): when the order record is rejected at creation, here by the unique
index on `orderNumber` and, in a second request, by the `shippingMethod` enumeration,
no order is stored but the stock has already gone from 5 to 3 and stays there. -/
theorem createOrder_rejected_after_decrement :
    (createOrder sampleEnv sampleDbTaken sampleUserId (sampleBody [sampleLine 2] "Standard")).2
      = .threw .duplicateKey ∧
    (createOrder sampleEnv sampleDbTaken sampleUserId (sampleBody [sampleLine 2] "Standard")).1.orders
      = sampleDbTaken.orders ∧
    sampleDbTaken.products.map (fun p => (p.quantity, p.inStock)) = [(5, true)] ∧
    (createOrder sampleEnv sampleDbTaken sampleUserId
      (sampleBody [sampleLine 2] "Standard")).1.products.map (fun p => (p.quantity, p.inStock))
      = [(3, true)] ∧
    (createOrder sampleEnv sampleDb sampleUserId (sampleBody [sampleLine 2] "Pickup")).2
      = .threw .validationError ∧
    (createOrder sampleEnv sampleDb sampleUserId (sampleBody [sampleLine 2] "Pickup")).1.orders = [] ∧
    (createOrder sampleEnv sampleDb sampleUserId
      (sampleBody [sampleLine 2] "Pickup")).1.products.map (fun p => (p.quantity, p.inStock))
      = [(3, true)] := by
  refine ⟨by decide!, by decide!, by decide!, by decide!, by decide!, by decide!, by decide!⟩

theorem createOrder_cases (env : Env) (db : Db) (user : ObjectId) (body : CreateOrderBody) :
    (createOrder env db user body).1 = db ∨ (createOrder env db user body).2.status = none ∨
    (createOrder env db user body).2.status = some 201 := by
  unfold createOrder
  split
  · exact Or.inl rfl
  · exact Or.inl rfl
  · split
    · exact Or.inl rfl
    · split
      · exact Or.inl rfl
      · simp only
        split
        · exact Or.inr (Or.inl rfl)
        · split
          · exact Or.inr (Or.inl rfl)
          · exact Or.inr (Or.inr rfl)

/-- C3 (amended): whenever `createOrder` answers with an error response (400 for an empty
item list or a line with insufficient stock, 404 for a missing product), the whole store,
and so every product's quantity and availability flag, is the same as before the call. -/
theorem createOrder_rejection_keeps_store (env : Env) (db : Db) (user : ObjectId)
    (body : CreateOrderBody) (status : Nat) (b : Body)
    (h : (createOrder env db user body).2 = .sent status b) (hs : status ≠ 201) :
    (createOrder env db user body).1 = db := by
  rcases createOrder_cases env db user body with h1 | h1 | h1
  · exact h1
  · rw [h] at h1; simp [Outcome.status] at h1
  · rw [h] at h1; simp only [Outcome.status, Option.some.injEq] at h1; exact absurd h1 hs

theorem createOrder_rejection_keeps_store_witness :
    (createOrder sampleEnv sampleDb sampleUserId (sampleBody [sampleLine 2, sampleLine 9] "Standard")).2
      = .sent 400 (.message false "Laptop is not available in requested quantity") ∧
    (createOrder sampleEnv sampleDb sampleUserId
      (sampleBody [sampleLine 2, sampleLine 9] "Standard")).1 = sampleDb :=
  ⟨by decide!,
   createOrder_rejection_keeps_store sampleEnv sampleDb sampleUserId
     (sampleBody [sampleLine 2, sampleLine 9] "Standard") 400
     (.message false "Laptop is not available in requested quantity") (by decide!) (by decide)⟩

/-! ## Webhook: failure after success, success after success -/

theorem findOrder_of_mem {os : List Order} {o : Order} (hu : uniqueIds os) (ho : o ∈ os) :
    findOrder os o._id = some o := by
  cases hfo : findOrder os o._id with
  | none =>
    unfold findOrder at hfo
    have := List.find?_eq_none.mp hfo o ho
    simp at this
  | some x =>
    have hx := findOrder_mem hfo
    have hid := findOrder_id hfo
    rw [eq_of_uniqueIds hu hx ho hid]

/-- C5 (counterexample): an order that is `completed` with payment reference `pi_test_1`
is marked `failed` by a `payment_intent.payment_failed` event carrying that id. -/
theorem stripeWebhook_failed_regresses_completed :
    sampleDbPaid.orders.map (fun o => (o.paymentStatus, o.paymentId))
      = [(.completed, some "pi_test_1")] ∧
    sampleFailedEvent.type = "payment_intent.payment_failed" ∧
    (stripeWebhook 1700000004000 sampleDbPaid (.ok sampleFailedEvent)).1.orders.map
      (fun o => (o.paymentStatus, o.paymentId)) = [(.failed, some "pi_test_1")] := by
  refine ⟨by decide, by decide, by decide!⟩

/-- C5 (amended): for every order whose paymentStatus is `completed`, handling a
`payment_intent.payment_failed` event whose id is not the payment reference stored on the
order leaves the stored order as it was, so its paymentStatus is still `completed`. -/
theorem stripeWebhook_failed_other_reference (now : Nat) (db : Db) (e : StripeEvent) (o : Order)
    (hu : uniqueIds db.orders) (ho : o ∈ db.orders)
    (hs : o.paymentStatus = .completed)
    (ht : e.type = "payment_intent.payment_failed")
    (hid : o.paymentId ≠ some e.object.id) :
    ∃ o1, findOrder (stripeWebhook now db (.ok e)).1.orders o._id = some o1 ∧ o1 = o ∧
      o1.paymentStatus = .completed := by
  refine ⟨o, ?_, rfl, hs⟩
  have hfo := findOrder_of_mem hu ho
  simp only [stripeWebhook, ht, if_true]
  rw [if_neg (by decide)]
  split
  · exact hfo
  · rename_i f hf
    have hfm : f ∈ db.orders := List.mem_of_find?_eq_some hf
    have hfp : f.paymentId = some e.object.id := by
      have := List.find?_some hf
      simpa using this
    have hne2 : o._id ≠ f._id := by
      intro h
      have : o = f := eq_of_uniqueIds hu ho hfm h
      exact hid (this ▸ hfp)
    simp only [saveOrder]
    refine Eq.trans (findOrder_updateOrder_other _ hne2 ?_) hfo
    intro _ _; rfl

theorem stripeWebhook_failed_other_reference_witness :
    uniqueIds sampleDbPaid.orders ∧ samplePaidOrder ∈ sampleDbPaid.orders ∧
    ∃ o1, findOrder (stripeWebhook 1700000004000 sampleDbPaid
        (.ok { sampleFailedEvent with object := { sampleFailedEvent.object with id := "pi_other" } })).1.orders
        samplePaidOrder._id = some o1 ∧ o1 = samplePaidOrder ∧ o1.paymentStatus = .completed :=
  ⟨by decide, by decide,
   stripeWebhook_failed_other_reference 1700000004000 sampleDbPaid
     { sampleFailedEvent with object := { sampleFailedEvent.object with id := "pi_other" } }
     samplePaidOrder (by decide) (by decide) (by decide) (by decide) (by decide)⟩

/-- C6 (failing input): an order that is already `completed` and `shipped` is moved back
to `processing` by a further `checkout.session.completed` event; the event is acknowledged
with `received` and the stock is untouched. -/
theorem stripeWebhook_completed_regresses_shipped :
    sampleDbPaid.orders.map (fun o => (o.paymentStatus, o.orderStatus, o.paymentId, o.updatedAt))
      = [(.completed, .shipped, some "pi_test_1", 1700000000123)] ∧
    stripeWebhook 1700000004000 sampleDbPaid (.ok sampleEvent) =
      ({ sampleDbPaid with orders :=
          [{ samplePaidOrder with orderStatus := .processing, updatedAt := 1700000004000 }] },
       .sent 200 .received) := by
  refine ⟨by decide, by decide!⟩

/-! ## Cancellation -/

theorem findProduct_id {ps : List Product} {id : ObjectId} {p : Product}
    (h : findProduct ps id = some p) : p._id = id := by
  have := List.find?_some h
  simpa using this

theorem findProduct_updateProduct_self {ps : List Product} {id : ObjectId} {p : Product}
    (f : Product → Product) (h : findProduct ps id = some p) (hf : (f p)._id = id) :
    findProduct (updateProduct id f ps) id = some (f p) := by
  induction ps with
  | nil => simp [findProduct] at h
  | cons x xs ih =>
    unfold findProduct at h ih ⊢
    by_cases hx : x._id = id
    · simp only [List.find?_cons, hx, decide_True, Option.some.injEq] at h
      subst h
      simp [updateProduct, hx, List.find?_cons, hf]
    · simp only [List.find?_cons, hx, decide_False] at h
      simp only [updateProduct, hx, if_false, List.find?_cons, decide_False]
      exact ih h

theorem findProduct_updateProduct_other {ps : List Product} {id k : ObjectId}
    (f : Product → Product) (hk : k ≠ id) (hf : ∀ x, x._id = id → (f x)._id = id) :
    findProduct (updateProduct id f ps) k = findProduct ps k := by
  induction ps with
  | nil => rfl
  | cons x xs ih =>
    unfold findProduct at ih ⊢
    by_cases hx : x._id = id
    · have h2 : ¬ (f x)._id = k := fun h => hk (h.symm.trans (hf x hx))
      simp [updateProduct, hx, List.find?_cons, h2, Ne.symm hk]
    · simp only [updateProduct, hx, if_false, List.find?_cons]
      rw [ih]

theorem orderedQuantity_cons (item : OrderItem) (rest : List OrderItem) (pid : ObjectId) :
    orderedQuantity (item :: rest) pid =
      (if item.product = pid then item.quantity else 0) + orderedQuantity rest pid := by
  unfold orderedQuantity
  by_cases h : item.product = pid <;> simp [List.filter_cons, h]

/-- The restore loop, when it runs to its end, adds to every stored product exactly the
units the order holds for it; a product named on no line is left as it was. -/
theorem restoreItems_spec (now : Nat) (items : List OrderItem) :
    ∀ (ps ps1 : List Product), restoreItems now ps items = (ps1, none) →
    ∀ (pid : ObjectId) (p : Product), findProduct ps pid = some p →
      ∃ p1, findProduct ps1 pid = some p1 ∧
        p1.quantity = p.quantity + orderedQuantity items pid ∧
        ((∀ i ∈ items, i.product ≠ pid) → p1 = p) := by
  induction items with
  | nil =>
    intro ps ps1 h pid p hp
    simp only [restoreItems, Prod.mk.injEq, and_true] at h
    subst h
    exact ⟨p, hp, by simp [orderedQuantity], fun _ => rfl⟩
  | cons item rest ih =>
    intro ps ps1 h pid p hp
    unfold restoreItems at h
    split at h
    · rename_i hnone
      have hne : item.product ≠ pid := by
        intro he; rw [he, hp] at hnone; simp at hnone
      obtain ⟨p1, h1, h2, h3⟩ := ih ps ps1 h pid p hp
      refine ⟨p1, h1, ?_, fun hall => h3 (fun i hi => hall i (List.mem_cons_of_mem _ hi))⟩
      rw [orderedQuantity_cons, if_neg hne, zero_add]; exact h2
    · rename_i product hsome
      simp only at h
      split at h
      · simp at h
      · by_cases he : item.product = pid
        · have hpp : product = p := by
            rw [he, hp] at hsome; exact (Option.some.inj hsome).symm
          subst hpp
          have hfind := findProduct_updateProduct_self
            (fun _ => { product with quantity := product.quantity + item.quantity,
                                     inStock := true, updatedAt := now }) hsome
            (findProduct_id (p := product) hsome)
          rw [he] at hfind
          obtain ⟨p1, h1, h2, -⟩ := ih _ ps1 (he ▸ h) pid _ hfind
          refine ⟨p1, h1, ?_, ?_⟩
          · rw [h2, orderedQuantity_cons, if_pos he]; simp only; ring
          · intro hall; exact absurd he (hall item (List.mem_cons_self _ _))
        · have hfind : findProduct (updateProduct item.product
              (fun _ => { product with quantity := product.quantity + item.quantity,
                                       inStock := true, updatedAt := now }) ps) pid = some p := by
            refine Eq.trans (findProduct_updateProduct_other _ (Ne.symm he) ?_) hp
            intro _ _; exact findProduct_id (p := product) hsome
          obtain ⟨p1, h1, h2, h3⟩ := ih _ ps1 h pid p hfind
          refine ⟨p1, h1, ?_, fun hall => h3 (fun i hi => hall i (List.mem_cons_of_mem _ hi))⟩
          rw [orderedQuantity_cons, if_neg he, zero_add]; exact h2

/-- C7: for every successfully cancelled order and every product that still exists,
`cancelOrder` raises the product's quantity-on-hand by exactly the sum of the quantities of
the order's line items for that product; a product on no line of the order keeps its
quantity (the whole document is untouched). -/
theorem cancelOrder_restores_stock (now : Nat) (db db1 : Db) (user : ObjectId) (k : String)
    (reason : Option String) (o : Order) (body : Body)
    (hf : findOrderByIdOrNumber db.orders k = some o)
    (h : cancelOrder now db user k reason = (db1, .sent 200 body)) :
    ∀ (pid : ObjectId) (p : Product), findProduct db.products pid = some p →
      ∃ p1, findProduct db1.products pid = some p1 ∧
        p1.quantity = p.quantity + orderedQuantity o.items pid ∧
        ((∀ i ∈ o.items, i.product ≠ pid) → p1 = p) := by
  intro pid p hp
  simp only [cancelOrder, hf] at h
  split at h
  · simp at h
  · split at h
    · simp at h
    · split at h
      · simp at h
      · rename_i ps hr
        simp only [Prod.mk.injEq] at h
        obtain ⟨hdb, -⟩ := h
        subst hdb
        exact restoreItems_spec now o.items db.products ps hr pid p hp

/-- C8: for an existing order requested by its owner, `cancelOrder` answers 400 exactly
when the order status is neither `pending` nor `processing`, that is when it is `shipped`,
`delivered` or `cancelled`; a rejected cancel leaves the whole store, orders and stock,
unchanged. -/
theorem cancelOrder_rejected_iff (now : Nat) (db : Db) (user : ObjectId) (k : String)
    (reason : Option String) (o : Order)
    (hf : findOrderByIdOrNumber db.orders k = some o) (hown : o.user = user) :
    ((cancelOrder now db user k reason).2 =
        .sent 400 (.message false "Order cannot be cancelled at this stage") ↔
      ¬ (o.orderStatus = .pending ∨ o.orderStatus = .processing)) ∧
    ((cancelOrder now db user k reason).2.status = some 400 ↔
      (o.orderStatus = .shipped ∨ o.orderStatus = .delivered ∨ o.orderStatus = .cancelled)) ∧
    ((cancelOrder now db user k reason).2.status = some 400 →
      (cancelOrder now db user k reason).1 = db) := by
  have hcases : (o.orderStatus = .pending ∨ o.orderStatus = .processing) ∨
      (o.orderStatus = .shipped ∨ o.orderStatus = .delivered ∨ o.orderStatus = .cancelled) := by
    cases o.orderStatus <;> simp
  rcases hcases with hc | hc
  · have hgo : (cancelOrder now db user k reason).2.status ≠ some 400 := by
      simp only [cancelOrder, hf, hown, ne_eq, not_true_eq_false, if_false]
      rw [if_neg (by rcases hc with hc | hc <;> simp [hc])]
      split <;> simp [Outcome.status]
    refine ⟨⟨fun h => ?_, fun h => absurd hc h⟩, ⟨fun h => absurd h hgo, fun h => ?_⟩,
      fun h => absurd h hgo⟩
    · rw [h] at hgo; simp [Outcome.status] at hgo
    · rcases hc with hc | hc <;> rcases h with h | h | h <;> rw [hc] at h <;> cases h
  · have hrej : cancelOrder now db user k reason =
        (db, .sent 400 (.message false "Order cannot be cancelled at this stage")) := by
      simp only [cancelOrder, hf, hown, ne_eq, not_true_eq_false, if_false]
      rw [if_pos (by rcases hc with hc | hc | hc <;> simp [hc])]
    refine ⟨⟨fun _ => ?_, fun _ => by rw [hrej]⟩, ⟨fun _ => hc, fun _ => by rw [hrej]; rfl⟩,
      fun _ => by rw [hrej]⟩
    rcases hc with hc | hc | hc <;> simp [hc]

theorem cancelOrder_restores_stock_witness :
    findOrderByIdOrNumber sampleDbAfter.orders sampleOrderId = some sampleOrder ∧
    cancelOrder 1700000003000 sampleDbAfter sampleUserId sampleOrderId none =
      (sampleDbCancelled, .sent 200 (.order (some "Order cancelled successfully") sampleCancelled)) ∧
    orderedQuantity sampleOrder.items sampleProductId = 2 ∧
    ∃ p1, findProduct sampleDbCancelled.products sampleProductId = some p1 ∧
      p1.quantity = 3 + orderedQuantity sampleOrder.items sampleProductId ∧
      ((∀ i ∈ sampleOrder.items, i.product ≠ sampleProductId) →
        p1 = { sampleProduct with quantity := 3 }) :=
  ⟨by decide!, by decide!, by decide!,
   cancelOrder_restores_stock 1700000003000 sampleDbAfter sampleDbCancelled sampleUserId
     sampleOrderId none sampleOrder (.order (some "Order cancelled successfully") sampleCancelled)
     (by decide!) (by decide!) sampleProductId { sampleProduct with quantity := 3 } (by decide!)⟩

theorem cancelOrder_rejected_iff_witness :
    findOrderByIdOrNumber sampleDbPaid.orders sampleOrderId = some samplePaidOrder ∧
    samplePaidOrder.orderStatus = .shipped ∧
    (cancelOrder 1700000003000 sampleDbPaid sampleUserId sampleOrderId none).2.status = some 400 ∧
    (cancelOrder 1700000003000 sampleDbPaid sampleUserId sampleOrderId none).1 = sampleDbPaid :=
  ⟨by decide!, by decide,
   (cancelOrder_rejected_iff 1700000003000 sampleDbPaid sampleUserId sampleOrderId none
      samplePaidOrder (by decide!) (by decide)).2.1.mpr (Or.inl (by decide)),
   (cancelOrder_rejected_iff 1700000003000 sampleDbPaid sampleUserId sampleOrderId none
      samplePaidOrder (by decide!) (by decide)).2.2 (by decide!)⟩

/-! ## The three payment entry points -/

theorem startsWith3_ne_empty {s : String} {a b c : Char}
    (h : startsWith3 s [a, b, c] = true) : s ≠ "" := by
  intro hs
  subst hs
  simp [startsWith3] at h

/-- C10: `verifyPayment` is a guarded transition.  For the order the retrieved session
refers to: if the session is paid and the order is not yet `completed`, the stored order
becomes `completed` / `processing` with the session's payment intent as `paymentId`;
if the order is already `completed` or the session is not paid, the store is unchanged
(the order is never marked `failed`) and the order is returned as it is. -/
theorem verifyPayment_guarded (gw : Gateway) (now : Nat) (db : Db) (sid : String)
    (session : StripeObject) (md : SessionMetadata) (o : Order)
    (hgw : gw.sessionsRetrieve sid = .ok (some session))
    (hmd : session.metadata = some md)
    (hf : Order.findById db.orders md.orderId = .ok (some o)) :
    (session.payment_status = "paid" → o.paymentStatus ≠ .completed →
      (verifyPayment gw now db sid).1.products = db.products ∧
      (verifyPayment gw now db sid).1.orders =
        saveOrder now db.orders { o with paymentStatus := .completed,
                                         paymentId := session.payment_intent,
                                         orderStatus := .processing } ∧
      Order.findById (verifyPayment gw now db sid).1.orders md.orderId =
        .ok (some { o with paymentStatus := .completed, paymentId := session.payment_intent,
                           orderStatus := .processing, updatedAt := now })) ∧
    ((o.paymentStatus = .completed ∨ session.payment_status ≠ "paid") →
      (verifyPayment gw now db sid).1 = db ∧
      (verifyPayment gw now db sid).2 = .sent 200 (.payment session.payment_status (some o))) := by
  constructor
  · intro hpaid hnc
    have hv : verifyPayment gw now db sid =
        ({ db with orders := (saveOrder now db.orders
            { o with paymentStatus := .completed, paymentId := session.payment_intent,
                     orderStatus := .processing }) },
         .sent 200 (.payment session.payment_status
            (some { o with paymentStatus := .completed, paymentId := session.payment_intent,
                           orderStatus := .processing, updatedAt := now }))) := by
      simp only [verifyPayment, hgw, hmd, hf]
      rw [if_pos ⟨hpaid, hnc⟩]
    rw [hv]
    exact ⟨rfl, rfl, findById_saveOrder now hf rfl⟩
  · intro hno
    have hv : verifyPayment gw now db sid =
        (db, .sent 200 (.payment session.payment_status (some o))) := by
      simp only [verifyPayment, hgw, hmd, hf]
      rw [if_neg]
      rintro ⟨h1, h2⟩
      rcases hno with h | h
      · exact h2 h
      · exact h h1
    rw [hv]
    exact ⟨rfl, rfl⟩

theorem verifyPayment_guarded_witness :
    (verifyPayment sampleGateway 1700000005000 sampleDbCard "cs_test_1").1.orders = [samplePaidCard] ∧
    (verifyPayment sampleGateway 1700000005000 sampleDbPaid "cs_test_1").1 = sampleDbPaid :=
  ⟨((verifyPayment_guarded sampleGateway 1700000005000 sampleDbCard "cs_test_1" sampleSession
      { orderId := some sampleOrderId, userId := some sampleUserId } sampleCardOrder
      (by decide!) (by decide) (by decide!)).1 (by decide) (by decide)).2.1.trans (by decide!),
   ((verifyPayment_guarded sampleGateway 1700000005000 sampleDbPaid "cs_test_1" sampleSession
      { orderId := some sampleOrderId, userId := some sampleUserId } samplePaidOrder
      (by decide!) (by decide) (by decide!)).2 (Or.inl (by decide))).1⟩

/-- C9 (counterexample): for a pending order paid through the gateway with payment method
`stripe` and a stored session reference that the gateway reports as paid, `verifyPayment`
and `stripeWebhook` complete the order while the auto-verify of `getOrderById` leaves it
pending. -/
theorem getOrderById_skips_non_card :
    sampleStripeOrder.paymentMethod = "stripe" ∧
    sampleGateway.sessionsRetrieve "cs_test_1" = .ok (some sampleSession) ∧
    sampleDbStripe.orders.map (fun o => (o.paymentStatus, o.orderStatus, o.paymentId))
      = [(.pending, .pending, some "cs_test_1")] ∧
    (verifyPayment sampleGateway 1700000005000 sampleDbStripe "cs_test_1").1.orders.map
      (fun o => (o.paymentStatus, o.orderStatus, o.paymentId))
      = [(.completed, .processing, some "pi_test_1")] ∧
    (stripeWebhook 1700000005000 sampleDbStripe (.ok sampleEvent)).1.orders.map
      (fun o => (o.paymentStatus, o.orderStatus, o.paymentId))
      = [(.completed, .processing, some "pi_test_1")] ∧
    (getOrderById sampleGateway 1700000005000 sampleDbStripe sampleUserId sampleOrderId).2.status
      = some 200 ∧
    (getOrderById sampleGateway 1700000005000 sampleDbStripe sampleUserId sampleOrderId).1.orders.map
      (fun o => (o.paymentStatus, o.orderStatus, o.paymentId))
      = [(.pending, .pending, some "cs_test_1")] := by
  refine ⟨by decide, by decide!, by decide, by decide!, by decide!, by decide!, by decide!⟩

/-- C9 (amended): for every order with payment method `card`, paymentStatus `pending` and
a stored checkout-session reference that the gateway reports as paid, `stripeWebhook`
(`checkout.session.completed`), `verifyPayment` and the auto-verify of `getOrderById`
leave the same store: the order is `completed` / `processing` and its `paymentId` is the
session's payment intent. -/
theorem payment_paths_agree_card (gw : Gateway) (now : Nat) (db : Db) (user : ObjectId)
    (k sid : String) (session : StripeObject) (md : SessionMetadata) (o : Order)
    (e : StripeEvent)
    (hk : findOrderByIdOrNumber db.orders k = some o) (hown : o.user = user)
    (hfind : Order.findById db.orders (some o._id) = .ok (some o))
    (hm : o.paymentMethod = "card") (hp : o.paymentStatus = .pending)
    (hpid : o.paymentId = some sid) (hcs : startsWith3 sid ['c', 's', '_'] = true)
    (hgw : gw.sessionsRetrieve sid = .ok (some session))
    (hpaid : session.payment_status = "paid")
    (hmd : session.metadata = some md) (hoid : md.orderId = some o._id)
    (het : e.type = "checkout.session.completed") (heo : e.object = session) :
    (stripeWebhook now db (.ok e)).1 = (verifyPayment gw now db sid).1 ∧
    (verifyPayment gw now db sid).1 = (getOrderById gw now db user k).1 ∧
    ∃ o1, Order.findById (getOrderById gw now db user k).1.orders (some o._id) = .ok (some o1) ∧
      o1.paymentStatus = .completed ∧ o1.orderStatus = .processing ∧
      o1.paymentId = session.payment_intent := by
  have hf : Order.findById db.orders md.orderId = .ok (some o) := by rw [hoid]; exact hfind
  have hw : (stripeWebhook now db (.ok e)).1 =
      { db with orders := (saveOrder now db.orders
          { o with paymentStatus := .completed, paymentId := session.payment_intent,
                   orderStatus := .processing }) } := by
    simp only [stripeWebhook, het, if_true, heo, hmd, hf]
  have hv : (verifyPayment gw now db sid).1 =
      { db with orders := (saveOrder now db.orders
          { o with paymentStatus := .completed, paymentId := session.payment_intent,
                   orderStatus := .processing }) } := by
    simp only [verifyPayment, hgw, hmd, hf]
    rw [if_pos ⟨hpaid, by rw [hp]; decide⟩]
  have hg : (getOrderById gw now db user k).1 =
      { db with orders := (saveOrder now db.orders
          { o with paymentStatus := .completed, paymentId := session.payment_intent,
                   orderStatus := .processing }) } := by
    have hne := startsWith3_ne_empty hcs
    simp only [getOrderById, findOrderByIdOrNumberPopulated_eq, hk, hown, ne_eq,
      not_true_eq_false, if_false, hp, hm, and_self, if_true, hpid, jsOr, hne,
      Option.some_bind, autoVerify, hcs, hgw, hpaid]
  refine ⟨hw.trans hv.symm, hv.trans hg.symm,
    { o with paymentStatus := .completed, paymentId := session.payment_intent,
             orderStatus := .processing, updatedAt := now }, ?_, rfl, rfl, rfl⟩
  rw [hg]
  exact findById_saveOrder now hfind rfl

theorem payment_paths_agree_card_witness :
    (stripeWebhook 1700000005000 sampleDbCard (.ok sampleEvent)).1 =
      (verifyPayment sampleGateway 1700000005000 sampleDbCard "cs_test_1").1 ∧
    (verifyPayment sampleGateway 1700000005000 sampleDbCard "cs_test_1").1 =
      (getOrderById sampleGateway 1700000005000 sampleDbCard sampleUserId sampleOrderId).1 ∧
    (getOrderById sampleGateway 1700000005000 sampleDbCard sampleUserId sampleOrderId).1.orders
      = [samplePaidCard] :=
  ⟨(payment_paths_agree_card sampleGateway 1700000005000 sampleDbCard sampleUserId sampleOrderId
      "cs_test_1" sampleSession { orderId := some sampleOrderId, userId := some sampleUserId }
      sampleCardOrder sampleEvent (by decide!) (by decide) (by decide!) (by decide) (by decide)
      (by decide) (by decide) (by decide!) (by decide) (by decide) (by decide) (by decide)
      (by decide)).1,
   (payment_paths_agree_card sampleGateway 1700000005000 sampleDbCard sampleUserId sampleOrderId
      "cs_test_1" sampleSession { orderId := some sampleOrderId, userId := some sampleUserId }
      sampleCardOrder sampleEvent (by decide!) (by decide) (by decide!) (by decide) (by decide)
      (by decide) (by decide) (by decide!) (by decide) (by decide) (by decide) (by decide)
      (by decide)).2.1,
   by decide!⟩

/-! ## The validation loop and the accepted checkout -/

theorem findProduct_mem {ps : List Product} {id : ObjectId} {p : Product}
    (h : findProduct ps id = some p) : p ∈ ps :=
  List.mem_of_find?_eq_some h

/-- A request line that passes the loop names a stored product that is in stock for the
requested quantity; the accumulators grow by that line's total, order line and stock
update. -/
theorem prepareItems_ok {ps : List Product} {items : List ReqItem} {acc prep : Prepared}
    (h : prepareItems ps items acc = .ok prep) :
    (∀ item ∈ items, ∃ p, lineProduct ps item = some p ∧ p.inStock = true ∧
        item.quantity ≤ p.quantity) ∧
    prep.subtotal = acc.subtotal + (items.map (lineTotal ps)).sum ∧
    prep.orderItems = acc.orderItems ++
      items.filterMap (fun item => (lineProduct ps item).map (capturedItem item)) ∧
    prep.stockUpdates = acc.stockUpdates ++
      items.filterMap (fun item => (lineProduct ps item).map (stockUpdateFor item)) := by
  induction items generalizing acc with
  | nil =>
    simp only [prepareItems, Except.ok.injEq] at h
    subst h
    simp
  | cons item rest ih =>
    unfold prepareItems at h
    split at h
    · simp at h
    · rename_i productId hid
      split at h
      · simp at h
      · rename_i product hfind
        split at h
        · simp at h
        · rename_i hcond
          have hlp : lineProduct ps item = some product := by
            simp [lineProduct, hid, hfind]
          obtain ⟨h1, h2, h3, h4⟩ := ih h
          simp only [Bool.or_eq_true, Bool.not_eq_true', decide_eq_true_eq, not_or,
            Bool.not_eq_false, not_lt] at hcond
          refine ⟨?_, ?_, ?_, ?_⟩
          · intro it hit
            rcases List.mem_cons.mp hit with he | he
            · subst he; exact ⟨product, hlp, hcond.1, hcond.2⟩
            · exact h1 it he
          · rw [h2]; simp only [List.map_cons, List.sum_cons, lineTotal, hlp]; ring
          · rw [h3]; simp [List.filterMap_cons, hlp, capturedItem]
          · rw [h4]; simp [List.filterMap_cons, hlp, stockUpdateFor]

/-- The document `Order.create` stores, field by field, and the validation it passed. -/
theorem Order.create_doc {env : Env} {os os1 : List Order} {d : NewOrder} {doc : Order}
    (h : Order.create env os d = .ok (os1, doc)) :
    doc = { _id := env.newId, user := d.user,
            orderNumber := generateOrderNumber env.now env.random, items := d.items,
            shippingAddress := storeAddress d.shippingAddress,
            shippingMethod := d.shippingMethod.getD "Standard",
            shippingCost := d.shippingCost, subtotal := d.subtotal, tax := d.tax,
            discount := d.discount, couponCode := d.couponCode, total := d.total,
            paymentMethod := d.paymentMethod.getD "card", paymentId := none,
            paymentStatus := d.paymentStatus, orderStatus := d.orderStatus,
            estimatedDelivery := none, cancelledAt := none, cancellationReason := none,
            createdAt := env.now, updatedAt := env.now } ∧
    d.items.all validOrderItem = true ∧
    validShippingMethod (d.shippingMethod.getD "Standard") = true ∧
    validPaymentMethod (d.paymentMethod.getD "card") = true := by
  unfold Order.create at h
  simp only at h
  split at h
  · simp at h
  · rename_i hv
    split at h
    · simp at h
    · simp only [Except.ok.injEq, Prod.mk.injEq] at h
      simp only [Bool.not_eq_true', Bool.not_eq_false, Bool.and_eq_true] at hv
      exact ⟨h.2.symm, hv.1.1.1, hv.1.2, hv.2⟩

/-- An accepted checkout, field by field: the lines passed the loop, the stock was
written by the bulk update, and the reply carries the stored order. -/
theorem createOrder_accepted {env : Env} {db db1 : Db} {user : ObjectId} {body : CreateOrderBody}
    {msg : Option String} {o : Order}
    (h : createOrder env db user body = (db1, .sent 201 (.order msg o))) :
    ∃ items prep, body.items = some items ∧ items ≠ [] ∧
      prepareItems db.products items { subtotal := 0, orderItems := [], stockUpdates := [] }
        = .ok prep ∧
      db1.products = bulkWrite db.products prep.stockUpdates ∧
      o.items = prep.orderItems ∧ o.subtotal = prep.subtotal ∧
      o.tax = prep.subtotal * (8 / 100) ∧ o.discount = 0 ∧
      o.shippingCost = shippingCostFor body.shippingMethod ∧
      o.couponCode = body.couponCode ∧
      o.shippingMethod = body.shippingMethod.getD "Standard" ∧
      o.paymentMethod = body.paymentMethod.getD "card" ∧
      o.paymentStatus = .pending ∧
      o.orderStatus = (if body.paymentMethod = some "cod" then .processing else .pending) ∧
      o.estimatedDelivery = some (o.estimatedDate env.now) ∧
      prep.orderItems.all validOrderItem = true ∧
      validShippingMethod o.shippingMethod = true ∧ validPaymentMethod o.paymentMethod = true := by
  unfold createOrder at h
  split at h
  · simp at h
  · simp at h
  · rename_i items hne hitems
    split at h
    · simp at h
    · split at h
      · rename_i out hprep
        simp only [Prod.mk.injEq] at h
        rcases prepareItems_error hprep with he | ⟨m, he | he⟩ <;> rw [he] at h <;> simp at h
      · rename_i prep hprep
        simp only at h
        split at h
        · simp at h
        · split at h
          · simp at h
          · rename_i orders created hc
            obtain ⟨hdoc, hv1, hv2, hv3⟩ := Order.create_doc hc
            simp only [Prod.mk.injEq, Outcome.sent.injEq, Body.order.injEq, true_and] at h
            obtain ⟨hdb, -, ho⟩ := h
            subst hdb
            subst ho
            subst hdoc
            refine ⟨items, prep, hitems, ?_, hprep, rfl, rfl, rfl, rfl, rfl, rfl, rfl, rfl, rfl,
              rfl, rfl, rfl, hv1, hv2, hv3⟩
            intro hnil
            exact hne hnil

/-! ## Pricing -/

theorem referenceUnitPrice_eq (p : Product) : referenceUnitPrice p = unitPrice p := by
  unfold referenceUnitPrice unitPrice
  cases p.salePrice with
  | none => rfl
  | some s => by_cases hs : s = 0 <;> simp [hs]

theorem referenceSubtotal_eq (ps : List Product) (items : List ReqItem) :
    referenceSubtotal referenceUnitPrice ps items = (items.map (lineTotal ps)).sum := by
  unfold referenceSubtotal
  congr 1
  apply List.map_congr_left
  intro item _
  unfold lineTotal
  cases lineProduct ps item with
  | none => rfl
  | some p => simp only [referenceUnitPrice_eq]

theorem captured_sum (ps : List Product) (items : List ReqItem) :
    ((items.filterMap (fun item => (lineProduct ps item).map (capturedItem item))).map
      (fun l => l.price * (l.quantity : ℚ))).sum = (items.map (lineTotal ps)).sum := by
  induction items with
  | nil => rfl
  | cons item rest ih =>
    cases hlp : lineProduct ps item with
    | none =>
      simp only [List.filterMap_cons, hlp, Option.map_none', List.map_cons, List.sum_cons,
        lineTotal, zero_add]
      exact ih
    | some p =>
      simp only [List.filterMap_cons, hlp, Option.map_some', List.map_cons, List.sum_cons,
        lineTotal, capturedItem]
      rw [ih]

/-- C11 (counterexample): a product with regular price 100 and a sale price set to 0 is
charged at 100 per unit, so 2 units give subtotal 200 where the stated rule gives 0. -/
theorem createOrder_zero_sale_price :
    sampleZeroSaleDb.products.map (fun p => (p.price, p.salePrice)) = [(100, some 0)] ∧
    (createOrder sampleEnv sampleZeroSaleDb sampleUserId (sampleBody [sampleLine 2] "Standard")).2
      = .sent 201 (.order (some "Order created successfully") sampleOrder) ∧
    sampleOrder.subtotal = 200 ∧
    referenceSubtotal statedUnitPrice sampleZeroSaleDb.products [sampleLine 2] = 0 := by
  refine ⟨by decide!, by decide!, by decide!, by decide!⟩

/-- C11 (amended): for every accepted checkout the stored subtotal is the sum over the
request's lines of captured unit price times quantity, the unit price being the product's
sale price when one is set and is not 0 and its regular price otherwise; every stored line
carries that unit price and the requested quantity; tax is exactly 8% of the subtotal;
discount is 0 whatever coupon code is supplied. -/
theorem createOrder_pricing_reference (env : Env) (db db1 : Db) (user : ObjectId)
    (body : CreateOrderBody) (msg : Option String) (o : Order) (items : List ReqItem)
    (hitems : body.items = some items)
    (h : createOrder env db user body = (db1, .sent 201 (.order msg o))) :
    o.subtotal = referenceSubtotal referenceUnitPrice db.products items ∧
    o.subtotal = (o.items.map (fun l => l.price * (l.quantity : ℚ))).sum ∧
    List.Forall₂ (fun item l => ∃ p, lineProduct db.products item = some p ∧
        l.product = p._id ∧ l.quantity = item.quantity ∧ l.price = referenceUnitPrice p)
      items o.items ∧
    o.tax = o.subtotal * (8 / 100) ∧ o.discount = 0 ∧
    o.total = o.subtotal + o.shippingCost + o.subtotal * (8 / 100) := by
  obtain ⟨items1, prep, hi, -, hprep, -, hoi, hsub, htax, hdisc, -⟩ := createOrder_accepted h
  obtain ⟨-, -, htot⟩ := createOrder_created h
  rw [hitems] at hi
  obtain rfl : items = items1 := Option.some.inj hi
  obtain ⟨hres, hs, hitm, -⟩ := prepareItems_ok hprep
  simp only [zero_add, List.nil_append] at hs hitm
  refine ⟨?_, ?_, ?_, ?_, hdisc, ?_⟩
  · rw [hsub, hs, referenceSubtotal_eq]
  · rw [hsub, hs, hoi, hitm, captured_sum]
  · rw [hoi, hitm]
    clear hprep hs hitm hi hitems h
    induction items with
    | nil => exact List.Forall₂.nil
    | cons item rest ih =>
      obtain ⟨p, hp, -, -⟩ := hres item (List.mem_cons_self _ _)
      simp only [List.filterMap_cons, hp, Option.map_some']
      refine List.Forall₂.cons ⟨p, hp, rfl, rfl, (referenceUnitPrice_eq p).symm⟩ ?_
      exact ih (fun it hit => hres it (List.mem_cons_of_mem _ hit))
  · rw [htax, hsub]
  · rw [htot, htax, hdisc, hsub]; ring

theorem createOrder_pricing_reference_witness :
    createOrder sampleEnv sampleDb sampleUserId (sampleBody [sampleLine 2] "Standard")
      = (sampleDbAfter, .sent 201 (.order (some "Order created successfully") sampleOrder)) ∧
    (sampleOrder.subtotal, sampleOrder.shippingCost, sampleOrder.tax, sampleOrder.total)
      = (200, 0, 16, 216) ∧
    sampleOrder.subtotal = referenceSubtotal referenceUnitPrice sampleDb.products [sampleLine 2] ∧
    sampleOrder.tax = sampleOrder.subtotal * (8 / 100) ∧ sampleOrder.discount = 0 :=
  ⟨by decide!, by decide!,
   (createOrder_pricing_reference sampleEnv sampleDb sampleDbAfter sampleUserId
      (sampleBody [sampleLine 2] "Standard") (some "Order created successfully") sampleOrder
      [sampleLine 2] (by decide) (by decide!)).1,
   (createOrder_pricing_reference sampleEnv sampleDb sampleDbAfter sampleUserId
      (sampleBody [sampleLine 2] "Standard") (some "Order created successfully") sampleOrder
      [sampleLine 2] (by decide) (by decide!)).2.2.2.1,
   (createOrder_pricing_reference sampleEnv sampleDb sampleDbAfter sampleUserId
      (sampleBody [sampleLine 2] "Standard") (some "Order created successfully") sampleOrder
      [sampleLine 2] (by decide) (by decide!)).2.2.2.2.1⟩

/-! ## Stock after an accepted checkout -/

/-- The bulk write adds to every stored product the increments addressed to it; a
product no update addresses is left as it was. -/
theorem bulkWrite_spec (us : List StockUpdate) :
    ∀ (ps : List Product) (pid : ObjectId) (p : Product), findProduct ps pid = some p →
      ∃ p1, findProduct (bulkWrite ps us) pid = some p1 ∧
        p1.quantity = p.quantity + ((us.filter (fun u => u.id = pid)).map (fun u => u.inc)).sum ∧
        ((∀ u ∈ us, u.id ≠ pid) → p1 = p) := by
  induction us with
  | nil =>
    intro ps pid p hp
    exact ⟨p, hp, by simp, fun _ => rfl⟩
  | cons u rest ih =>
    intro ps pid p hp
    simp only [bulkWrite, List.foldl_cons]
    by_cases hu : u.id = pid
    · have hfind : findProduct (applyStockUpdate ps u) pid =
          some { p with quantity := p.quantity + u.inc, inStock := u.inStock } := by
        unfold applyStockUpdate
        rw [hu]
        exact findProduct_updateProduct_self _ hp (findProduct_id (p := p) hp)
      obtain ⟨p1, h1, h2, -⟩ := ih _ pid _ hfind
      refine ⟨p1, h1, ?_, fun hall => absurd hu (hall u (List.mem_cons_self _ _))⟩
      rw [h2]
      simp only [List.filter_cons, hu, decide_True, if_true, List.map_cons, List.sum_cons]
      ring
    · have hfind : findProduct (applyStockUpdate ps u) pid = some p := by
        unfold applyStockUpdate
        refine Eq.trans (findProduct_updateProduct_other _ (Ne.symm hu) ?_) hp
        intro x hx; exact hx
      obtain ⟨p1, h1, h2, h3⟩ := ih _ pid p hfind
      refine ⟨p1, h1, ?_, fun hall => h3 (fun v hv => hall v (List.mem_cons_of_mem _ hv))⟩
      rw [h2]
      simp only [List.filter_cons, hu, decide_False, if_false]
      rfl

theorem lineProduct_id {ps : List Product} {item : ReqItem} {p : Product}
    (h : lineProduct ps item = some p) : itemProductId item = some p._id := by
  unfold lineProduct at h
  cases hid : itemProductId item with
  | none => rw [hid] at h; simp at h
  | some s =>
    rw [hid] at h
    simp only [Option.some_bind] at h
    rw [findProduct_id h]

/-- The increments of the stock updates of a request that are addressed to product `pid`
sum to minus the quantity requested for `pid`. -/
theorem stockUpdates_sum (ps : List Product) (items : List ReqItem) (pid : ObjectId)
    (hres : ∀ item ∈ items, ∃ p, lineProduct ps item = some p) :
    (((items.filterMap (fun item => (lineProduct ps item).map (stockUpdateFor item))).filter
        (fun u => u.id = pid)).map (fun u => u.inc)).sum = -requestedQuantity items pid := by
  induction items with
  | nil => simp [requestedQuantity]
  | cons item rest ih =>
    obtain ⟨p, hp⟩ := hres item (List.mem_cons_self _ _)
    have hid := lineProduct_id hp
    have ih1 := ih (fun it hit => hres it (List.mem_cons_of_mem _ hit))
    unfold requestedQuantity at ih1 ⊢
    by_cases hpid : p._id = pid
    · have h2 : itemProductId item = some pid := by rw [hid, hpid]
      simp only [List.filterMap_cons, hp, Option.map_some', List.filter_cons, stockUpdateFor,
        hpid, decide_True, if_true, List.map_cons, List.sum_cons, h2]
      rw [ih1]; ring
    · have h2 : ¬ itemProductId item = some pid := by
        rw [hid]; intro h; exact hpid (Option.some.inj h)
      simp only [List.filterMap_cons, hp, Option.map_some', List.filter_cons, stockUpdateFor,
        hpid, decide_False, if_false, h2]
      exact ih1

/-- C12: for every successful checkout, each stored product's quantity-on-hand after
`createOrder` is its quantity before minus the total quantity requested for that product
across all lines of the request, and a product named on no line is left as it was. -/
theorem createOrder_stock_after (env : Env) (db db1 : Db) (user : ObjectId)
    (body : CreateOrderBody) (msg : Option String) (o : Order) (items : List ReqItem)
    (hitems : body.items = some items)
    (h : createOrder env db user body = (db1, .sent 201 (.order msg o))) :
    ∀ (pid : ObjectId) (p : Product), findProduct db.products pid = some p →
      ∃ p1, findProduct db1.products pid = some p1 ∧
        p1.quantity = p.quantity - requestedQuantity items pid ∧
        ((∀ item ∈ items, itemProductId item ≠ some pid) → p1 = p) := by
  intro pid p hp
  obtain ⟨items1, prep, hi, -, hprep, hdb, -⟩ := createOrder_accepted h
  rw [hitems] at hi
  obtain rfl : items = items1 := Option.some.inj hi
  obtain ⟨hres, -, -, hupd⟩ := prepareItems_ok hprep
  simp only [List.nil_append] at hupd
  have hres1 : ∀ item ∈ items, ∃ p, lineProduct db.products item = some p :=
    fun it hit => (hres it hit).imp (fun _ hx => hx.1)
  obtain ⟨p1, h1, h2, h3⟩ := bulkWrite_spec prep.stockUpdates db.products pid p hp
  refine ⟨p1, hdb ▸ h1, ?_, ?_⟩
  · rw [h2, hupd, stockUpdates_sum db.products items pid hres1]; ring
  · intro hall
    apply h3
    intro u hu hid
    rw [hupd] at hu
    obtain ⟨item, hit, hmap⟩ := List.mem_filterMap.mp hu
    obtain ⟨q, hq⟩ := hres1 item hit
    rw [hq] at hmap
    simp only [Option.map_some', Option.some.injEq] at hmap
    subst hmap
    simp only [stockUpdateFor] at hid
    exact hall item hit (by rw [lineProduct_id hq, hid])

theorem createOrder_stock_after_witness :
    createOrder sampleEnv sampleDb sampleUserId (sampleBody [sampleLine 2] "Standard")
      = (sampleDbAfter, .sent 201 (.order (some "Order created successfully") sampleOrder)) ∧
    findProduct sampleDb.products sampleProductId = some sampleProduct ∧
    sampleProduct.quantity = 5 ∧ requestedQuantity [sampleLine 2] sampleProductId = 2 ∧
    findProduct sampleDbAfter.products sampleProductId = some { sampleProduct with quantity := 3 } ∧
    ∃ p1, findProduct sampleDbAfter.products sampleProductId = some p1 ∧
      p1.quantity = sampleProduct.quantity - requestedQuantity [sampleLine 2] sampleProductId ∧
      ((∀ item ∈ [sampleLine 2], itemProductId item ≠ some sampleProductId) → p1 = sampleProduct) :=
  ⟨by decide!, by decide!, by decide, by decide!, by decide!,
   createOrder_stock_after sampleEnv sampleDb sampleDbAfter sampleUserId
     (sampleBody [sampleLine 2] "Standard") (some "Order created successfully") sampleOrder
     [sampleLine 2] (by decide) (by decide!) sampleProductId sampleProduct (by decide!)⟩

/-- C13 (failing input): a checkout that lists one product on two lines, 2 and 3 units,
against a stock of 5 (with `inStock` true, so the invariant holds before) is accepted and
leaves the product with quantity 0 and `inStock` still true. -/
theorem createOrder_duplicate_lines_inStock :
    sampleDb.products.map (fun p => (p.quantity, p.inStock, decide (p.quantity > 0)))
      = [(5, true, true)] ∧
    (createOrder sampleEnv sampleDb sampleUserId
      (sampleBody [sampleLine 2, sampleLine 3] "Standard")).2.status = some 201 ∧
    (createOrder sampleEnv sampleDb sampleUserId
      (sampleBody [sampleLine 2, sampleLine 3] "Standard")).1.products.map
        (fun p => (p.quantity, p.inStock, decide (p.quantity > 0))) = [(0, true, false)] := by
  refine ⟨by decide, by decide!, by decide!⟩

/-! ## Rejection by the validation loop -/

theorem wellFormedLine_id {item : ReqItem} (h : wellFormedLine item = true) :
    ∃ s, itemProductId item = some s ∧ isObjectIdString s = true := by
  unfold wellFormedLine at h
  cases hid : itemProductId item with
  | none => rw [hid] at h; simp at h
  | some s =>
    refine ⟨s, rfl, ?_⟩
    rw [hid] at h
    simp only [castObjectId, beq_iff_eq] at h
    by_cases hs : isObjectIdString s = true
    · exact hs
    · simp [hs] at h

theorem castCheck_of_wellFormed {items : List ReqItem}
    (hwf : ∀ item ∈ items, wellFormedLine item = true) :
    items.all (fun item => match itemProductId item with
                           | some s => isObjectIdString s
                           | none => true) = true := by
  rw [List.all_eq_true]
  intro item hit
  obtain ⟨s, hs, hv⟩ := wellFormedLine_id (hwf item hit)
  simp only [hs, hv]

theorem prepareItems_reject {ps : List Product} {items : List ReqItem} {item : ReqItem}
    (hwf : ∀ it ∈ items, wellFormedLine it = true)
    (hfirst : items.find? (offending ps) = some item) (acc : Prepared) :
    prepareItems ps items acc = .error (rejectionFor ps item) := by
  induction items generalizing acc with
  | nil => simp at hfirst
  | cons it rest ih =>
    obtain ⟨s, hs, -⟩ := wellFormedLine_id (hwf it (List.mem_cons_self _ _))
    unfold prepareItems
    rw [List.find?_cons] at hfirst
    cases hfp : findProduct ps s with
    | none =>
      have hlp : lineProduct ps it = none := by simp [lineProduct, hs, hfp]
      have hoff : offending ps it = true := by simp [offending, hlp]
      simp only [hoff, Option.some.injEq] at hfirst
      subst hfirst
      simp only [hs, hfp, rejectionFor, hlp, Option.getD_some]
    | some p =>
      have hlp : lineProduct ps it = some p := by simp [lineProduct, hs, hfp]
      by_cases hc : (!p.inStock || decide (p.quantity < it.quantity)) = true
      · have hoff : offending ps it = true := by simp only [offending, hlp]; exact hc
        simp only [hoff, Option.some.injEq] at hfirst
        subst hfirst
        simp only [hs, hfp, hc, if_true, rejectionFor, hlp]
      · have hoff : offending ps it = false := by
          simp only [offending, hlp]; simpa using hc
        simp only [hoff] at hfirst
        simp only [hs, hfp, hc, if_false]
        exact ih (fun x hx => hwf x (List.mem_cons_of_mem _ hx)) hfirst _

theorem prepareItems_accept {ps : List Product} {items : List ReqItem}
    (hwf : ∀ it ∈ items, wellFormedLine it = true)
    (hnone : items.find? (offending ps) = none) (acc : Prepared) :
    ∃ prep, prepareItems ps items acc = .ok prep := by
  induction items generalizing acc with
  | nil => exact ⟨acc, rfl⟩
  | cons it rest ih =>
    obtain ⟨s, hs, -⟩ := wellFormedLine_id (hwf it (List.mem_cons_self _ _))
    rw [List.find?_cons] at hnone
    cases hoff : offending ps it with
    | true => rw [hoff] at hnone; simp at hnone
    | false =>
      rw [hoff] at hnone
      unfold prepareItems
      cases hfp : findProduct ps s with
      | none =>
        have hlp : lineProduct ps it = none := by simp [lineProduct, hs, hfp]
        simp [offending, hlp] at hoff
      | some p =>
        have hlp : lineProduct ps it = some p := by simp [lineProduct, hs, hfp]
        simp only [offending, hlp] at hoff
        simp only [hs, hfp, hoff, Bool.false_eq_true, if_false]
        exact ih (fun x hx => hwf x (List.mem_cons_of_mem _ hx)) hnone _

/-- Rejection by the validation loop when every line carries its product id in the
text `_id.toString()` prints (24 hexadecimal characters, lower case): `createOrder`
answers 404 or 400, before touching stock, exactly when some line is offending: it names
a product absent from the catalog, or one that is unavailable or has less on hand than
the line requests.  The reply is the one of the first offending line in request order,
404 for an absent product and 400 otherwise, and the store is unchanged; when no line
offends the stock is written.  An empty or missing item list is answered 400. -/
theorem createOrder_rejects_iff_offending (env : Env) (db : Db) (user : ObjectId)
    (body : CreateOrderBody) (items : List ReqItem)
    (hitems : body.items = some items) (hne : items ≠ [])
    (hwf : ∀ item ∈ items, wellFormedLine item = true) :
    (((createOrder env db user body).2.status = some 404 ∨
        (createOrder env db user body).2.status = some 400) ↔
      ∃ item ∈ items, offending db.products item = true) ∧
    (∀ item, items.find? (offending db.products) = some item →
      createOrder env db user body = (db, rejectionFor db.products item)) ∧
    (items.find? (offending db.products) = none →
      (createOrder env db user body).1.products = bulkWrite db.products
        (items.filterMap (fun item => (lineProduct db.products item).map (stockUpdateFor item)))) ∧
    (∀ body0 : CreateOrderBody, body0.items = none ∨ body0.items = some [] →
      createOrder env db user body0 = (db, .sent 400 (.message false "No order items provided"))) := by
  have hcast := castCheck_of_wellFormed hwf
  have hrej : ∀ item, items.find? (offending db.products) = some item →
      createOrder env db user body = (db, rejectionFor db.products item) := by
    intro item hfirst
    have hp := prepareItems_reject hwf hfirst
      { subtotal := 0, orderItems := [], stockUpdates := [] }
    cases items with
    | nil => exact absurd rfl hne
    | cons it rest =>
      simp only [createOrder, hitems, hcast, Bool.not_true, Bool.false_eq_true, if_false, hp]
  have hacc : items.find? (offending db.products) = none →
      (createOrder env db user body).1.products = bulkWrite db.products
        (items.filterMap (fun item => (lineProduct db.products item).map (stockUpdateFor item))) ∧
      (createOrder env db user body).2.status ≠ some 404 ∧
      (createOrder env db user body).2.status ≠ some 400 := by
    intro hnone
    obtain ⟨prep, hp⟩ := prepareItems_accept hwf hnone
      { subtotal := 0, orderItems := [], stockUpdates := [] }
    obtain ⟨-, -, -, hupd⟩ := prepareItems_ok hp
    simp only [List.nil_append] at hupd
    cases items with
    | nil => exact absurd rfl hne
    | cons it rest =>
      simp only [createOrder, hitems, hcast, Bool.not_true, Bool.false_eq_true, if_false, hp]
      rw [← hupd]
      split
      · exact ⟨rfl, by simp [Outcome.status], by simp [Outcome.status]⟩
      · split
        · exact ⟨rfl, by simp [Outcome.status], by simp [Outcome.status]⟩
        · exact ⟨rfl, by simp [Outcome.status], by simp [Outcome.status]⟩
  refine ⟨⟨?_, ?_⟩, hrej, fun hnone => (hacc hnone).1, ?_⟩
  · intro hst
    cases hfirst : items.find? (offending db.products) with
    | none =>
      obtain ⟨-, h404, h400⟩ := hacc hfirst
      rcases hst with h | h
      · exact absurd h h404
      · exact absurd h h400
    | some item =>
      exact ⟨item, List.mem_of_find?_eq_some hfirst, List.find?_some hfirst⟩
  · rintro ⟨item, hit, hoff⟩
    cases hfirst : items.find? (offending db.products) with
    | none =>
      have := List.find?_eq_none.mp hfirst item hit
      exact absurd hoff this
    | some first =>
      rw [hrej first hfirst]
      unfold rejectionFor
      cases lineProduct db.products first with
      | none => exact Or.inl rfl
      | some p => exact Or.inr rfl
  · intro body0 h0
    rcases h0 with h0 | h0 <;> simp only [createOrder, h0]

theorem createOrder_rejects_iff_offending_witness :
    (∀ item ∈ [sampleLine 2, { sampleLine 1 with productId := some "64b000000000000000000009" },
        sampleLine 9], wellFormedLine item = true) ∧
    [sampleLine 2, { sampleLine 1 with productId := some "64b000000000000000000009" },
        sampleLine 9].find? (offending sampleDb.products)
      = some { sampleLine 1 with productId := some "64b000000000000000000009" } ∧
    createOrder sampleEnv sampleDb sampleUserId
      (sampleBody [sampleLine 2, { sampleLine 1 with productId := some "64b000000000000000000009" },
        sampleLine 9] "Standard")
      = (sampleDb, .sent 404 (.message false "Product 64b000000000000000000009 not found")) :=
  ⟨by decide!, by decide!,
   ((createOrder_rejects_iff_offending sampleEnv sampleDb sampleUserId
      (sampleBody [sampleLine 2, { sampleLine 1 with productId := some "64b000000000000000000009" },
        sampleLine 9] "Standard")
      [sampleLine 2, { sampleLine 1 with productId := some "64b000000000000000000009" },
        sampleLine 9] (by decide) (by decide) (by decide!)).2.1
      { sampleLine 1 with productId := some "64b000000000000000000009" } (by decide!)).trans
      (by decide!)⟩

/-- C14 (failing input): a one-line checkout whose product id is the id of a stocked,
available product written with an upper-case letter.  `Product.find` casts the id and
fetches the product, but the loop looks the raw text up in a map keyed by the lower-case
`_id.toString()`: the request is rejected with 404 and the store untouched, although no
line names a product that is absent, unavailable or short; the same line with the id in
lower case is accepted. -/
theorem createOrder_uppercase_id_not_found :
    castObjectId "64B000000000000000000001" = some sampleProductId ∧
    findProduct sampleDb.products sampleProductId = some sampleProduct ∧
    sampleProduct.inStock = true ∧ sampleProduct.quantity = 5 ∧
    createOrder sampleEnv sampleDb sampleUserId
        (sampleBody [{ sampleLine 1 with productId := some "64B000000000000000000001" }]
          "Standard")
      = (sampleDb, .sent 404 (.message false "Product 64B000000000000000000001 not found")) ∧
    (createOrder sampleEnv sampleDb sampleUserId
        (sampleBody [sampleLine 1] "Standard")).2.status = some 201 ∧
    (createOrder sampleEnv sampleDb sampleUserId
        (sampleBody [sampleLine 1] "Standard")).1.products.map (fun p => p.quantity) = [4] := by
  refine ⟨by decide, by decide, by decide, by decide, by decide!, by decide!, by decide!⟩

/-! ## Dual-key lookup -/

/-- An order number generated by the `pre('validate')` hook is never the text of an
ObjectId: it starts with `ATW-`. -/
theorem generateOrderNumber_not_objectId (now : Nat) (random : ℚ) :
    castObjectId (generateOrderNumber now random) = none := by
  have h : isObjectIdString (generateOrderNumber now random) = false := by
    simp [isObjectIdString, generateOrderNumber]
  simp [castObjectId, h]

theorem eq_of_uniqueOrderNumbers {os : List Order} (hn : uniqueOrderNumbers os) {a b : Order}
    (ha : a ∈ os) (hb : b ∈ os) (h : a.orderNumber = b.orderNumber) : a = b :=
  List.inj_on_of_nodup_map hn ha hb h

/-- C15: in an order store with unique order numbers, for every stored order `o` the
lookup by `o.orderNumber` returns `o`, and so does the lookup by `o._id` (internal ids
being unique and printed as ObjectId text) when no stored order number is the text of
that id; generated numbers, which start with `ATW-`, never are.  The order number is
tried first: a key that matches an order number resolves to that order, also when the
same key is the internal id of another order.  A key that matches neither, also one that
is malformed as an internal id, yields no order instead of an error; and
`findOrderByIdOrNumberPopulated` resolves every key to the same order. -/
theorem findOrderByIdOrNumber_dual_key (os : List Order) (o : Order)
    (hn : uniqueOrderNumbers os) (ho : o ∈ os) :
    findOrderByIdOrNumber os o.orderNumber = some o ∧
    (uniqueIds os → castObjectId o._id = some o._id → (∀ x ∈ os, x.orderNumber ≠ o._id) →
      findOrderByIdOrNumber os o._id = some o) ∧
    (∀ k x, os.find? (fun y => y.orderNumber = k) = some x →
      findOrderByIdOrNumber os k = some x) ∧
    (∀ k a b, a ∈ os → a.orderNumber = k → b ∈ os → castObjectId k = some b._id →
      findOrderByIdOrNumber os k = some a) ∧
    (∀ k, (∀ x ∈ os, x.orderNumber ≠ k) → (∀ x ∈ os, castObjectId k ≠ some x._id) →
      findOrderByIdOrNumber os k = none) ∧
    (∀ k b, findOrderByIdOrNumberPopulated os k b = findOrderByIdOrNumber os k) := by
  have hfirst : ∀ k x, os.find? (fun y => y.orderNumber = k) = some x →
      findOrderByIdOrNumber os k = some x := by
    intro k x hx
    simp only [findOrderByIdOrNumber, hx]
  have hbyNumber : ∀ a ∈ os, findOrderByIdOrNumber os a.orderNumber = some a := by
    intro a ha
    cases hf : os.find? (fun y => y.orderNumber = a.orderNumber) with
    | none =>
      have := List.find?_eq_none.mp hf a ha
      simp at this
    | some x =>
      have hx := List.mem_of_find?_eq_some hf
      have hxn : x.orderNumber = a.orderNumber := by
        have := List.find?_some hf
        simpa using this
      rw [hfirst _ x hf, eq_of_uniqueOrderNumbers hn hx ha hxn]
  refine ⟨hbyNumber o ho, ?_, hfirst, ?_, ?_, fun k b => findOrderByIdOrNumberPopulated_eq os k b⟩
  · intro hu hcan hgen
    have hnone : os.find? (fun y => y.orderNumber = o._id) = none := by
      rw [List.find?_eq_none]
      intro x hx hxn
      simp only [decide_eq_true_eq] at hxn
      exact hgen x hx hxn
    simp only [findOrderByIdOrNumber, hnone, Order.findById, hcan]
    exact findOrder_of_mem hu ho
  · intro k a b ha hak _ _
    rw [← hak]
    exact hbyNumber a ha
  · intro k hk hid
    have hnone : os.find? (fun y => y.orderNumber = k) = none := by
      rw [List.find?_eq_none]
      intro x hx hxn
      simp only [decide_eq_true_eq] at hxn
      exact hk x hx hxn
    simp only [findOrderByIdOrNumber, hnone, Order.findById]
    cases hc : castObjectId k with
    | none => rfl
    | some oid =>
      simp only
      cases hfo : findOrder os oid with
      | none => rfl
      | some x =>
        exfalso
        have hx := findOrder_mem hfo
        have hxid := findOrder_id hfo
        exact hid x hx (by rw [hc, hxid])

theorem findOrderByIdOrNumber_dual_key_witness :
    (uniqueIds sampleDbAfter.orders ∧ uniqueOrderNumbers sampleDbAfter.orders ∧
      sampleOrder ∈ sampleDbAfter.orders ∧
      findOrderByIdOrNumber sampleDbAfter.orders "ATW-00000123-2500" = some sampleOrder ∧
      findOrderByIdOrNumber sampleDbAfter.orders "64d000000000000000000001" = some sampleOrder ∧
      findOrderByIdOrNumber sampleDbAfter.orders "not-an-id" = none) ∧
    (uniqueIds sampleCrossingOrders ∧ uniqueOrderNumbers sampleCrossingOrders ∧
      sampleNumberedAsId.orderNumber = "64d000000000000000000001" ∧
      sampleOrder._id = "64d000000000000000000001" ∧
      Order.findById sampleCrossingOrders (some "64d000000000000000000001")
        = .ok (some sampleOrder) ∧
      findOrderByIdOrNumber sampleCrossingOrders "64d000000000000000000001"
        = some sampleNumberedAsId) :=
  ⟨⟨by decide, by decide, by decide,
    (findOrderByIdOrNumber_dual_key sampleDbAfter.orders sampleOrder (by decide)
      (by decide)).1,
    (findOrderByIdOrNumber_dual_key sampleDbAfter.orders sampleOrder (by decide)
      (by decide)).2.1 (by decide) (by decide) (by decide),
    (findOrderByIdOrNumber_dual_key sampleDbAfter.orders sampleOrder (by decide)
      (by decide)).2.2.2.2.1 "not-an-id" (by decide) (by decide)⟩,
   ⟨by decide, by decide, by decide, by decide, by decide!,
    (findOrderByIdOrNumber_dual_key sampleCrossingOrders sampleNumberedAsId (by decide)
      (by decide)).2.2.2.1 "64d000000000000000000001"
      sampleNumberedAsId sampleOrder (by decide) (by decide) (by decide) (by decide)⟩⟩

/-! ## Shipping cost, totals, initial status, estimated delivery -/

theorem shippingCostFor_nonneg (m : Option String) : 0 ≤ shippingCostFor m := by
  unfold shippingCostFor
  split
  · exact le_refl _
  · split
    · norm_num
    · split
      · norm_num
      · exact le_refl _

/-- C16: the shipping cost `createOrder` computes is a three-tier lookup, 0 for
`Standard`, 15.99 for `Express`, 29.99 for `Overnight`; for every other value of the
shipping method (unknown, missing, different letter case) it is 0, the cheapest tier; and
the cost stored on a created order is this lookup of the request's shipping method. -/
theorem shippingCostFor_tiers :
    shippingCostFor (some "Standard") = 0 ∧
    shippingCostFor (some "Express") = 1599 / 100 ∧
    shippingCostFor (some "Overnight") = 2999 / 100 ∧
    shippingCostFor none = 0 ∧ shippingCostFor (some "express") = 0 ∧
    shippingCostFor (some "STANDARD") = 0 ∧ shippingCostFor (some "Pickup") = 0 ∧
    (∀ m : Option String, m ≠ some "Standard" → m ≠ some "Express" → m ≠ some "Overnight" →
      shippingCostFor m = 0) ∧
    (∀ m : Option String, shippingCostFor (some "Standard") ≤ shippingCostFor m) ∧
    (∀ (env : Env) (db db1 : Db) (user : ObjectId) (body : CreateOrderBody)
        (msg : Option String) (o : Order),
      createOrder env db user body = (db1, .sent 201 (.order msg o)) →
      o.shippingCost = shippingCostFor body.shippingMethod) := by
  have hge : ∀ m : Option String, shippingCostFor (some "Standard") ≤ shippingCostFor m := by
    intro m
    have h0 : shippingCostFor (some "Standard") = 0 := by simp [shippingCostFor]
    rw [h0]
    exact shippingCostFor_nonneg m
  refine ⟨by simp [shippingCostFor], by simp [shippingCostFor], by simp [shippingCostFor],
    by simp [shippingCostFor], by simp [shippingCostFor], by simp [shippingCostFor],
    by simp [shippingCostFor], ?_, hge, ?_⟩
  · intro m h1 h2 h3
    simp [shippingCostFor, h1, h2, h3]
  · intro env db db1 user body msg o h
    obtain ⟨_, _, -, -, -, -, -, -, -, -, hship, -⟩ := createOrder_accepted h
    exact hship

theorem shippingCostFor_tiers_witness :
    createOrder sampleEnv sampleDb sampleUserId (sampleBody [sampleLine 2] "Express")
      = (sampleDbExpress, .sent 201 (.order (some "Order created successfully") sampleExpressOrder)) ∧
    sampleExpressOrder.shippingCost = shippingCostFor (some "Express") ∧
    shippingCostFor (some "overnight") = 0 :=
  ⟨by decide!,
   shippingCostFor_tiers.2.2.2.2.2.2.2.2.2 sampleEnv sampleDb sampleDbExpress sampleUserId
     (sampleBody [sampleLine 2] "Express") (some "Order created successfully") sampleExpressOrder
     (by decide!),
   shippingCostFor_tiers.2.2.2.2.2.2.2.1 (some "overnight") (by decide) (by decide) (by decide)⟩

/-- The lines of an accepted order: each is the capture of a request line and of the
product it names, and the subtotal is the sum of the line totals. -/
theorem createOrder_lines {env : Env} {db db1 : Db} {user : ObjectId} {body : CreateOrderBody}
    {msg : Option String} {o : Order}
    (h : createOrder env db user body = (db1, .sent 201 (.order msg o))) :
    o.subtotal = (o.items.map (fun l => l.price * (l.quantity : ℚ))).sum ∧
    (∀ l ∈ o.items, 1 ≤ l.quantity) ∧
    (∀ l ∈ o.items, ∃ p ∈ db.products, l.price = unitPrice p) := by
  obtain ⟨items, prep, -, -, hprep, -, hoi, hsub, -, -, -, -, -, -, -, -, -, hvalid, -⟩ :=
    createOrder_accepted h
  obtain ⟨-, hs, hitm, -⟩ := prepareItems_ok hprep
  simp only [zero_add, List.nil_append] at hs hitm
  refine ⟨?_, ?_, ?_⟩
  · rw [hsub, hs, hoi, hitm, captured_sum]
  · intro l hl
    rw [hoi] at hl
    have := List.all_eq_true.mp hvalid l hl
    simp only [validOrderItem, Bool.and_eq_true, decide_eq_true_eq] at this
    exact this.2
  · intro l hl
    rw [hoi, hitm] at hl
    obtain ⟨item, -, hmap⟩ := List.mem_filterMap.mp hl
    cases hlp : lineProduct db.products item with
    | none => rw [hlp] at hmap; simp at hmap
    | some p =>
      rw [hlp] at hmap
      simp only [Option.map_some', Option.some.injEq] at hmap
      subst hmap
      refine ⟨p, ?_, rfl⟩
      unfold lineProduct at hlp
      cases hid : itemProductId item with
      | none => rw [hid] at hlp; simp at hlp
      | some s =>
        rw [hid] at hlp
        exact findProduct_mem hlp

theorem unitPrice_nonneg {p : Product}
    (hp : 0 ≤ p.price ∧ ∀ s, p.salePrice = some s → 0 ≤ s) : 0 ≤ unitPrice p := by
  unfold unitPrice
  cases hs : p.salePrice with
  | none => exact hp.1
  | some s =>
    simp only
    split
    · exact hp.1
    · exact hp.2 s hs

/-- C17: for every order that `createOrder` persists from catalog products whose prices
(regular and sale) are non-negative, the stored total is not negative: every stored line
has a quantity of at least 1 and a non-negative unit price, so the subtotal, the tax and
the shipping cost are non-negative and the discount is 0. -/
theorem createOrder_total_nonneg (env : Env) (db db1 : Db) (user : ObjectId)
    (body : CreateOrderBody) (msg : Option String) (o : Order)
    (hprice : ∀ p ∈ db.products, 0 ≤ p.price ∧ ∀ s, p.salePrice = some s → 0 ≤ s)
    (h : createOrder env db user body = (db1, .sent 201 (.order msg o))) :
    0 ≤ o.total ∧ 0 ≤ o.subtotal ∧ 0 ≤ o.tax ∧ 0 ≤ o.shippingCost ∧ o.discount = 0 ∧
    (∀ l ∈ o.items, 1 ≤ l.quantity ∧ 0 ≤ l.price) := by
  obtain ⟨hsum, hq, hp⟩ := createOrder_lines h
  obtain ⟨_, _, -, -, -, -, -, hsub, htax, hdisc, hship, -⟩ := createOrder_accepted h
  obtain ⟨-, -, htot⟩ := createOrder_created h
  have hline : ∀ l ∈ o.items, 1 ≤ l.quantity ∧ 0 ≤ l.price := by
    intro l hl
    obtain ⟨p, hpm, hpe⟩ := hp l hl
    exact ⟨hq l hl, hpe ▸ unitPrice_nonneg (hprice p hpm)⟩
  have hs0 : 0 ≤ o.subtotal := by
    rw [hsum]
    apply List.sum_nonneg
    intro x hx
    obtain ⟨l, hl, rfl⟩ := List.mem_map.mp hx
    have := hline l hl
    have hq0 : (0 : ℚ) ≤ (l.quantity : ℚ) := by exact_mod_cast (le_trans (by norm_num) this.1)
    exact mul_nonneg this.2 hq0
  have ht0 : 0 ≤ o.tax := by
    rw [htax, ← hsub]; exact mul_nonneg hs0 (by norm_num)
  have hsh0 : 0 ≤ o.shippingCost := by
    rw [hship]
    have := shippingCostFor_nonneg body.shippingMethod
    exact this
  refine ⟨?_, hs0, ht0, hsh0, hdisc, hline⟩
  rw [htot, hdisc]; linarith

theorem createOrder_total_nonneg_witness :
    (∀ p ∈ sampleDb.products, 0 ≤ p.price ∧ ∀ s, p.salePrice = some s → 0 ≤ s) ∧
    createOrder sampleEnv sampleDb sampleUserId (sampleBody [sampleLine 2] "Standard")
      = (sampleDbAfter, .sent 201 (.order (some "Order created successfully") sampleOrder)) ∧
    0 ≤ sampleOrder.total :=
  ⟨fun p hp => by
      simp only [sampleDb, List.mem_singleton] at hp
      subst hp
      exact ⟨by decide!, fun s hs => by simp [sampleProduct] at hs⟩,
   by decide!,
   (createOrder_total_nonneg sampleEnv sampleDb sampleDbAfter sampleUserId
      (sampleBody [sampleLine 2] "Standard") (some "Order created successfully") sampleOrder
      (fun p hp => by
        simp only [sampleDb, List.mem_singleton] at hp
        subst hp
        exact ⟨by decide!, fun s hs => by simp [sampleProduct] at hs⟩)
      (by decide!)).1⟩

/-- C18 (counterexample): one unit at 39.99 with Standard shipping is stored with tax
3.1992 and total 43.1892, which is not a whole number of cents and differs from its
rounding to two decimal places, 43.19. -/
theorem createOrder_total_not_whole_cents :
    (match (createOrder sampleEnv sampleCableDb sampleUserId
        (sampleBody [sampleLine 1] "Standard")).2 with
      | .sent 201 (.order _ o) => some (o.subtotal, o.tax, o.total)
      | _ => none) = some (3999 / 100, 31992 / 10000, 431892 / 10000) ∧
    isWholeCents (431892 / 10000) = false ∧
    roundToCents (431892 / 10000) = 4319 / 100 := by
  refine ⟨by decide!, by decide!, by decide!⟩

/-- C18 (amended): the total stored by `createOrder` is not rounded: it is exactly the
sum of the line totals (unit price times quantity, unrounded), plus 8% of that sum as tax,
plus the shipping cost of the request's shipping method; no rounding is applied to a line
total, the subtotal, the tax or the total. -/
theorem createOrder_total_unrounded (env : Env) (db db1 : Db) (user : ObjectId)
    (body : CreateOrderBody) (msg : Option String) (o : Order)
    (h : createOrder env db user body = (db1, .sent 201 (.order msg o))) :
    o.total = (o.items.map (fun l => l.price * (l.quantity : ℚ))).sum * (108 / 100)
      + shippingCostFor body.shippingMethod ∧
    o.subtotal = (o.items.map (fun l => l.price * (l.quantity : ℚ))).sum ∧
    o.tax = (o.items.map (fun l => l.price * (l.quantity : ℚ))).sum * (8 / 100) := by
  obtain ⟨hsum, -, -⟩ := createOrder_lines h
  obtain ⟨_, _, -, -, -, -, -, hsub, htax, hdisc, hship, -⟩ := createOrder_accepted h
  obtain ⟨-, -, htot⟩ := createOrder_created h
  refine ⟨?_, hsum, ?_⟩
  · rw [htot, htax, hdisc, hship, ← hsub, hsum]; ring
  · rw [htax, ← hsub, hsum]

theorem createOrder_total_unrounded_witness :
    createOrder sampleEnv sampleDb sampleUserId (sampleBody [sampleLine 2] "Express")
      = (sampleDbExpress, .sent 201 (.order (some "Order created successfully") sampleExpressOrder)) ∧
    sampleExpressOrder.total = (sampleExpressOrder.items.map
        (fun l => l.price * (l.quantity : ℚ))).sum * (108 / 100)
      + shippingCostFor (some "Express") :=
  ⟨by decide!,
   (createOrder_total_unrounded sampleEnv sampleDb sampleDbExpress sampleUserId
      (sampleBody [sampleLine 2] "Express") (some "Order created successfully") sampleExpressOrder
      (by decide!)).1⟩

/-- C19: the initial status of a created order depends only on the payment method: for
`cod` the order starts with orderStatus `processing` and paymentStatus `pending`; for every
other payment method both are `pending`. -/
theorem createOrder_initial_status (env : Env) (db db1 : Db) (user : ObjectId)
    (body : CreateOrderBody) (msg : Option String) (o : Order)
    (h : createOrder env db user body = (db1, .sent 201 (.order msg o))) :
    (body.paymentMethod = some "cod" →
      o.paymentMethod = "cod" ∧ o.orderStatus = .processing ∧ o.paymentStatus = .pending) ∧
    (body.paymentMethod ≠ some "cod" →
      o.paymentMethod ≠ "cod" ∧ o.orderStatus = .pending ∧ o.paymentStatus = .pending) ∧
    (o.orderStatus = if o.paymentMethod = "cod" then .processing else .pending) ∧
    o.paymentStatus = .pending ∧
    (∃ o1 ∈ db1.orders, o1._id = o._id ∧ o1.orderStatus = o.orderStatus ∧
      o1.paymentStatus = o.paymentStatus) := by
  obtain ⟨_, _, -, -, -, -, -, -, -, -, -, -, -, hpm, hps, hos, -⟩ := createOrder_accepted h
  obtain ⟨hdb, -, -⟩ := createOrder_created h
  have hcod : body.paymentMethod = some "cod" ↔ o.paymentMethod = "cod" := by
    rw [hpm]
    cases body.paymentMethod with
    | none => simp
    | some m => simp
  refine ⟨fun hc => ⟨hcod.mp hc, by rw [hos, if_pos hc], hps⟩,
    fun hc => ⟨fun hm => hc (hcod.mpr hm), by rw [hos, if_neg hc], hps⟩, ?_, hps,
    ⟨o, by rw [hdb]; simp, rfl, rfl, rfl⟩⟩
  rw [hos]
  by_cases hc : body.paymentMethod = some "cod"
  · rw [if_pos hc, if_pos (hcod.mp hc)]
  · rw [if_neg hc, if_neg (fun hm => hc (hcod.mpr hm))]

theorem createOrder_initial_status_witness :
    createOrder sampleEnv sampleDb sampleUserId sampleCodBody
      = (sampleDbCod, .sent 201 (.order (some "Order created successfully") sampleCodOrder)) ∧
    (sampleCodOrder.paymentMethod = "cod" ∧ sampleCodOrder.orderStatus = .processing ∧
      sampleCodOrder.paymentStatus = .pending) ∧
    (sampleOrder.paymentMethod ≠ "cod" ∧ sampleOrder.orderStatus = .pending ∧
      sampleOrder.paymentStatus = .pending) :=
  ⟨by decide!,
   (createOrder_initial_status sampleEnv sampleDb sampleDbCod sampleUserId sampleCodBody
      (some "Order created successfully") sampleCodOrder (by decide!)).1 (by decide),
   (createOrder_initial_status sampleEnv sampleDb sampleDbAfter sampleUserId
      (sampleBody [sampleLine 2] "Standard") (some "Order created successfully") sampleOrder
      (by decide!)).2.1 (by decide)⟩

/-- C20: `calculateEstimatedDelivery` sets `estimatedDelivery` to the date it returns, the
current date moved forward by an offset that depends only on the order's shipping method:
5 days for `Standard`, 2 for `Express`, 1 for `Overnight`, and 5 for any other value; it
changes no other field; and every order `createOrder` creates is stored with this value. -/
theorem calculateEstimatedDelivery_offset :
    (∀ (now : Nat) (o : Order),
      (o.calculateEstimatedDelivery now).estimatedDelivery = some (o.estimatedDate now) ∧
      o.estimatedDate now = { base := now, plusDays := daysToAdd o.shippingMethod } ∧
      o.calculateEstimatedDelivery now = { o with estimatedDelivery := some (o.estimatedDate now) }) ∧
    daysToAdd "Standard" = 5 ∧ daysToAdd "Express" = 2 ∧ daysToAdd "Overnight" = 1 ∧
    (∀ m : String, m ≠ "Express" → m ≠ "Overnight" → daysToAdd m = 5) ∧
    (∀ (env : Env) (db db1 : Db) (user : ObjectId) (body : CreateOrderBody)
        (msg : Option String) (o : Order),
      createOrder env db user body = (db1, .sent 201 (.order msg o)) →
      o.estimatedDelivery = some { base := env.now, plusDays := daysToAdd o.shippingMethod } ∧
      o ∈ db1.orders) := by
  refine ⟨fun now o => ⟨rfl, rfl, rfl⟩, by decide, by decide, by decide, ?_, ?_⟩
  · intro m h1 h2
    simp [daysToAdd, h1, h2]
  · intro env db db1 user body msg o h
    obtain ⟨_, _, -, -, -, -, -, -, -, -, -, -, -, -, -, -, hed, -⟩ := createOrder_accepted h
    obtain ⟨hdb, -, -⟩ := createOrder_created h
    exact ⟨hed, by rw [hdb]; simp⟩

theorem calculateEstimatedDelivery_offset_witness :
    createOrder sampleEnv sampleDb sampleUserId (sampleBody [sampleLine 2] "Express")
      = (sampleDbExpress, .sent 201 (.order (some "Order created successfully") sampleExpressOrder)) ∧
    sampleExpressOrder.estimatedDelivery = some { base := 1700000000123, plusDays := 2 } ∧
    sampleExpressOrder ∈ sampleDbExpress.orders ∧ daysToAdd "express" = 5 :=
  ⟨by decide!,
   (calculateEstimatedDelivery_offset.2.2.2.2.2 sampleEnv sampleDb sampleDbExpress sampleUserId
      (sampleBody [sampleLine 2] "Express") (some "Order created successfully") sampleExpressOrder
      (by decide!)).1,
   (calculateEstimatedDelivery_offset.2.2.2.2.2 sampleEnv sampleDb sampleDbExpress sampleUserId
      (sampleBody [sampleLine 2] "Express") (some "Order created successfully") sampleExpressOrder
      (by decide!)).2,
   calculateEstimatedDelivery_offset.2.2.2.2.1 "express" (by decide) (by decide)⟩

/-! ## Reads, webhook authentication and ownership -/

theorem autoVerify_none_of_unconfirmed {gw : Gateway} {order : Order} {pid : String}
    (h : gatewayConfirms gw pid = false) : autoVerify gw order pid = none := by
  simp only [gatewayConfirms, Bool.or_eq_false_iff] at h
  obtain ⟨h1, h2⟩ := h
  unfold autoVerify
  split
  · split
    · rename_i session hs
      rw [hs] at h1
      simp only [decide_eq_false_iff_not] at h1
      rw [if_neg h1]
    · rfl
  · split
    · split
      · rename_i paymentIntent hp
        rw [hp] at h2
        simp only [decide_eq_false_iff_not] at h2
        rw [if_neg h2]
      · rfl
    · rfl

theorem autoVerify_fields {gw : Gateway} {order order1 : Order} {pid : String}
    (h : autoVerify gw order pid = some order1) :
    order1._id = order._id ∧ order1.user = order.user ∧ order1.paymentStatus = .completed ∧
    order1.orderStatus = .processing := by
  unfold autoVerify at h
  split at h
  · split at h
    · split at h
      · simp only [Option.some.injEq] at h; subst h; exact ⟨rfl, rfl, rfl, rfl⟩
      · simp at h
    · simp at h
  · split at h
    · split at h
      · split at h
        · simp only [Option.some.injEq] at h; subst h; exact ⟨rfl, rfl, rfl, rfl⟩
        · simp at h
      · simp at h
    · simp at h

/-- C22: the lazy auto-verify never fails the read.  For every order read by its owner,
whatever the gateway answers or throws, `getOrderById` replies 200 with that order; the
order in the reply is marked `failed` only if it already was; and when the gateway does
not confirm the payment (it throws, times out or reports not paid) the store is unchanged
and the order is returned as stored. -/
theorem getOrderById_read_never_fails (gw : Gateway) (now : Nat) (db : Db) (user : ObjectId)
    (k : String) (o : Order)
    (hk : findOrderByIdOrNumberPopulated db.orders k true = some o) (hown : o.user = user) :
    (∃ o1, (getOrderById gw now db user k).2 = .sent 200 (.order none o1) ∧ o1._id = o._id ∧
      (o1.paymentStatus = .failed → o.paymentStatus = .failed)) ∧
    ((∀ pid, o.paymentId = some pid → gatewayConfirms gw pid = false) →
      getOrderById gw now db user k = (db, .sent 200 (.order none o))) := by
  constructor
  · simp only [getOrderById, hk, hown, ne_eq, not_true_eq_false, if_false]
    split
    · rename_i order1 h1
      split at h1
      · obtain ⟨pid, -, hp⟩ := Option.bind_eq_some.mp h1
        obtain ⟨hid, -, hps, -⟩ := autoVerify_fields hp
        refine ⟨_, rfl, hid, ?_⟩
        intro hf
        simp only [hps] at hf
        cases hf
      · simp at h1
    · exact ⟨o, rfl, rfl, id⟩
  · intro hno
    simp only [getOrderById, hk, hown, ne_eq, not_true_eq_false, if_false]
    have hnone : (if o.paymentStatus = .pending ∧ o.paymentMethod = "card" then
        (jsOr o.paymentId none).bind (autoVerify gw o) else none) = none := by
      split
      · cases hp : o.paymentId with
        | none => simp [jsOr]
        | some pid =>
          simp only [jsOr]
          split
          · rfl
          · simp only [Option.some_bind]
            exact autoVerify_none_of_unconfirmed (hno pid hp)
      · rfl
    rw [hnone]

theorem getOrderById_read_never_fails_witness :
    findOrderByIdOrNumberPopulated sampleDbCard.orders sampleOrderId true = some sampleCardOrder ∧
    gatewayConfirms sampleDownGateway "cs_test_1" = false ∧
    getOrderById sampleDownGateway 1700000005000 sampleDbCard sampleUserId sampleOrderId
      = (sampleDbCard, .sent 200 (.order none sampleCardOrder)) ∧
    (getOrderById sampleGateway 1700000005000 sampleDbCard sampleUserId sampleOrderId).2
      = .sent 200 (.order none samplePaidCard) :=
  ⟨by decide!, by decide!,
   (getOrderById_read_never_fails sampleDownGateway 1700000005000 sampleDbCard sampleUserId
      sampleOrderId sampleCardOrder (by decide!) (by decide)).2
      (fun pid hp => by
        have : pid = "cs_test_1" := by
          simp only [sampleCardOrder, Option.some.injEq] at hp
          exact hp.symm
        subst this
        decide!),
   by decide!⟩

/-- C23: a webhook request whose signature verification fails is answered 400 with the
store untouched, whatever the store holds; a verified event of a type other than
`checkout.session.completed` and `payment_intent.payment_failed` is acknowledged with
`received` and changes nothing. -/
theorem stripeWebhook_rejects_unverified (now : Nat) (db : Db) :
    (∀ msg : String,
      stripeWebhook now db (.error msg) = (db, .sent 400 (.text ("Webhook Error: " ++ msg)))) ∧
    (∀ e : StripeEvent, e.type ≠ "checkout.session.completed" →
      e.type ≠ "payment_intent.payment_failed" →
      stripeWebhook now db (.ok e) = (db, .sent 200 .received)) := by
  refine ⟨fun msg => rfl, fun e h1 h2 => ?_⟩
  simp only [stripeWebhook, h1, h2, if_false]

theorem stripeWebhook_rejects_unverified_witness :
    stripeWebhook 1700000004000 sampleDbPaid (.error "No signatures found")
      = (sampleDbPaid, .sent 400 (.text "Webhook Error: No signatures found")) ∧
    stripeWebhook 1700000004000 sampleDbPaid (.ok { sampleEvent with type := "charge.refunded" })
      = (sampleDbPaid, .sent 200 .received) :=
  ⟨(stripeWebhook_rejects_unverified 1700000004000 sampleDbPaid).1 "No signatures found",
   (stripeWebhook_rejects_unverified 1700000004000 sampleDbPaid).2
     { sampleEvent with type := "charge.refunded" } (by decide) (by decide)⟩

/-- C24: ownership is enforced on read and cancel.  For every stored order and every
caller who is not its owning user, `getOrderById` and `cancelOrder` reply 403 with a
message and no order data, whatever the gateway would answer (no gateway call decides
the reply), and leave the whole store, orders and stock, unchanged. -/
theorem ownership_enforced (gw : Gateway) (now : Nat) (db : Db) (caller : ObjectId)
    (k : String) (reason : Option String) (o : Order)
    (hk : findOrderByIdOrNumber db.orders k = some o) (hother : o.user ≠ caller) :
    getOrderById gw now db caller k
      = (db, .sent 403 (.message false "Not authorized to access this order")) ∧
    cancelOrder now db caller k reason
      = (db, .sent 403 (.message false "Not authorized to cancel this order")) := by
  constructor
  · simp only [getOrderById, findOrderByIdOrNumberPopulated_eq, hk, ne_eq, hother,
      not_false_eq_true, if_true]
  · simp only [cancelOrder, hk, ne_eq, hother, not_false_eq_true, if_true]

theorem ownership_enforced_witness :
    findOrderByIdOrNumber sampleDbCard.orders sampleOrderId = some sampleCardOrder ∧
    sampleCardOrder.user ≠ sampleOtherUserId ∧
    getOrderById sampleGateway 1700000005000 sampleDbCard sampleOtherUserId sampleOrderId
      = (sampleDbCard, .sent 403 (.message false "Not authorized to access this order")) ∧
    cancelOrder 1700000005000 sampleDbCard sampleOtherUserId sampleOrderId none
      = (sampleDbCard, .sent 403 (.message false "Not authorized to cancel this order")) :=
  ⟨by decide!, by decide,
   (ownership_enforced sampleGateway 1700000005000 sampleDbCard sampleOtherUserId sampleOrderId
      none sampleCardOrder (by decide!) (by decide)).1,
   (ownership_enforced sampleGateway 1700000005000 sampleDbCard sampleOtherUserId sampleOrderId
      none sampleCardOrder (by decide!) (by decide)).2⟩

/-! ## Cancellation with a missing product; payment signals on a cancelled order -/

theorem mem_updateProduct {id : ObjectId} {f : Product → Product} {ps : List Product}
    {p : Product} (h : p ∈ updateProduct id f ps) : p ∈ ps ∨ ∃ q ∈ ps, p = f q := by
  induction ps with
  | nil => simp [updateProduct] at h
  | cons x xs ih =>
    unfold updateProduct at h
    split at h
    · rcases List.mem_cons.mp h with h1 | h1
      · exact Or.inr ⟨x, List.mem_cons_self _ _, h1⟩
      · exact Or.inl (List.mem_cons_of_mem _ h1)
    · rcases List.mem_cons.mp h with h1 | h1
      · exact Or.inl (h1 ▸ List.mem_cons_self _ _)
      · rcases ih h1 with h2 | ⟨q, hq, h2⟩
        · exact Or.inl (List.mem_cons_of_mem _ h2)
        · exact Or.inr ⟨q, List.mem_cons_of_mem _ hq, h2⟩

/-- With no negative stock and no negative line quantity every save of the restore loop
passes the schema, so the loop runs to its end. -/
theorem restoreItems_total (now : Nat) (items : List OrderItem) :
    ∀ ps : List Product,
      (∀ i ∈ items, ∀ p, findProduct ps i.product = some p → 0 ≤ p.quantity) →
      (∀ i ∈ items, 0 ≤ i.quantity) →
      ∃ ps1, restoreItems now ps items = (ps1, none) := by
  induction items with
  | nil => intro ps _ _; exact ⟨ps, rfl⟩
  | cons item rest ih =>
    intro ps hps hi
    have hrest : ∀ i ∈ rest, 0 ≤ i.quantity := fun i h => hi i (List.mem_cons_of_mem _ h)
    have hitem : 0 ≤ item.quantity := hi item (List.mem_cons_self _ _)
    unfold restoreItems
    split
    · exact ih ps (fun i h => hps i (List.mem_cons_of_mem _ h)) hrest
    · rename_i product hfind
      have hp0 : 0 ≤ product.quantity := hps item (List.mem_cons_self _ _) product hfind
      have hq : ¬ product.quantity + item.quantity < 0 := by omega
      simp only [hq, if_false]
      apply ih _ _ hrest
      intro i hi1 p hp
      by_cases he : i.product = item.product
      · rw [he, findProduct_updateProduct_self _ hfind (findProduct_id (p := product) hfind)] at hp
        simp only [Option.some.injEq] at hp
        subst hp
        simp only
        omega
      · have hother := @findProduct_updateProduct_other ps item.product i.product
          (fun _ => ({ product with quantity := product.quantity + item.quantity,
                                    inStock := true, updatedAt := now } : Product)) he
          (fun _ _ => findProduct_id (p := product) hfind)
        rw [hother] at hp
        exact hps i (List.mem_cons_of_mem _ hi1) p hp

theorem restoreItems_error (now : Nat) (items : List OrderItem) :
    ∀ (ps ps1 : List Product) (e : Thrown), restoreItems now ps items = (ps1, some e) →
      e = .validationError := by
  induction items with
  | nil => intro ps ps1 e h; simp [restoreItems] at h
  | cons item rest ih =>
    intro ps ps1 e h
    unfold restoreItems at h
    split at h
    · exact ih _ _ _ h
    · simp only at h
      split at h
      · simp only [Prod.mk.injEq, Option.some.injEq] at h
        exact h.2.symm
      · exact ih _ _ _ h

theorem findProduct_updateProduct_none {ps : List Product} {id k : ObjectId}
    (f : Product → Product) (hf : ∀ x, x._id = id → (f x)._id = id)
    (h : findProduct ps k = none) : findProduct (updateProduct id f ps) k = none := by
  by_cases hk : k = id
  · subst hk
    induction ps with
    | nil => rfl
    | cons x xs ih =>
      unfold findProduct at h ih ⊢
      by_cases hx : x._id = k
      · simp [List.find?_cons, hx] at h
      · simp only [List.find?_cons, hx, decide_False] at h
        simp only [updateProduct, hx, if_false, List.find?_cons, decide_False]
        exact ih h
  · rw [findProduct_updateProduct_other f hk hf]; exact h

/-- The restore loop creates no product: an id that names no product before names none
after. -/
theorem restoreItems_absent (now : Nat) (items : List OrderItem) :
    ∀ (ps ps1 : List Product), restoreItems now ps items = (ps1, none) →
    ∀ pid : ObjectId, findProduct ps pid = none → findProduct ps1 pid = none := by
  induction items with
  | nil =>
    intro ps ps1 h pid hp
    simp only [restoreItems, Prod.mk.injEq, and_true] at h
    subst h; exact hp
  | cons item rest ih =>
    intro ps ps1 h pid hp
    unfold restoreItems at h
    split at h
    · exact ih ps ps1 h pid hp
    · rename_i product hsome
      simp only at h
      split at h
      · simp at h
      · refine ih _ ps1 h pid ?_
        apply findProduct_updateProduct_none _ _ hp
        intro _ _; exact findProduct_id (p := product) hsome

/-- C25 (counterexample): an order with one line whose product no longer exists is
cancelled with the plain reply `Order cancelled successfully` and the order document,
the same reply as when both products exist; nothing in it reports the unrestored line. -/
theorem cancelOrder_reports_no_warning :
    findProduct sampleDbGone.products sampleGoneProductId = none ∧
    cancelOrder 1700000003000 sampleDbGone sampleUserId sampleOrderId none =
      ({ products := [{ sampleProduct with updatedAt := 1700000003000 }],
         orders := [sampleTwoLineCancelled], carts := [] },
       .sent 200 (.order (some "Order cancelled successfully") sampleTwoLineCancelled)) ∧
    (cancelOrder 1700000003000 sampleDbBoth sampleUserId sampleOrderId none).2 =
      (cancelOrder 1700000003000 sampleDbGone sampleUserId sampleOrderId none).2 := by
  refine ⟨by decide!, by decide!, by decide!⟩

/-- C25 (amended): for every cancellable order cancelled by its owner, in an order
collection with unique `_id`, also when a line item names a product that can no longer be
found: that product is skipped silently and no reply carries a warning.  The reply is
either the ordinary success, 200 with `Order cancelled successfully` and the cancelled
order, or the handler throws the validation error of a `product.save()` and the order is
left as it was.  When no product named by a line of the order has negative stock and the
line quantities are at least 1 (the schema minima), the cancellation succeeds: the order
is stored as cancelled, the stock of every product that exists grows by the quantity the
order's lines hold of it, and a product that could not be found is still absent. -/
theorem cancelOrder_skips_missing_products (now : Nat) (db : Db) (user : ObjectId) (k : String)
    (reason : Option String) (o : Order)
    (hu : uniqueIds db.orders)
    (hk : findOrderByIdOrNumber db.orders k = some o) (hown : o.user = user)
    (hst : o.orderStatus = .pending ∨ o.orderStatus = .processing) :
    ((cancelOrder now db user k reason).2 =
        .sent 200 (.order (some "Order cancelled successfully")
          { o with orderStatus := .cancelled, cancelledAt := some now,
                   cancellationReason := jsOr reason (some "Cancelled by user"),
                   updatedAt := now }) ∨
      ((cancelOrder now db user k reason).2 = .threw .validationError ∧
        (cancelOrder now db user k reason).1.orders = db.orders)) ∧
    ((∀ i ∈ o.items, ∀ p, findProduct db.products i.product = some p → 0 ≤ p.quantity) →
      (∀ i ∈ o.items, 1 ≤ i.quantity) →
      (cancelOrder now db user k reason).2 =
        .sent 200 (.order (some "Order cancelled successfully")
          { o with orderStatus := .cancelled, cancelledAt := some now,
                   cancellationReason := jsOr reason (some "Cancelled by user"),
                   updatedAt := now }) ∧
      findOrder (cancelOrder now db user k reason).1.orders o._id =
        some { o with orderStatus := .cancelled, cancelledAt := some now,
                      cancellationReason := jsOr reason (some "Cancelled by user"),
                      updatedAt := now } ∧
      (∀ (pid : ObjectId) (p : Product), findProduct db.products pid = some p →
        ∃ p1, findProduct (cancelOrder now db user k reason).1.products pid = some p1 ∧
          p1.quantity = p.quantity + orderedQuantity o.items pid) ∧
      (∀ pid : ObjectId, findProduct db.products pid = none →
        findProduct (cancelOrder now db user k reason).1.products pid = none)) := by
  have hfo := findOrder_of_mem hu (findOrderByIdOrNumber_mem hk)
  have hguard : ¬ (!(decide (o.orderStatus = .pending) || decide (o.orderStatus = .processing)))
      = true := by
    rcases hst with h | h <;> simp [h]
  have hc : ∀ ps1, restoreItems now db.products o.items = (ps1, none) →
      cancelOrder now db user k reason =
      ({ db with products := ps1, orders := (saveOrder now db.orders
          { o with orderStatus := .cancelled, cancelledAt := some now,
                   cancellationReason := jsOr reason (some "Cancelled by user") }) },
       .sent 200 (.order (some "Order cancelled successfully")
        { o with orderStatus := .cancelled, cancelledAt := some now,
                 cancellationReason := jsOr reason (some "Cancelled by user"),
                 updatedAt := now })) := by
    intro ps1 hr
    simp only [cancelOrder, hk, hown, ne_eq, not_true_eq_false, if_false]
    rw [if_neg hguard]
    simp only [hr]
  have he : ∀ ps1 e, restoreItems now db.products o.items = (ps1, some e) →
      cancelOrder now db user k reason = ({ db with products := ps1 }, .threw e) := by
    intro ps1 e hr
    simp only [cancelOrder, hk, hown, ne_eq, not_true_eq_false, if_false]
    rw [if_neg hguard]
    simp only [hr]
  constructor
  · rcases hr : restoreItems now db.products o.items with ⟨ps1, _ | e⟩
    · left
      rw [hc ps1 hr]
    · right
      rw [he ps1 e hr, restoreItems_error now o.items _ _ _ hr]
      exact ⟨rfl, rfl⟩
  · intro hstock hlines
    have hi0 : ∀ i ∈ o.items, 0 ≤ i.quantity := fun i h => le_trans (by norm_num) (hlines i h)
    obtain ⟨ps1, hr⟩ := restoreItems_total now o.items db.products hstock hi0
    rw [hc ps1 hr]
    refine ⟨rfl, ?_, ?_, ?_⟩
    · exact findOrder_updateOrder_self _ hfo rfl
    · intro pid p hp
      obtain ⟨p1, h1, h2, -⟩ := restoreItems_spec now o.items db.products ps1 hr pid p hp
      exact ⟨p1, h1, h2⟩
    · intro pid hp
      exact restoreItems_absent now o.items db.products ps1 hr pid hp

theorem cancelOrder_skips_missing_products_witness :
    (findOrderByIdOrNumber sampleDbGone.orders sampleOrderId = some sampleTwoLineOrder ∧
      findProduct sampleDbGone.products sampleGoneProductId = none ∧
      (cancelOrder 1700000003000 sampleDbGone sampleUserId sampleOrderId none).2 =
        .sent 200 (.order (some "Order cancelled successfully") sampleTwoLineCancelled) ∧
      findOrder (cancelOrder 1700000003000 sampleDbGone sampleUserId sampleOrderId none).1.orders
        sampleOrderId = some sampleTwoLineCancelled ∧
      (∃ p1, findProduct (cancelOrder 1700000003000 sampleDbGone sampleUserId sampleOrderId
          none).1.products sampleProductId = some p1 ∧
        p1.quantity = 3 + orderedQuantity sampleTwoLineOrder.items sampleProductId)) ∧
    (sampleDbShort.products.map (fun p => (p._id, p.quantity))
        = [(sampleProductId, 3), (sampleGoneProductId, -5)] ∧
      cancelOrder 1700000003000 sampleDbShort sampleUserId sampleOrderId none =
        ({ sampleDbShort with products :=
            [ { sampleProduct with quantity := 5, updatedAt := 1700000003000 },
              { sampleProduct with _id := sampleGoneProductId, name := "Sleeve", price := 20,
                                   quantity := -5, thumbnail := "sleeve.png" } ] },
         .threw .validationError) ∧
      ((cancelOrder 1700000003000 sampleDbShort sampleUserId sampleOrderId none).2 =
          .sent 200 (.order (some "Order cancelled successfully") sampleTwoLineCancelled) ∨
        ((cancelOrder 1700000003000 sampleDbShort sampleUserId sampleOrderId none).2
            = .threw .validationError ∧
          (cancelOrder 1700000003000 sampleDbShort sampleUserId sampleOrderId none).1.orders
            = sampleDbShort.orders))) :=
  ⟨⟨by decide!, by decide!,
    ((cancelOrder_skips_missing_products 1700000003000 sampleDbGone sampleUserId sampleOrderId
      none sampleTwoLineOrder (by decide) (by decide!) (by decide) (Or.inl (by decide))).2
      (by decide!) (by decide!)).1,
    ((cancelOrder_skips_missing_products 1700000003000 sampleDbGone sampleUserId sampleOrderId
      none sampleTwoLineOrder (by decide) (by decide!) (by decide) (Or.inl (by decide))).2
      (by decide!) (by decide!)).2.1,
    ((cancelOrder_skips_missing_products 1700000003000 sampleDbGone sampleUserId sampleOrderId
      none sampleTwoLineOrder (by decide) (by decide!) (by decide) (Or.inl (by decide))).2
      (by decide!) (by decide!)).2.2.1 sampleProductId { sampleProduct with quantity := 3 }
      (by decide!)⟩,
   ⟨by decide!, by decide!,
    (cancelOrder_skips_missing_products 1700000003000 sampleDbShort sampleUserId sampleOrderId
      none sampleTwoLineOrder (by decide) (by decide!) (by decide) (Or.inl (by decide))).1⟩⟩

/-- C27 (counterexample): a cancelled order whose payment is still pending is moved back
to `processing` by `verifyPayment`, by the auto-verify of `getOrderById` and by
`stripeWebhook`; it can then be cancelled again, and its 2 units are restored twice
(stock 3, then 5, then 7). -/
theorem payment_signal_revives_cancelled :
    sampleDbCard.products.map (fun p => p.quantity) = [3] ∧
    (cancelOrder 1700000003000 sampleDbCard sampleUserId sampleOrderId none).1.orders.map
      (fun o => (o.orderStatus, o.paymentStatus)) = [(.cancelled, .pending)] ∧
    (cancelOrder 1700000003000 sampleDbCard sampleUserId sampleOrderId none).1.products.map
      (fun p => p.quantity) = [5] ∧
    (verifyPayment sampleGateway 1700000005000
      (cancelOrder 1700000003000 sampleDbCard sampleUserId sampleOrderId none).1
      "cs_test_1").1.orders.map (fun o => o.orderStatus) = [.processing] ∧
    (getOrderById sampleGateway 1700000005000
      (cancelOrder 1700000003000 sampleDbCard sampleUserId sampleOrderId none).1
      sampleUserId sampleOrderId).1.orders.map (fun o => o.orderStatus) = [.processing] ∧
    (stripeWebhook 1700000005000
      (cancelOrder 1700000003000 sampleDbCard sampleUserId sampleOrderId none).1
      (.ok sampleEvent)).1.orders.map (fun o => o.orderStatus) = [.processing] ∧
    (run sampleDbCard sampleReviveTrace).orders.map (fun o => o.orderStatus) = [.cancelled] ∧
    (run sampleDbCard sampleReviveTrace).products.map (fun p => p.quantity) = [7] := by
  refine ⟨by decide, by decide!, by decide!, by decide!, by decide!, by decide!, by decide!,
    by decide!⟩

/-- C27 (amended): once an order is paid, a payment signal that arrives through
`verifyPayment` or through the auto-verify of `getOrderById` moves nothing: for every
order whose paymentStatus is `completed`, whatever its orderStatus (cancelled, shipped and
delivered included), both handlers leave the whole store unchanged, so its orderStatus
stays as it is. -/
theorem payment_pull_keeps_paid_order (gw : Gateway) (now : Nat) (db : Db) (o : Order)
    (hps : o.paymentStatus = .completed) :
    (∀ (sid : String) (session : StripeObject) (md : SessionMetadata),
      gw.sessionsRetrieve sid = .ok (some session) → session.metadata = some md →
      Order.findById db.orders md.orderId = .ok (some o) →
      (verifyPayment gw now db sid).1 = db) ∧
    (∀ (user : ObjectId) (k : String), findOrderByIdOrNumber db.orders k = some o →
      (getOrderById gw now db user k).1 = db) := by
  constructor
  · intro sid session md hgw hmd hf
    simp only [verifyPayment, hgw, hmd, hf, hps, ne_eq, not_true_eq_false, and_false, if_false]
  · intro user k hk
    simp only [getOrderById, findOrderByIdOrNumberPopulated_eq, hk, hps]
    split
    · rfl
    · simp

theorem payment_pull_keeps_paid_order_witness :
    samplePaidOrder.paymentStatus = .completed ∧ samplePaidOrder.orderStatus = .shipped ∧
    (verifyPayment sampleGateway 1700000005000 sampleDbPaid "cs_test_1").1 = sampleDbPaid ∧
    (getOrderById sampleGateway 1700000005000 sampleDbPaid sampleUserId sampleOrderId).1
      = sampleDbPaid :=
  ⟨by decide, by decide,
   (payment_pull_keeps_paid_order sampleGateway 1700000005000 sampleDbPaid samplePaidOrder
      (by decide)).1 "cs_test_1" sampleSession
      { orderId := some sampleOrderId, userId := some sampleUserId }
      (by decide!) (by decide) (by decide!),
   (payment_pull_keeps_paid_order sampleGateway 1700000005000 sampleDbPaid samplePaidOrder
      (by decide)).2 sampleUserId sampleOrderId (by decide!)⟩

/-- C29 (failing input): a caller who is not the owner of an order passes its session
reference to `verifyPayment`, which never reads the caller: the reply carries the other
user's order and the order's payment fields are updated. -/
theorem verifyPayment_ignores_owner :
    sampleCardOrder.user = sampleUserId ∧ sampleOtherUserId ≠ sampleCardOrder.user ∧
    verifyPayment sampleGateway 1700000005000 sampleDbCard "cs_test_1" =
      ({ sampleDbCard with orders := [samplePaidCard] },
       .sent 200 (.payment "paid" (some samplePaidCard))) ∧
    samplePaidCard.user = sampleUserId := by
  refine ⟨by decide, by decide, by decide!, by decide⟩

/-! ## Prices come from the catalog -/

theorem capturedItem_of_key (ps : List Product) (l : List ReqItem) :
    l.filterMap (fun item => (lineProduct ps item).map (capturedItem item)) =
    (l.map lineKey).filterMap (fun k =>
      (k.1.bind (findProduct ps)).map (fun p =>
        ({ product := p._id, name := p.name, quantity := k.2.1, price := unitPrice p,
           selectedColor := k.2.2, thumbnail := p.thumbnail } : OrderItem))) := by
  rw [List.filterMap_map]
  rfl

theorem lineTotal_of_key (ps : List Product) (l : List ReqItem) :
    l.map (lineTotal ps) =
    (l.map lineKey).map (fun k =>
      match k.1.bind (findProduct ps) with
      | some p => unitPrice p * (k.2.1 : ℚ)
      | none => 0) := by
  rw [List.map_map]
  rfl

/-- C30: order prices come only from the catalog.  For every catalog state and every two
checkout requests that agree on product ids, quantities, selected colours, shipping method
and payment method, whatever price, name, amount or coupon fields (and whatever address)
they carry and whoever sends them: if both are accepted, the two orders have identical
lines (product, name, quantity, unit price, colour), subtotal, shipping cost, tax,
discount and total. -/
theorem createOrder_prices_from_catalog (env1 env2 : Env) (db db1 db2 : Db)
    (user1 user2 : ObjectId) (b1 b2 : ClientBody) (msg1 msg2 : Option String) (o1 o2 : Order)
    (hlines : b1.read.items.map (fun l => l.map lineKey) = b2.read.items.map (fun l => l.map lineKey))
    (hsm : b1.shippingMethod = b2.shippingMethod) (hpm : b1.paymentMethod = b2.paymentMethod)
    (h1 : createOrder env1 db user1 b1.read = (db1, .sent 201 (.order msg1 o1)))
    (h2 : createOrder env2 db user2 b2.read = (db2, .sent 201 (.order msg2 o2))) :
    o1.items = o2.items ∧ o1.subtotal = o2.subtotal ∧ o1.shippingCost = o2.shippingCost ∧
    o1.tax = o2.tax ∧ o1.discount = o2.discount ∧ o1.total = o2.total ∧
    o1.paymentMethod = o2.paymentMethod ∧ o1.orderStatus = o2.orderStatus := by
  obtain ⟨items1, prep1, hi1, -, hp1, -, hoi1, hsub1, htax1, hd1, hsh1, -, -, hm1, -, hos1, -⟩ :=
    createOrder_accepted h1
  obtain ⟨items2, prep2, hi2, -, hp2, -, hoi2, hsub2, htax2, hd2, hsh2, -, -, hm2, -, hos2, -⟩ :=
    createOrder_accepted h2
  obtain ⟨-, -, htot1⟩ := createOrder_created h1
  obtain ⟨-, -, htot2⟩ := createOrder_created h2
  obtain ⟨-, hs1, hitm1, -⟩ := prepareItems_ok hp1
  obtain ⟨-, hs2, hitm2, -⟩ := prepareItems_ok hp2
  simp only [zero_add, List.nil_append] at hs1 hitm1 hs2 hitm2
  have hkeys : items1.map lineKey = items2.map lineKey := by
    rw [hi1, hi2] at hlines
    simpa using hlines
  have hsm' : b1.read.shippingMethod = b2.read.shippingMethod := hsm
  have hpm' : b1.read.paymentMethod = b2.read.paymentMethod := hpm
  have hitems : o1.items = o2.items := by
    rw [hoi1, hoi2, hitm1, hitm2, capturedItem_of_key, capturedItem_of_key, hkeys]
  have hsub : o1.subtotal = o2.subtotal := by
    rw [hsub1, hsub2, hs1, hs2, lineTotal_of_key, lineTotal_of_key, hkeys]
  have hship : o1.shippingCost = o2.shippingCost := by rw [hsh1, hsh2, hsm']
  have htax : o1.tax = o2.tax := by rw [htax1, htax2, ← hsub1, ← hsub2, hsub]
  have hdisc : o1.discount = o2.discount := by rw [hd1, hd2]
  refine ⟨hitems, hsub, hship, htax, hdisc, ?_, ?_, ?_⟩
  · rw [htot1, htot2, hsub, hship, htax, hdisc]
  · rw [hm1, hm2, hpm']
  · rw [hos1, hos2, hpm']

theorem createOrder_prices_from_catalog_witness :
    (createOrder sampleEnv sampleDb sampleUserId
      (sampleClientBody (some 1) (some 2) (some "FREE100")).read).2
      = .sent 201 (.order (some "Order created successfully")
          { sampleOrder with couponCode := some "FREE100" }) ∧
    (createOrder sampleEnv sampleDb sampleOtherUserId (sampleClientBody none none none).read).2
      = .sent 201 (.order (some "Order created successfully")
          { sampleOrder with user := sampleOtherUserId }) ∧
    ({ sampleOrder with couponCode := some "FREE100" } : Order).total
      = ({ sampleOrder with user := sampleOtherUserId } : Order).total ∧
    ({ sampleOrder with couponCode := some "FREE100" } : Order).total = 216 :=
  ⟨by decide!, by decide!,
   (createOrder_prices_from_catalog sampleEnv sampleEnv sampleDb
      (createOrder sampleEnv sampleDb sampleUserId
        (sampleClientBody (some 1) (some 2) (some "FREE100")).read).1
      (createOrder sampleEnv sampleDb sampleOtherUserId (sampleClientBody none none none).read).1
      sampleUserId sampleOtherUserId
      (sampleClientBody (some 1) (some 2) (some "FREE100")) (sampleClientBody none none none)
      (some "Order created successfully") (some "Order created successfully")
      { sampleOrder with couponCode := some "FREE100" }
      { sampleOrder with user := sampleOtherUserId }
      (by decide!) (by decide) (by decide) (by decide!) (by decide!)).2.2.2.2.2.1,
   by decide!⟩

/-! ## The amount charged -/

theorem jsRound_int_add (n : ℤ) (x : ℚ) : jsRound ((n : ℚ) + x) = n + jsRound x := by
  unfold jsRound
  have h : (n : ℚ) + x + 1 / 2 = (n : ℚ) + (x + 1 / 2) := by ring
  rw [h]
  exact Int.floor_int_add n (x + 1 / 2)

theorem jsRound_zero : jsRound 0 = 0 := by decide!

theorem jsRound_intCast (n : ℤ) : jsRound (n : ℚ) = n := by
  have := jsRound_int_add n 0
  rw [add_zero, jsRound_zero, add_zero] at this
  exact this

/-- Lines priced in whole cents are charged at exactly their line totals. -/
theorem lines_charged (items : List OrderItem)
    (hcents : ∀ l ∈ items, ∃ n : ℕ, l.price = (n : ℚ) / 100) :
    (((items.map (fun l => jsRound (l.price * 100) * l.quantity)).sum : ℤ) : ℚ) =
      (items.map (fun l => l.price * (l.quantity : ℚ))).sum * 100 := by
  induction items with
  | nil => simp
  | cons l rest ih =>
    obtain ⟨n, hn⟩ := hcents l (List.mem_cons_self _ _)
    have hr := ih (fun x hx => hcents x (List.mem_cons_of_mem _ hx))
    have hp : l.price * 100 = ((n : ℤ) : ℚ) := by rw [hn]; push_cast; ring
    simp only [List.map_cons, List.sum_cons, Int.cast_add, Int.cast_mul, hr]
    rw [hp, jsRound_intCast, ← hp]
    ring

theorem shipping_charged (m : Option String) (name : String) :
    ((((if shippingCostFor m > 0 then
        [({ name := name, unit_amount := jsRound (shippingCostFor m * 100), quantity := 1 } : LineItem)]
       else []).map (fun li => li.unit_amount * li.quantity)).sum : ℤ) : ℚ) =
      shippingCostFor m * 100 := by
  unfold shippingCostFor
  split
  · simp
  · split
    · have h : jsRound (1599 / 100 * 100) = 1599 := by decide!
      have hpos : (1599 / 100 : ℚ) > 0 := by norm_num
      simp only [hpos, if_true, List.map_cons, List.map_nil, List.sum_cons, List.sum_nil, h]
      push_cast
      norm_num
    · split
      · have h : jsRound (2999 / 100 * 100) = 2999 := by decide!
        have hpos : (2999 / 100 : ℚ) > 0 := by norm_num
        simp only [hpos, if_true, List.map_cons, List.map_nil, List.sum_cons, List.sum_nil, h]
        push_cast
        norm_num
      · simp

/-- The order that `createOrder` stores and returns belongs to the caller. -/
theorem createOrder_owner {env : Env} {db db1 : Db} {user : ObjectId} {body : CreateOrderBody}
    {msg : Option String} {o : Order}
    (h : createOrder env db user body = (db1, .sent 201 (.order msg o))) : o.user = user := by
  unfold createOrder at h
  split at h
  · simp at h
  · simp at h
  · split at h
    · simp at h
    · split at h
      · rename_i out hprep
        simp only [Prod.mk.injEq] at h
        rcases prepareItems_error hprep with he | ⟨m, he | he⟩ <;> rw [he] at h <;> simp at h
      · simp only at h
        split at h
        · simp at h
        · split at h
          · simp at h
          · rename_i orders created hc
            obtain ⟨hd, -⟩ := Order.create_doc hc
            simp only [Prod.mk.injEq, Outcome.sent.injEq, Body.order.injEq, true_and] at h
            obtain ⟨-, -, ho⟩ := h
            subst ho
            rw [hd]
            rfl

/-- The order that `createOrder` answers with is the stored one: `Order.findById` on
its `_id` returns it (the `_id` being the text of an ObjectId, as the driver generates
it). -/
theorem createOrder_findById {env : Env} {db db1 : Db} {user : ObjectId}
    {body : CreateOrderBody} {msg : Option String} {o : Order}
    (h : createOrder env db user body = (db1, .sent 201 (.order msg o)))
    (hid : castObjectId o._id = some o._id) :
    Order.findById db1.orders (some o._id) = .ok (some o) := by
  obtain ⟨hos, hnew, -⟩ := createOrder_created h
  have hnone : db.orders.find? (fun x => x._id = o._id) = none := by
    rw [List.find?_eq_none]
    intro x hx
    simpa using hnew x hx
  simp only [Order.findById, hid, findOrder, hos, List.find?_append, hnone, Option.none_or,
    List.find?_cons, decide_True]

/-- The handler `createCheckoutSession`, called by the owner with a key that finds the
order: the gateway receives `checkoutLineItems` of the stored order, and the reply and
the stored payment reference are the session it returns. -/
theorem createCheckoutSession_owner (create : List LineItem → Except Thrown StripeObject)
    (now : Nat) (db : Db) (key : Option String) (o : Order)
    (hf : Order.findById db.orders key = .ok (some o)) :
    createCheckoutSession create now db o.user key =
      match create (checkoutLineItems o) with
      | .error e => (db, .threw e)
      | .ok session =>
        ({ db with orders := saveOrder now db.orders { o with paymentId := some session.id } },
         .sent 200 (.session session.id)) := by
  simp only [createCheckoutSession, hf, ne_eq, not_true_eq_false, if_false]

/-- C28: the amount charged matches the order.  For every order created by `createOrder`
whose line prices are whole (non-negative) cents, the shipping cost being whole cents and
the quantities positive by construction, the sum of `unit_amount` times `quantity` over
the line items `createCheckoutSession` builds (the order lines, shipping when positive,
tax when positive) equals the order total expressed in cents and rounded to the nearest
cent.  These line items are what the handler hands to the gateway: the order belongs to
the caller of `createOrder` and is found by its `_id` in the store, and whenever its owner
calls `createCheckoutSession` with a key that finds it, whatever the gateway call does,
the call receives exactly these line items, a gateway error is thrown on with the store
unchanged, and a session is answered with 200 and its id, which is stored on the order. -/
theorem checkout_amount_matches_total (env : Env) (db db1 : Db) (user : ObjectId)
    (body : CreateOrderBody) (msg : Option String) (o : Order)
    (hcents : ∀ l ∈ o.items, ∃ n : ℕ, l.price = (n : ℚ) / 100)
    (h : createOrder env db user body = (db1, .sent 201 (.order msg o))) :
    chargedCents (checkoutLineItems o) = jsRound (o.total * 100) ∧
    (∀ l ∈ o.items, 1 ≤ l.quantity) ∧ isWholeCents o.shippingCost = true ∧
    o.user = user ∧
    (castObjectId o._id = some o._id →
      Order.findById db1.orders (some o._id) = .ok (some o)) ∧
    (∀ (create : List LineItem → Except Thrown StripeObject) (now : Nat) (db2 : Db)
      (key : Option String), Order.findById db2.orders key = .ok (some o) →
      createCheckoutSession create now db2 user key =
        match create (checkoutLineItems o) with
        | .error e => (db2, .threw e)
        | .ok session =>
          ({ db2 with orders :=
              saveOrder now db2.orders { o with paymentId := some session.id } },
           .sent 200 (.session session.id))) := by
  obtain ⟨hsum, hq, -⟩ := createOrder_lines h
  obtain ⟨_, _, -, -, -, -, -, hsub, htax, hdisc, hship, -⟩ := createOrder_accepted h
  obtain ⟨-, -, htot⟩ := createOrder_created h
  have hs0 : 0 ≤ o.subtotal := by
    rw [hsum]
    apply List.sum_nonneg
    intro x hx
    obtain ⟨l, hl, rfl⟩ := List.mem_map.mp hx
    obtain ⟨n, hn⟩ := hcents l hl
    have hq0 : (0 : ℚ) ≤ (l.quantity : ℚ) := by exact_mod_cast (le_trans (by norm_num) (hq l hl))
    have hp0 : (0 : ℚ) ≤ l.price := by rw [hn]; positivity
    exact mul_nonneg hp0 hq0
  have ht0 : 0 ≤ o.tax := by rw [htax, ← hsub]; exact mul_nonneg hs0 (by norm_num)
  have hitems := lines_charged o.items hcents
  have hshipc := shipping_charged body.shippingMethod ("Shipping - " ++ o.shippingMethod)
  have htaxc : ((if o.tax > 0 then
      [({ name := "Tax", unit_amount := jsRound (o.tax * 100), quantity := 1 } : LineItem)]
      else []).map (fun li => li.unit_amount * li.quantity)).sum = jsRound (o.tax * 100) := by
    split
    · simp
    · have : o.tax = 0 := le_antisymm (not_lt.mp (by assumption)) ht0
      rw [this]; simp [jsRound_zero]
  have hown := createOrder_owner h
  refine ⟨?_, hq, ?_, hown, createOrder_findById h, ?_⟩
  rotate_left 2
  · intro create now db2 key hf
    rw [← hown]
    exact createCheckoutSession_owner create now db2 key o hf
  · unfold chargedCents checkoutLineItems
    simp only [List.map_append, List.sum_append, List.map_map, Function.comp_def]
    rw [htaxc, hship]
    have hcast : (o.total * 100 : ℚ) =
        (((o.items.map (fun l => jsRound (l.price * 100) * l.quantity)).sum +
          ((if shippingCostFor body.shippingMethod > 0 then
            [({ name := "Shipping - " ++ o.shippingMethod,
                unit_amount := jsRound (shippingCostFor body.shippingMethod * 100),
                quantity := 1 } : LineItem)]
           else []).map (fun li => li.unit_amount * li.quantity)).sum : ℤ) : ℚ) + o.tax * 100 := by
      rw [Int.cast_add, hitems, hshipc, htot, hdisc, hship, ← hsum]
      ring
    rw [hcast, jsRound_int_add]
  · rw [hship]
    unfold shippingCostFor
    split
    · decide!
    · split
      · decide!
      · split
        · decide!
        · decide!

theorem checkout_amount_matches_total_witness :
    createOrder sampleEnv sampleDb sampleUserId (sampleBody [sampleLine 2] "Express")
      = (sampleDbExpress, .sent 201 (.order (some "Order created successfully") sampleExpressOrder)) ∧
    checkoutLineItems sampleExpressOrder =
      [ { name := "Laptop", unit_amount := 10000, quantity := 2 },
        { name := "Shipping - Express", unit_amount := 1599, quantity := 1 },
        { name := "Tax", unit_amount := 1600, quantity := 1 } ] ∧
    jsRound (sampleExpressOrder.total * 100) = 23199 ∧
    chargedCents (checkoutLineItems sampleExpressOrder) = jsRound (sampleExpressOrder.total * 100) ∧
    Order.findById sampleDbExpress.orders (some sampleOrderId) = .ok (some sampleExpressOrder) ∧
    createCheckoutSession sampleRecordingCreate 1700000002000 sampleDbExpress sampleUserId
        (some sampleOrderId)
      = ({ sampleDbExpress with orders :=
            [{ sampleExpressOrder with paymentId := some "cs_23199",
                                       updatedAt := 1700000002000 }] },
         .sent 200 (.session "cs_23199")) :=
  ⟨by decide!, by decide!, by decide!,
   (checkout_amount_matches_total sampleEnv sampleDb sampleDbExpress sampleUserId
      (sampleBody [sampleLine 2] "Express") (some "Order created successfully") sampleExpressOrder
      (fun l hl => by
        simp only [sampleExpressOrder, sampleOrder, List.mem_singleton] at hl
        subst hl
        exact ⟨10000, by norm_num⟩)
      (by decide!)).1,
   (checkout_amount_matches_total sampleEnv sampleDb sampleDbExpress sampleUserId
      (sampleBody [sampleLine 2] "Express") (some "Order created successfully") sampleExpressOrder
      (fun l hl => by
        simp only [sampleExpressOrder, sampleOrder, List.mem_singleton] at hl
        subst hl
        exact ⟨10000, by norm_num⟩)
      (by decide!)).2.2.2.2.1 (by decide),
   ((checkout_amount_matches_total sampleEnv sampleDb sampleDbExpress sampleUserId
      (sampleBody [sampleLine 2] "Express") (some "Order created successfully") sampleExpressOrder
      (fun l hl => by
        simp only [sampleExpressOrder, sampleOrder, List.mem_singleton] at hl
        subst hl
        exact ⟨10000, by norm_num⟩)
      (by decide!)).2.2.2.2.2 sampleRecordingCreate 1700000002000 sampleDbExpress
      (some sampleOrderId) (by decide!)).trans (by decide!)⟩

/-! ## Concurrent checkouts -/

/-- A checkout served alone is its two phases run back to back on the same store. -/
theorem createOrder_eq_phases (env : Env) (db : Db) (user : ObjectId) (body : CreateOrderBody) :
    createOrder env db user body =
      match checkoutValidate db body with
      | .error out => (db, out)
      | .ok prep => checkoutCommit env db user body prep := by
  unfold createOrder checkoutValidate
  split
  · rfl
  · rfl
  · split
    · rfl
    · split
      · rename_i out hprep
        simp only [hprep]
      · rename_i prep hprep
        simp only [hprep]
        rfl

/-- C26 (failing input): two checkouts of 3 units each against a stock of 5 whose read
phases both run before either write phase.  Both pass validation against the stock of 5,
both are answered 201, and the stock ends at -1; served one after the other, the second
would have been rejected with 400. -/
theorem concurrent_checkouts_oversell :
    sampleDb.products.map (fun p => p.quantity) = [5] ∧
    checkoutValidate sampleDb (sampleBody [sampleLine 3] "Standard") = .ok samplePreparedThree ∧
    (checkoutCommit sampleEnv sampleDb sampleUserId (sampleBody [sampleLine 3] "Standard")
      samplePreparedThree).2.status = some 201 ∧
    (checkoutCommit sampleEnvB
      (checkoutCommit sampleEnv sampleDb sampleUserId (sampleBody [sampleLine 3] "Standard")
        samplePreparedThree).1
      sampleOtherUserId (sampleBody [sampleLine 3] "Standard") samplePreparedThree).2.status
      = some 201 ∧
    (checkoutCommit sampleEnvB
      (checkoutCommit sampleEnv sampleDb sampleUserId (sampleBody [sampleLine 3] "Standard")
        samplePreparedThree).1
      sampleOtherUserId (sampleBody [sampleLine 3] "Standard") samplePreparedThree).1.products.map
      (fun p => (p.quantity, p.inStock)) = [(-1, true)] ∧
    (createOrder sampleEnvB
      (createOrder sampleEnv sampleDb sampleUserId (sampleBody [sampleLine 3] "Standard")).1
      sampleOtherUserId (sampleBody [sampleLine 3] "Standard")).2.status = some 400 := by
  refine ⟨by decide, by decide!, by decide!, by decide!, by decide!, by decide!⟩

/-! ## Order numbers -/

theorem toDigitsCore_append (f : Nat) : ∀ (n : Nat) (ds : List Char),
    Nat.toDigitsCore 10 f n ds = Nat.toDigitsCore 10 f n [] ++ ds := by
  induction f with
  | zero => intro n ds; simp [Nat.toDigitsCore]
  | succ f ih =>
    intro n ds
    simp only [Nat.toDigitsCore]
    split
    · simp
    · rw [ih (n / 10) (Nat.digitChar (n % 10) :: ds), ih (n / 10) [Nat.digitChar (n % 10)]]
      simp

theorem toDigitsCore_fuel (f1 : Nat) : ∀ (f2 n : Nat), n < f1 → n < f2 →
    Nat.toDigitsCore 10 f1 n [] = Nat.toDigitsCore 10 f2 n [] := by
  induction f1 with
  | zero => intro f2 n h1 _; omega
  | succ f1 ih =>
    intro f2 n h1 h2
    cases f2 with
    | zero => omega
    | succ f2 =>
      simp only [Nat.toDigitsCore]
      split
      · rfl
      · rename_i hne
        have hlt : n / 10 < n := Nat.div_lt_self (by omega) (by norm_num)
        rw [toDigitsCore_append f1, toDigitsCore_append f2,
          ih f2 (n / 10) (by omega) (by omega)]

theorem decimal_lt {n : Nat} (h : n < 10) : decimal n = [Nat.digitChar n] := by
  unfold decimal Nat.toDigits
  simp only [Nat.toDigitsCore]
  have h0 : n / 10 = 0 := Nat.div_eq_of_lt h
  simp [h0, Nat.mod_eq_of_lt h]

theorem decimal_step {n : Nat} (h : 10 ≤ n) :
    decimal n = decimal (n / 10) ++ [Nat.digitChar (n % 10)] := by
  have h0 : ¬ n / 10 = 0 := by
    intro h0
    have := Nat.div_add_mod n 10
    have := Nat.mod_lt n (show 10 > 0 by norm_num)
    omega
  have hlt : n / 10 < n := Nat.div_lt_self (by omega) (by norm_num)
  have e : Nat.toDigitsCore 10 (n + 1) n [] =
      if n / 10 = 0 then [Nat.digitChar (n % 10)]
      else Nat.toDigitsCore 10 n (n / 10) [Nat.digitChar (n % 10)] := by
    simp only [Nat.toDigitsCore]
  show Nat.toDigitsCore 10 (n + 1) n [] =
    Nat.toDigitsCore 10 (n / 10 + 1) (n / 10) [] ++ [Nat.digitChar (n % 10)]
  rw [e, if_neg h0, toDigitsCore_append n,
    toDigitsCore_fuel n (n / 10 + 1) (n / 10) hlt (by omega)]

theorem digitChar_isDigit : ∀ d : Nat, d < 10 →
    (Nat.digitChar d).isDigit = true ∧ (Nat.digitChar d).toNat - 48 = d := by
  decide

theorem decimal_digits (n : Nat) : ∀ c ∈ decimal n, c.isDigit = true := by
  induction n using Nat.strong_induction_on with
  | _ n ih =>
    by_cases h : n < 10
    · rw [decimal_lt h]
      intro c hc
      simp only [List.mem_singleton] at hc
      subst hc
      exact (digitChar_isDigit n h).1
    · rw [decimal_step (by omega)]
      intro c hc
      rcases List.mem_append.mp hc with h1 | h1
      · exact ih (n / 10) (Nat.div_lt_self (by omega) (by norm_num)) c h1
      · simp only [List.mem_singleton] at h1
        subst h1
        exact (digitChar_isDigit (n % 10) (Nat.mod_lt n (by norm_num))).1

theorem decimalValue_append (a b : List Char) :
    decimalValue (a ++ b) = decimalValue a * 10 ^ b.length + decimalValue b := by
  induction b using List.reverseRecOn with
  | nil => simp [decimalValue]
  | append_singleton b c ih =>
    have h1 : decimalValue (a ++ (b ++ [c])) = 10 * decimalValue (a ++ b) + (c.toNat - 48) := by
      rw [← List.append_assoc]; simp [decimalValue, List.foldl_append]
    have h2 : decimalValue (b ++ [c]) = 10 * decimalValue b + (c.toNat - 48) := by
      simp [decimalValue, List.foldl_append]
    rw [h1, h2, ih, List.length_append, List.length_singleton, pow_succ]
    ring

theorem decimalValue_singleton (c : Char) : decimalValue [c] = c.toNat - 48 := by
  simp [decimalValue]

theorem decimalValue_decimal (n : Nat) : decimalValue (decimal n) = n := by
  induction n using Nat.strong_induction_on with
  | _ n ih =>
    by_cases h : n < 10
    · rw [decimal_lt h, decimalValue_singleton]
      exact (digitChar_isDigit n h).2
    · rw [decimal_step (by omega), decimalValue_append, decimalValue_singleton,
        ih (n / 10) (Nat.div_lt_self (by omega) (by norm_num)),
        (digitChar_isDigit (n % 10) (Nat.mod_lt n (by norm_num))).2]
      simp only [List.length_singleton, pow_one]
      have := Nat.div_add_mod n 10
      omega

theorem isDigit_value_le {c : Char} (h : c.isDigit = true) : c.toNat - 48 ≤ 9 := by
  simp only [Char.isDigit, Bool.and_eq_true, decide_eq_true_eq] at h
  have h2 : c.val ≤ 57 := h.2
  have : c.toNat ≤ 57 := by
    simpa [Char.toNat, UInt32.le_def] using h2
  omega

theorem decimalValue_lt (b : List Char) (hb : ∀ c ∈ b, c.isDigit = true) :
    decimalValue b < 10 ^ b.length := by
  induction b using List.reverseRecOn with
  | nil => simp [decimalValue]
  | append_singleton b c ih =>
    have hc := isDigit_value_le (hb c (by simp))
    have := ih (fun x hx => hb x (by simp [hx]))
    have e : decimalValue (b ++ [c]) = decimalValue b * 10 + (c.toNat - 48) := by
      rw [decimalValue_append, decimalValue_singleton]
      simp only [List.length_singleton, pow_one]
    have l : 10 ^ (b ++ [c]).length = 10 ^ b.length * 10 := by
      rw [List.length_append, List.length_singleton, pow_succ]
    rw [e, l]
    omega

theorem decimal_length_ge (k : Nat) : ∀ n : Nat, 10 ^ k ≤ n → k + 1 ≤ (decimal n).length := by
  induction k with
  | zero =>
    intro n _
    by_cases h : n < 10
    · rw [decimal_lt h]; simp
    · rw [decimal_step (by omega)]; simp
  | succ k ih =>
    intro n hn
    have h10 : 10 ≤ n := by
      calc 10 = 10 ^ 1 := by norm_num
        _ ≤ 10 ^ (k + 1) := Nat.pow_le_pow_right (by norm_num) (by omega)
        _ ≤ n := hn
    rw [decimal_step h10, List.length_append, List.length_singleton]
    have : 10 ^ k ≤ n / 10 := by
      rw [Nat.le_div_iff_mul_le (by norm_num)]
      rw [pow_succ] at hn
      exact hn
    have := ih (n / 10) this
    omega

theorem decimal_length_le {n k : Nat} (h : n < 10 ^ k) (hk : 0 < k) :
    (decimal n).length ≤ k :=
  Nat.toDigitsCore_length 10 (by norm_num) (n + 1) n k h hk

theorem decimalValue_replicate_zero (k : Nat) (l : List Char) :
    decimalValue (List.replicate k '0' ++ l) = decimalValue l := by
  have h0 : decimalValue (List.replicate k '0') = 0 := by
    induction k with
    | zero => rfl
    | succ k ih =>
      rw [List.replicate_succ']
      rw [decimalValue_append, ih, decimalValue_singleton]
      rfl
  rw [decimalValue_append, h0, zero_mul, zero_add]

theorem sliceLast8_spec {t : Nat} (ht : 10 ^ 7 ≤ t) :
    (sliceLast8 (decimal t)).length = 8 ∧
    (∀ c ∈ sliceLast8 (decimal t), c.isDigit = true) ∧
    decimalValue (sliceLast8 (decimal t)) = t % 10 ^ 8 := by
  have hl : 8 ≤ (decimal t).length := decimal_length_ge 7 t ht
  have hlen : (sliceLast8 (decimal t)).length = 8 := by
    unfold sliceLast8
    rw [List.length_drop]
    omega
  have hdig : ∀ c ∈ sliceLast8 (decimal t), c.isDigit = true := fun c hc =>
    decimal_digits t c (List.mem_of_mem_drop hc)
  refine ⟨hlen, hdig, ?_⟩
  have hv := decimalValue_append ((decimal t).take ((decimal t).length - 8))
    ((decimal t).drop ((decimal t).length - 8))
  rw [List.take_append_drop, decimalValue_decimal] at hv
  have hb := decimalValue_lt _ hdig
  unfold sliceLast8 at hlen hb ⊢
  rw [hlen] at hv hb
  norm_num at hv hb ⊢
  omega

theorem padStart4_spec {m : Nat} (hm : m < 10000) :
    (padStart4 (decimal m)).length = 4 ∧
    (∀ c ∈ padStart4 (decimal m), c.isDigit = true) ∧
    decimalValue (padStart4 (decimal m)) = m := by
  have hl : (decimal m).length ≤ 4 := decimal_length_le (by norm_num; exact hm) (by norm_num)
  refine ⟨?_, ?_, ?_⟩
  · unfold padStart4
    rw [List.length_append, List.length_replicate]
    omega
  · intro c hc
    unfold padStart4 at hc
    rcases List.mem_append.mp hc with h | h
    · rw [(List.mem_replicate.mp h).2]
      rfl
    · exact decimal_digits m c h
  · unfold padStart4
    rw [decimalValue_replicate_zero, decimalValue_decimal]

theorem floor_random {r : ℚ} (h0 : 0 ≤ r) (h1 : r < 1) :
    0 ≤ Rat.floor (r * 10000) ∧ (Rat.floor (r * 10000)).toNat < 10000 := by
  have e : Rat.floor (r * 10000) = ⌊r * 10000⌋ := rfl
  have a : 0 ≤ ⌊r * 10000⌋ := Int.floor_nonneg.mpr (by positivity)
  have b : ⌊r * 10000⌋ < 10000 := by
    rw [Int.floor_lt]
    push_cast
    linarith
  rw [e]
  exact ⟨a, by omega⟩

theorem orderNumberFormat_of_parts (a b : List Char) (hi lo : Nat)
    (ha : a.length = 8) (hb : b.length = 4)
    (hda : ∀ c ∈ a, c.isDigit = true) (hdb : ∀ c ∈ b, c.isDigit = true)
    (hva : decimalValue a = hi) (hvb : decimalValue b = lo) :
    orderNumberFormat (String.mk ("ATW-".toList ++ a ++ ['-'] ++ b)) hi lo = true := by
  have e1 : "ATW-".toList = ['A', 'T', 'W', '-'] := rfl
  have h8 : (("ATW-".toList ++ a ++ ['-'] ++ b).drop 4).take 8 = a := by
    rw [e1]
    simp only [List.cons_append, List.nil_append, List.drop_succ_cons, List.drop_zero,
      List.append_assoc]
    exact List.take_left' ha
  have h4 : ("ATW-".toList ++ a ++ ['-'] ++ b).drop 13 = b := by
    have : "ATW-".toList ++ a ++ ['-'] ++ b = ("ATW-".toList ++ a ++ ['-']) ++ b := rfl
    rw [this]
    exact List.drop_left' (by simp [e1, ha])
  have e0 : (String.mk ("ATW-".toList ++ a ++ ['-'] ++ b)).toList
      = "ATW-".toList ++ a ++ ['-'] ++ b := rfl
  unfold orderNumberFormat
  simp only [e0, h8, h4, ha, hb, hva, hvb, beq_self_eq_true, Bool.and_true, Bool.true_and,
    Bool.and_eq_true, List.all_eq_true]
  exact ⟨hda, hdb⟩

theorem generateOrderNumber_format {t : Nat} {r : ℚ} (ht : 10 ^ 7 ≤ t) (h0 : 0 ≤ r)
    (h1 : r < 1) :
    orderNumberFormat (generateOrderNumber t r) (t % 10 ^ 8)
      (Rat.floor (r * 10000)).toNat = true := by
  obtain ⟨ha, hda, hva⟩ := sliceLast8_spec ht
  obtain ⟨hb, hdb, hvb⟩ := padStart4_spec (floor_random h0 h1).2
  exact orderNumberFormat_of_parts _ _ _ _ ha hb hda hdb hva hvb

theorem generateOrderNumber_ne_empty (t : Nat) (r : ℚ) : generateOrderNumber t r ≠ "" := by
  intro h
  have := congrArg String.toList h
  simp [generateOrderNumber] at this

theorem preValidate_keeps (now : Nat) (random : ℚ) {o : Order} (h : o.orderNumber ≠ "") :
    preValidate now random o = o := by
  unfold preValidate
  rw [if_neg h]

/-! ## Order numbers are framed by every later step -/

theorem stripeWebhook_numbered (now : Nat) (db : Db) (v : Except String StripeEvent)
    (hu : uniqueIds db.orders) :
    (stripeWebhook now db v).1.orders.map Order.numbered = db.orders.map Order.numbered := by
  unfold stripeWebhook
  split
  · rfl
  · split
    · simp only
      split
      · rfl
      · split
        · rfl
        · rfl
        · rename_i order hf
          exact saveOrder_map _ now hu (findById_mem hf) rfl rfl
    · split
      · simp only
        split
        · rfl
        · rename_i failedOrder hf
          exact saveOrder_map _ now hu (List.mem_of_find?_eq_some hf) rfl rfl
      · rfl

theorem verifyPayment_numbered (gw : Gateway) (now : Nat) (db : Db) (sid : String)
    (hu : uniqueIds db.orders) :
    (verifyPayment gw now db sid).1.orders.map Order.numbered = db.orders.map Order.numbered := by
  unfold verifyPayment
  split
  · rfl
  · rfl
  · split
    · rfl
    · split
      · rfl
      · rfl
      · rename_i order hf
        split
        · exact saveOrder_map _ now hu (findById_mem hf) rfl rfl
        · rfl

theorem autoVerify_numbered {gw : Gateway} {order order1 : Order} {pid : String}
    (h : autoVerify gw order pid = some order1) :
    order1._id = order._id ∧ ∀ now, Order.numbered { order1 with updatedAt := now } = Order.numbered order := by
  unfold autoVerify at h
  split at h
  · split at h
    · split at h
      · simp only [Option.some.injEq] at h; subst h; exact ⟨rfl, fun _ => rfl⟩
      · simp at h
    · simp at h
  · split at h
    · split at h
      · split at h
        · simp only [Option.some.injEq] at h; subst h; exact ⟨rfl, fun _ => rfl⟩
        · simp at h
      · simp at h
    · simp at h

theorem getOrderById_numbered (gw : Gateway) (now : Nat) (db : Db) (user : ObjectId) (k : String)
    (hu : uniqueIds db.orders) :
    (getOrderById gw now db user k).1.orders.map Order.numbered = db.orders.map Order.numbered := by
  unfold getOrderById
  rw [findOrderByIdOrNumberPopulated_eq]
  split
  · rfl
  · rename_i order hf
    split
    · rfl
    · split
      · rename_i order1 h1
        split at h1
        · obtain ⟨pid, -, hp⟩ := Option.bind_eq_some.mp h1
          obtain ⟨hid, hpv⟩ := autoVerify_numbered hp
          exact saveOrder_map _ now hu (findOrderByIdOrNumber_mem hf) hid (hpv now)
        · simp at h1
      · rfl

theorem cancelOrder_numbered (now : Nat) (db : Db) (user : ObjectId) (k : String)
    (reason : Option String) (hu : uniqueIds db.orders) :
    (cancelOrder now db user k reason).1.orders.map Order.numbered = db.orders.map Order.numbered := by
  unfold cancelOrder
  split
  · rfl
  · rename_i order hf
    split
    · rfl
    · split
      · rfl
      · simp only
        split
        · rfl
        · exact saveOrder_map _ now hu (findOrderByIdOrNumber_mem hf) rfl rfl

theorem step_numbered (db : Db) (r : Request) (hu : uniqueIds db.orders) :
    (step db r).orders.map Order.numbered = db.orders.map Order.numbered := by
  unfold step
  split
  · exact cancelOrder_numbered _ _ _ _ _ hu
  · exact stripeWebhook_numbered _ _ _ hu
  · exact verifyPayment_numbered _ _ _ _ hu
  · exact getOrderById_numbered _ _ _ _ _ hu

theorem uniqueIds_of_numbered {os os1 : List Order}
    (h : os1.map Order.numbered = os.map Order.numbered) (hu : uniqueIds os) : uniqueIds os1 := by
  unfold uniqueIds at *
  have : os1.map (fun o => o._id) = os.map (fun o => o._id) := by
    have := congrArg (List.map Prod.fst) h
    simpa [List.map_map, Function.comp_def, Order.numbered] using this
  rw [this]; exact hu

theorem run_numbered (rs : List Request) (db : Db) (hu : uniqueIds db.orders) :
    (run db rs).orders.map Order.numbered = db.orders.map Order.numbered := by
  induction rs generalizing db with
  | nil => rfl
  | cons r rs ih =>
    have h1 := step_numbered db r hu
    have := ih (step db r) (uniqueIds_of_numbered h1 hu)
    simp only [run, List.foldl_cons] at this ⊢
    rw [this, h1]

theorem createCheckoutSession_numbered (create : List LineItem → Except Thrown StripeObject)
    (now : Nat) (db : Db) (user : ObjectId) (key : Option String) (hu : uniqueIds db.orders) :
    (createCheckoutSession create now db user key).1.orders.map Order.numbered
      = db.orders.map Order.numbered := by
  unfold createCheckoutSession
  split
  · rfl
  · rfl
  · rename_i order hf
    split
    · rfl
    · split
      · rfl
      · exact saveOrder_map _ now hu (findById_mem hf) rfl rfl

/-- C21: order identifier format.  For every millisecond timestamp `t ≥ 10^7` and every
random value `0 ≤ r < 1`, the number that the `pre('validate')` hook gives an order that
has none, and that `Order.create` stores, is `ATW-`, eight decimal digits spelling
`t mod 10^8`, `-`, and four decimal digits spelling `⌊10000·r⌋`; the migration step, run
on a stored order created at `t`, succeeds whenever no other order carries the number it
builds, and stores on that order a number of the same shape built from `createdAt` (it
fails with a duplicate-key error, writing nothing, exactly when another order carries
that number); and an order that has a number keeps it: the hook returns it unchanged,
`save` with the hook is the plain save, and every cancellation, webhook, verification,
read and checkout-session step leaves the `_id` and the order number of every stored
order as they were. -/
theorem orderNumber_format_stable (t : Nat) (r : ℚ) (ht : 10 ^ 7 ≤ t) (h0 : 0 ≤ r)
    (h1 : r < 1) :
    orderNumberFormat (generateOrderNumber t r) (t % 10 ^ 8)
      (Rat.floor (r * 10000)).toNat = true ∧
    ((Rat.floor (r * 10000)).toNat : Int) = Rat.floor (r * 10000) ∧
    (∀ o : Order, o.orderNumber = "" →
      orderNumberFormat (preValidate t r o).orderNumber (t % 10 ^ 8)
        (Rat.floor (r * 10000)).toNat = true) ∧
    (∀ (env : Env) (os os1 : List Order) (d : NewOrder) (doc : Order),
      env.now = t → env.random = r → Order.create env os d = .ok (os1, doc) →
      orderNumberFormat doc.orderNumber (t % 10 ^ 8) (Rat.floor (r * 10000)).toNat = true) ∧
    (∀ (now : Nat) (os : List Order) (order : Order), order.createdAt = t →
      findOrder os order._id = some order →
      ((∀ x ∈ os, x._id ≠ order._id → x.orderNumber ≠ generateOrderNumber t r) →
        migrateOrder now r os order
          = .ok (saveOrder now os { order with orderNumber := generateOrderNumber t r }) ∧
        findOrder (saveOrder now os { order with orderNumber := generateOrderNumber t r })
            order._id
          = some { order with orderNumber := generateOrderNumber t r, updatedAt := now } ∧
        orderNumberFormat
          ({ order with orderNumber := generateOrderNumber t r, updatedAt := now } : Order).orderNumber
          (t % 10 ^ 8) (Rat.floor (r * 10000)).toNat = true) ∧
      ((∃ x ∈ os, x._id ≠ order._id ∧ x.orderNumber = generateOrderNumber t r) →
        migrateOrder now r os order = .error .duplicateKey)) ∧
    (∀ (now : Nat) (rnd : ℚ) (o : Order), o.orderNumber ≠ "" →
      preValidate now rnd o = o ∧ ∀ os, Order.save now rnd os o = saveOrder now os o) ∧
    (∀ (db : Db) (rs : List Request), uniqueIds db.orders →
      (∀ o ∈ db.orders, o.orderNumber ≠ "") →
      (run db rs).orders.map Order.numbered = db.orders.map Order.numbered) ∧
    (∀ (create : List LineItem → Except Thrown StripeObject) (now : Nat) (db : Db)
      (user : ObjectId) (key : Option String), uniqueIds db.orders →
      (∀ o ∈ db.orders, o.orderNumber ≠ "") →
      (createCheckoutSession create now db user key).1.orders.map Order.numbered
        = db.orders.map Order.numbered) := by
  have hfmt := generateOrderNumber_format ht h0 h1
  refine ⟨hfmt, Int.toNat_of_nonneg (floor_random h0 h1).1, ?_, ?_, ?_, ?_, ?_, ?_⟩
  · intro o ho
    unfold preValidate
    rw [if_pos ho]
    exact hfmt
  · intro env os os1 d doc hn hr h
    obtain ⟨hd, -⟩ := Order.create_doc h
    rw [hd, hn, hr]
    exact hfmt
  · intro now os order hc hfind
    subst hc
    constructor
    · intro hfree
      have hany : os.any (fun o => o._id ≠ order._id &&
          o.orderNumber = generateOrderNumber order.createdAt r) = false := by
        rw [List.any_eq_false]
        intro x hx
        by_cases hid : x._id = order._id
        · simp [hid]
        · have := hfree x hx hid
          simp [this]
      refine ⟨?_, findOrder_updateOrder_self _ hfind rfl, hfmt⟩
      unfold migrateOrder
      simp only [hany, Bool.false_eq_true, if_false]
    · rintro ⟨x, hx, hid, hnum⟩
      have hany : os.any (fun o => o._id ≠ order._id &&
          o.orderNumber = generateOrderNumber order.createdAt r) = true := by
        rw [List.any_eq_true]
        refine ⟨x, hx, ?_⟩
        simp [hid, hnum]
      unfold migrateOrder
      simp only [hany, if_true]
  · intro now rnd o ho
    refine ⟨preValidate_keeps now rnd ho, fun os => ?_⟩
    unfold Order.save
    rw [preValidate_keeps now rnd ho]
  · intro db rs hu _
    exact run_numbered rs db hu
  · intro create now db user key hu _
    exact createCheckoutSession_numbered create now db user key hu

theorem orderNumber_format_stable_witness :
    (10 ^ 7 ≤ sampleEnv.now ∧ 0 ≤ sampleEnv.random ∧ sampleEnv.random < 1) ∧
    generateOrderNumber sampleEnv.now sampleEnv.random = "ATW-00000123-2500" ∧
    orderNumberFormat "ATW-00000123-2500" 123 2500 = true ∧
    orderNumberFormat (generateOrderNumber sampleEnv.now sampleEnv.random)
      (sampleEnv.now % 10 ^ 8) (Rat.floor (sampleEnv.random * 10000)).toNat = true ∧
    (preValidate sampleEnv.now sampleEnv.random sampleLegacyOrder).orderNumber
      = "ATW-00000123-2500" ∧
    (sampleLegacyOrder.orderNumber = "" ∧ sampleLegacyOrder.createdAt = sampleEnv.now ∧
      migrateOrder 1700000009000 sampleEnv.random [sampleLegacyOrder] sampleLegacyOrder
        = .ok [{ sampleLegacyOrder with orderNumber := "ATW-00000123-2500",
                                        updatedAt := 1700000009000 }]) ∧
    migrateOrder 1700000009000 sampleEnv.random
        [sampleLegacyOrder, { sampleOrder with _id := "64d000000000000000000002" }]
        sampleLegacyOrder
      = .error .duplicateKey ∧
    ((createOrder sampleEnv sampleDb sampleUserId (sampleBody [sampleLine 2] "Standard")).2
        = .sent 201 (.order (some "Order created successfully") sampleOrder) ∧
      sampleOrder.orderNumber = "ATW-00000123-2500") ∧
    (run sampleDbAfter sampleTrace).orders.map Order.numbered
      = [(sampleOrderId, "ATW-00000123-2500")] :=
  ⟨⟨by decide, by decide!, by decide!⟩, by decide!, by decide!,
   (orderNumber_format_stable sampleEnv.now sampleEnv.random (by decide) (by decide!)
      (by decide!)).1,
   by decide!,
   ⟨by decide, by decide,
    (((orderNumber_format_stable sampleEnv.now sampleEnv.random (by decide) (by decide!)
      (by decide!)).2.2.2.2.1 1700000009000 [sampleLegacyOrder] sampleLegacyOrder
      (by decide) (by decide!)).1 (by decide!)).1.trans (by decide!)⟩,
   ((orderNumber_format_stable sampleEnv.now sampleEnv.random (by decide) (by decide!)
      (by decide!)).2.2.2.2.1 1700000009000
      [sampleLegacyOrder, { sampleOrder with _id := "64d000000000000000000002" }]
      sampleLegacyOrder (by decide) (by decide!)).2
      ⟨{ sampleOrder with _id := "64d000000000000000000002" }, by decide!, by decide!,
        by decide!⟩,
   ⟨by decide!, by decide⟩,
   ((orderNumber_format_stable sampleEnv.now sampleEnv.random (by decide) (by decide!)
      (by decide!)).2.2.2.2.2.2.1 sampleDbAfter sampleTrace (by decide) (by decide)).trans
      (by decide)⟩

end Ecomm
